import Mathlib

/-!
# PRU Ethernet (icssg-prueth) and AM654 SD host controller glue

A shallow embedding of `drivers/net/ti/icssg-prueth.c` and
`drivers/mmc/am654_sdhci.c`.  Driver state is an explicit record that is
passed through every operation.  Calls into the external collaborators
(device tree, DMA uclass, regmap, PHY framework) are recorded in a call log
kept next to the state, and the values those collaborators hand back are
explicit arguments of the embedded functions.
-/

namespace Prueth

/-! ## Constants and machine integers -/

/-- Constants of headers that are not part of the driver file. -/
structure Consts where
  /-- Number of receive descriptors: `UDMA_RX_DESC_NUM` (`PKTBUFSRX` of `net.h`). -/
  UDMA_RX_DESC_NUM : Nat
  /-- Size of one receive buffer: `UDMA_RX_BUF_SIZE` (`PKTSIZE_ALIGN` of `net.h`). -/
  UDMA_RX_BUF_SIZE : Nat
  /-- Value of `ENODEV` in `errno.h`. -/
  ENODEV : Int
  /-- Value of `EINVAL` in `errno.h`. -/
  EINVAL : Int
  /-- Value of `EFAULT` in `errno.h`. -/
  EFAULT : Int
  /-- Value of `ICSSG_CONFIG_OFFSET_SLICE1` in `icssg.h`. -/
  ICSSG_CONFIG_OFFSET_SLICE1 : Int
  deriving Repr, DecidableEq

/-- The usual values: four descriptors of 1536 bytes, Linux errno numbers. -/
def defaultConsts : Consts :=
  { UDMA_RX_DESC_NUM := 4, UDMA_RX_BUF_SIZE := 1536,
    ENODEV := 19, EINVAL := 22, EFAULT := 14,
    ICSSG_CONFIG_OFFSET_SLICE1 := 0x8000 }

def ICSS_SLICE0 : Int := 0
def ICSS_SLICE1 : Int := 1
def MSMC_RAM_SIZE : Nat := 0x10000
def ICSSG0 : Int := 0
def ICSSG1 : Int := 1
def NUM_ICSSG : Nat := 2

/-- Range of a `u32`. -/
def U32_MOD : Nat := 2 ^ 32

/-- Store a C `int` into a `u32` object. -/
def toU32 (x : Int) : Nat := (x % (2 ^ 32 : Int)).toNat

/-- Read a `u32` object back as a C `int`. -/
def toS32 (x : Nat) : Int :=
  if x % 2 ^ 32 < 2 ^ 31 then ((x % 2 ^ 32 : Nat) : Int) else ((x % 2 ^ 32 : Nat) : Int) - 2 ^ 32

/-- A two-element C array `T a[NUM_ICSSG]`. -/
structure Arr2 (α : Type) where
  a0 : α
  a1 : α
  deriving Repr, DecidableEq

/-- Element `a[i]` (indices other than 0 select the second element). -/
def Arr2.get {α : Type} (a : Arr2 α) (i : Int) : α := if i = 0 then a.a0 else a.a1

/-- Assignment `a[i] = v`. -/
def Arr2.set {α : Type} (a : Arr2 α) (i : Int) (v : α) : Arr2 α :=
  if i = 0 then { a with a0 := v } else { a with a1 := v }

/-! ## External collaborators -/

/-- A device-tree node handle; `none` is the invalid node. -/
abbrev ofnode := Option Nat

/-- The C helper `ofnode_valid`. -/
def ofnode_valid (n : ofnode) : Bool := n.isSome

/-- One receive buffer handed to the DMA channel: index into `net_rx_packets`
and size in bytes. -/
structure RxBuf where
  pkt : Nat
  size : Nat
  deriving Repr, DecidableEq

/-- Modelled from the spec: the generic DMA channel abstraction is an external
collaborator, consumed through get / enable / disable / free and buffer
hand-over.  A receive channel is a FIFO of the buffers currently owned by the
hardware, oldest first. -/
structure Dma where
  /-- Channel name bound by `dma_get_by_name`, if any. -/
  chan : Option String
  enabled : Bool
  /-- Buffers queued to the hardware, in the order they were queued. -/
  queue : List RxBuf
  deriving Repr, DecidableEq

/-- Calls made to the external collaborators, in program order. -/
inductive Event where
  | class_set_mac_addr (miig_rt : Nat) (slice : Int)
  | class_default (miig_rt : Nat) (slice : Int)
  | class_disable (miig_rt : Nat) (slice : Int)
  | dma_get_by_name (name : String)
  | dma_prepare_rcv_buf (pkt : Nat) (size : Nat)
  | dma_enable_tx
  | dma_enable_rx
  | dma_disable_tx
  | dma_disable_rx
  | dma_free_tx
  | dma_free_rx
  | dma_send (length : Int)
  | dma_receive
  | phy_startup
  | phy_shutdown
  | writel (val : Nat) (addr : Int)
  | get_pruss_info (icssg : Int)
  | device_find_global_by_ofnode (node : ofnode)
  | parse_phy (port : Nat)
  | clk_get_by_name
  | clk_enable
  | clk_disable
  | read_sram
  | get_addr_sram (node : ofnode)
  | config_rgmiidelay (port : Nat)
  | regmap_update_bits (offset : Nat) (mask : Nat) (val : Nat)
  | cpsw_mdio_init
  | cpsw_mdio_free
  | phy_connect
  | phy_config
  | memcpy_toio (va : Int) (addr_lo : Nat) (addr_hi : Nat)
  deriving Repr, DecidableEq

/-- Modelled from the spec: `dma_get_by_name` binds the named channel when it
succeeds and leaves the handle alone when it fails. -/
def dma_get_by_name (ret : Int) (name : String) (d : Dma) : Dma :=
  if ret = 0 then { d with chan := some name } else d

/-- Modelled from the spec: `dma_prepare_rcv_buf` hands a buffer to the
hardware; a successful call appends it to the channel FIFO. -/
def dma_prepare_rcv_buf (ret : Int) (d : Dma) (b : RxBuf) : Dma :=
  if ret = 0 then { d with queue := d.queue ++ [b] } else d

/-- Modelled from the spec: `dma_enable` turns the channel on when it succeeds. -/
def dma_enable (ret : Int) (d : Dma) : Dma :=
  if ret = 0 then { d with enabled := true } else d

/-- Modelled from the spec: `dma_disable` turns the channel off. -/
def dma_disable (d : Dma) : Dma := { d with enabled := false }

/-- Modelled from the spec: `dma_free` releases the channel together with the
buffers still queued on it. -/
def dma_free (_d : Dma) : Dma := { chan := none, enabled := false, queue := [] }

/-- Modelled from the spec: `dma_receive` on a FIFO channel.  `len` is the
byte count the hardware reports (not positive when no packet is pending); a
received packet sits in the oldest queued buffer, which leaves the FIFO. -/
def dma_receive (len : Int) (d : Dma) : Int × Option RxBuf × Dma :=
  if 0 < len then
    match d.queue with
    | [] => (0, none, d)
    | b :: rest => (len, some b, { d with queue := rest })
  else (len, none, d)

/-! ## Driver state -/

/-- The C record `struct prueth`, with the call log next to it. -/
structure State where
  miig_rt : Arr2 Nat
  mdio_base : Nat
  pruss_shrdram2 : Arr2 Nat
  tmaddr : Arr2 Nat
  bus : Nat
  port_id : Nat
  sram_pa : Arr2 Nat
  phydev : Nat
  has_phy : Bool
  phy_node : ofnode
  phy_addr : Nat
  eth_node : Arr2 ofnode
  mdio_freq : Nat
  phy_interface : Int
  dma_tx : Dma
  dma_rx : Dma
  rx_next : Nat
  rx_pend : Nat
  slice : Arr2 Int
  ingress_icssg : Int
  ingress_slice : Int
  egress_icssg : Int
  egress_slice : Int
  dual_icssg : Bool
  /-- Calls made so far (not a field of the C record). -/
  log : List Event
  deriving Repr, DecidableEq

/-- Private data as the driver model allocates it: all zero. -/
def State.zero : State :=
  { miig_rt := ⟨0, 0⟩, mdio_base := 0, pruss_shrdram2 := ⟨0, 0⟩, tmaddr := ⟨0, 0⟩,
    bus := 0, port_id := 0, sram_pa := ⟨0, 0⟩, phydev := 0, has_phy := false,
    phy_node := none, phy_addr := 0, eth_node := ⟨none, none⟩, mdio_freq := 0,
    phy_interface := 0, dma_tx := ⟨none, false, []⟩, dma_rx := ⟨none, false, []⟩,
    rx_next := 0, rx_pend := 0, slice := ⟨0, 0⟩, ingress_icssg := 0,
    ingress_slice := 0, egress_icssg := 0, egress_slice := 0, dual_icssg := false,
    log := [] }

/-- The topology descriptor of a device: which ICSSG instance and slice is
ingress and which is egress. -/
structure Mapping where
  dual_icssg : Bool
  slice : Arr2 Int
  ingress_icssg : Int
  ingress_slice : Int
  egress_icssg : Int
  egress_slice : Int
  deriving Repr, DecidableEq

/-- The topology descriptor together with the PHY parameters. -/
structure Topology where
  mapping : Mapping
  phy_addr : Nat
  phy_interface : Int
  deriving Repr, DecidableEq

/-- Projection of the device state onto its topology descriptor. -/
def State.mapping (s : State) : Mapping :=
  { dual_icssg := s.dual_icssg, slice := s.slice,
    ingress_icssg := s.ingress_icssg, ingress_slice := s.ingress_slice,
    egress_icssg := s.egress_icssg, egress_slice := s.egress_slice }

/-- Projection of the device state onto topology and PHY parameters. -/
def State.topology (s : State) : Topology :=
  { mapping := s.mapping, phy_addr := s.phy_addr, phy_interface := s.phy_interface }

/-- Append one call to the log. -/
def State.emit (s : State) (e : Event) : State := { s with log := s.log ++ [e] }

/-- The assignment `priv->dma_tx = d`. -/
def State.set_dma_tx (s : State) (d : Dma) : State := { s with dma_tx := d }

/-- The assignment `priv->dma_rx = d`. -/
def State.set_dma_rx (s : State) (d : Dma) : State := { s with dma_rx := d }

/-- The assignment `priv->rx_next = n`. -/
def State.set_rx_next (s : State) (n : Nat) : State := { s with rx_next := n }

/-- The assignment `prueth->miig_rt = v`. -/
def State.set_miig_rt (s : State) (v : Arr2 Nat) : State := { s with miig_rt := v }

/-- The assignment `prueth->mdio_base = v`. -/
def State.set_mdio_base (s : State) (v : Nat) : State := { s with mdio_base := v }

/-- The assignment `prueth->pruss_shrdram2 = v`. -/
def State.set_pruss_shrdram2 (s : State) (v : Arr2 Nat) : State := { s with pruss_shrdram2 := v }

/-- The assignment `prueth->tmaddr = v`. -/
def State.set_tmaddr (s : State) (v : Arr2 Nat) : State := { s with tmaddr := v }

/-- The assignment `prueth->bus = v`. -/
def State.set_bus (s : State) (v : Nat) : State := { s with bus := v }

/-- The assignment `prueth->sram_pa = v`. -/
def State.set_sram_pa (s : State) (v : Arr2 Nat) : State := { s with sram_pa := v }

/-- The assignment `prueth->phydev = v`. -/
def State.set_phydev (s : State) (v : Nat) : State := { s with phydev := v }

/-- The assignment `prueth->phy_node = v`. -/
def State.set_phy_node (s : State) (v : ofnode) : State := { s with phy_node := v }

/-- The assignment `prueth->phy_addr = v`. -/
def State.set_phy_addr (s : State) (v : Nat) : State := { s with phy_addr := v }

/-- The assignment `prueth->eth_node = v`. -/
def State.set_eth_node (s : State) (v : Arr2 ofnode) : State := { s with eth_node := v }

/-- The assignment `prueth->mdio_freq = v`. -/
def State.set_mdio_freq (s : State) (v : Nat) : State := { s with mdio_freq := v }

/-- The assignment `prueth->phy_interface = v`. -/
def State.set_phy_interface (s : State) (v : Int) : State := { s with phy_interface := v }

/-- The assignment `prueth->slice = v`. -/
def State.set_slice (s : State) (v : Arr2 Int) : State := { s with slice := v }

/-- The assignment `prueth->ingress_icssg = v`. -/
def State.set_ingress_icssg (s : State) (v : Int) : State := { s with ingress_icssg := v }

/-- The assignment `prueth->ingress_slice = v`. -/
def State.set_ingress_slice (s : State) (v : Int) : State := { s with ingress_slice := v }

/-- The assignment `prueth->egress_icssg = v`. -/
def State.set_egress_icssg (s : State) (v : Int) : State := { s with egress_icssg := v }

/-- The assignment `prueth->egress_slice = v`. -/
def State.set_egress_slice (s : State) (v : Int) : State := { s with egress_slice := v }

/-- The assignment `prueth->dual_icssg = v`. -/
def State.set_dual_icssg (s : State) (v : Bool) : State := { s with dual_icssg := v }

/-! ## `prueth_start` -/

/-- Return values of the external calls of one `prueth_start`. -/
structure StartEnv where
  dma_get_tx : Int
  dma_get_rx : Int
  /-- Result of `dma_prepare_rcv_buf` for buffer `i`. -/
  prepare : Nat → Int
  dma_enable_tx : Int
  dma_enable_rx : Int
  phy_startup : Int

/-- An environment in which every step of `prueth_start` succeeds. -/
def StartEnv.ok : StartEnv :=
  { dma_get_tx := 0, dma_get_rx := 0, prepare := fun _ => 0,
    dma_enable_tx := 0, dma_enable_rx := 0, phy_startup := 0 }

/-- The C call `snprintf(tx_chn_name, 16, "tx%d-0", n)`. -/
def tx_chn_name (n : Int) : String := "tx" ++ toString n ++ "-0"

/-- The C call `snprintf(rx_chn_name, 16, "rx%d", n)`. -/
def rx_chn_name (n : Int) : String := "rx" ++ toString n

/-- The pair of channel names `prueth_start` asks for. -/
def chn_names (priv : State) : String × String :=
  if !priv.dual_icssg then
    (tx_chn_name priv.egress_slice, rx_chn_name priv.ingress_slice)
  else
    (tx_chn_name priv.egress_icssg, rx_chn_name priv.ingress_icssg)

/-- The priming loop `for (i = 0; i < UDMA_RX_DESC_NUM; i++)`, from index `i`
with `n` iterations left. -/
def prime_loop (c : Consts) (e : StartEnv) : Nat → Nat → State → State
  | 0, _, priv => priv
  | n + 1, i, priv =>
    let ret := e.prepare i
    let priv := priv.emit (.dma_prepare_rcv_buf i c.UDMA_RX_BUF_SIZE)
    let priv := priv.set_dma_rx
      (dma_prepare_rcv_buf ret priv.dma_rx ⟨i, c.UDMA_RX_BUF_SIZE⟩)
    prime_loop c e n (i + 1) priv

/-- First half of `prueth_start`: classifier set-up, channel lookup and
priming of the receive channel. -/
def start_channels (c : Consts) (e : StartEnv) (priv : State) : State :=
  let priv := priv.emit
    (.class_set_mac_addr (priv.miig_rt.get priv.ingress_icssg) priv.ingress_slice)
  let priv := priv.emit
    (.class_default (priv.miig_rt.get priv.ingress_icssg) priv.ingress_slice)
  let names := chn_names priv
  -- ret = dma_get_by_name(tx); a failure is only reported
  let priv := priv.emit (.dma_get_by_name names.1)
  let priv := priv.set_dma_tx (dma_get_by_name e.dma_get_tx names.1 priv.dma_tx)
  -- ret = dma_get_by_name(rx); a failure is only reported
  let priv := priv.emit (.dma_get_by_name names.2)
  let priv := priv.set_dma_rx (dma_get_by_name e.dma_get_rx names.2 priv.dma_rx)
  -- ret = dma_prepare_rcv_buf(...) for each buffer; a failure is only reported
  prime_loop c e c.UDMA_RX_DESC_NUM 0 priv

/-- The driver operation `prueth_start`. -/
def prueth_start (c : Consts) (e : StartEnv) (priv : State) : Int × State :=
  let priv := start_channels c e priv
  let ret := e.dma_enable_tx
  let priv := priv.emit .dma_enable_tx
  let priv := priv.set_dma_tx (dma_enable ret priv.dma_tx)
  if ret ≠ 0 then (ret, priv) else
  let ret := e.dma_enable_rx
  let priv := priv.emit .dma_enable_rx
  let priv := priv.set_dma_rx (dma_enable ret priv.dma_rx)
  if ret ≠ 0 then
    -- rx_fail:
    let priv := priv.emit .dma_disable_tx
    (ret, priv.set_dma_tx (dma_disable priv.dma_tx))
  else
  let ret := e.phy_startup
  let priv := priv.emit .phy_startup
  if ret ≠ 0 then
    -- phy_fail:
    let priv := priv.emit .dma_disable_rx
    let priv := priv.set_dma_rx (dma_disable priv.dma_rx)
    let priv := priv.emit .dma_disable_tx
    (ret, priv.set_dma_tx (dma_disable priv.dma_tx))
  else (0, priv)

/-! ## `prueth_send`, `prueth_recv`, `prueth_free_pkt`, `prueth_stop` -/

/-- The driver operation `prueth_send`; `ret` is what `dma_send` returns. -/
def prueth_send (ret : Int) (priv : State) (length : Int) : Int × State :=
  (ret, priv.emit (.dma_send length))

/-- The driver operation `prueth_recv`; `len` is the byte count reported by the
DMA channel.  Returns the result and the buffer stored through `packetp`. -/
def prueth_recv (len : Int) (priv : State) : (Int × Option RxBuf) × State :=
  let priv := priv.emit .dma_receive
  let r := dma_receive len priv.dma_rx
  ((r.1, r.2.1), priv.set_dma_rx r.2.2)

/-- The driver operation `prueth_free_pkt`; `prep` is what
`dma_prepare_rcv_buf` returns. -/
def prueth_free_pkt (c : Consts) (prep : Int) (priv : State) (length : Int) :
    Int × State :=
  if 0 < length then
    let pkt := priv.rx_next % c.UDMA_RX_DESC_NUM
    let priv := priv.emit (.dma_prepare_rcv_buf pkt c.UDMA_RX_BUF_SIZE)
    let priv := priv.set_dma_rx
      (dma_prepare_rcv_buf prep priv.dma_rx ⟨pkt, c.UDMA_RX_BUF_SIZE⟩)
    (prep, priv.set_rx_next ((priv.rx_next + 1) % U32_MOD))
  else (0, priv)

/-- The driver operation `prueth_stop`. -/
def prueth_stop (priv : State) : State :=
  let icssg := priv.ingress_icssg
  let slice := priv.ingress_slice
  let priv := priv.emit (.class_disable (priv.miig_rt.get icssg) slice)
  let priv := priv.emit .phy_shutdown
  let priv := priv.emit .dma_disable_tx
  let priv := priv.set_dma_tx (dma_disable priv.dma_tx)
  let priv := priv.emit .dma_free_tx
  let priv := priv.set_dma_tx (dma_free priv.dma_tx)
  let priv := priv.emit .dma_disable_rx
  let priv := priv.set_dma_rx (dma_disable priv.dma_rx)
  let priv := priv.emit .dma_free_rx
  let priv := priv.set_dma_rx (dma_free priv.dma_rx)
  -- Workaround for shutdown command
  let priv := priv.emit (.writel 0 ((priv.tmaddr.get icssg : Int) + slice * 0x200))
  if !priv.dual_icssg then priv else
  let icssg := priv.egress_icssg
  let slice := priv.egress_slice
  priv.emit (.writel 0 ((priv.tmaddr.get icssg : Int) + slice * 0x200))

/-! ## Probe -/

/-- What the device tree and the PRUSS driver answer inside one
`get_pruss_info` call. -/
structure PrussEnv where
  /-- Result of `ofnode_get_parent`. -/
  parent : ofnode
  misc_init : Int
  /-- What the accesses through the local `prussdev` give.  The source declares
  `struct udevice **prussdev = NULL`, never assigns it, passes it to
  `device_find_global_by_ofnode` and evaluates `*prussdev`: `none` when the
  platform traps an access through the null pointer, `some dev` when the
  accesses go through and `*prussdev` reads as `dev`. -/
  prussdev : Option Nat
  shrmem_ret : Int
  shrmem : Nat
  /-- Result of `syscon_regmap_lookup_by_phandle`; 0 is the null pointer. -/
  miig_rt : Nat
  tm_ret : Int
  tm : Nat

/-- What the device tree answers inside one `icssg_ofdata_parse_phy` call. -/
structure PhyEnv where
  /-- Absent `phy-mode` string, or the value of `phy_get_interface_by_name`. -/
  phy_mode : Option Int
  phandle_ret : Int
  phandle_node : ofnode
  reg_ret : Int
  reg : Nat

/-- What the device tree answers inside one `prueth_config_rgmiidelay` call. -/
structure RgmiiEnv where
  read_ret : Int
  tmp0 : Nat
  tmp1 : Nat
  node : ofnode
  /-- Result of `syscon_node_to_regmap`; 0 is the null pointer. -/
  ctrl_mmr : Nat
  enable_rgmii_delay : Bool

/-- Everything the external collaborators answer during one `prueth_probe`. -/
structure ProbeEnv where
  /-- Whether the node is compatible with `ti,am654-dualicssg-prueth`. -/
  compatible_dual : Bool
  /-- Result of reading `count` cells of the `prus` property. -/
  prus_ret : Nat → Int
  /-- Node of phandle `tmp[0]`. -/
  node0 : ofnode
  /-- Node of phandle `tmp[4]`. -/
  node4 : ofnode
  pruss0 : PrussEnv
  pruss1 : PrussEnv
  /-- Sub-node `ethernet-mii0`. -/
  eth0_node : ofnode
  /-- Sub-node `ethernet-mii1`. -/
  eth1_node : ofnode
  phy0 : PhyEnv
  phy1 : PhyEnv
  clk_get : Int
  clk_enable : Int
  sram_ret : Int
  /-- Node of the phandle read from the `sram` property. -/
  sram_node : ofnode
  /-- Result of `ofnode_get_addr` on the SRAM node. -/
  sram_addr : Nat
  rgmii0 : RgmiiEnv
  rgmii1 : RgmiiEnv
  mdio_base : Nat
  /-- Result of reading `bus_freq`; `none` when the read fails. -/
  mdio_freq : Option Nat
  /-- Result of `cpsw_mdio_init`; 0 is the null pointer. -/
  mdio_bus : Nat
  /-- Result of `phy_connect`; 0 is the null pointer. -/
  phy_connect : Nat
  phy_config : Int

def ICSSG_CTRL_RGMII_ID_MODE : Nat := 2 ^ 24

/-- The helper `get_pruss_info`; returns the result, the PRUSS node and the
new state.  After a successful `misc_init_by_ofnode` the function passes the
null pointer `prussdev` to `device_find_global_by_ofnode` and evaluates
`*prussdev`: the result is `none` when the platform traps that access, and the
function then does not return. -/
def get_pruss_info (c : Consts) (e : PrussEnv) (prueth : State) (icssg : Int) :
    Option (Int × ofnode × State) :=
  let prueth := prueth.emit (.get_pruss_info icssg)
  let pruss_node := e.parent
  let err := e.misc_init
  if err ≠ 0 then some (err, pruss_node, prueth) else
  -- the result of `device_find_global_by_ofnode` is reported and then ignored
  let prueth := prueth.emit (.device_find_global_by_ofnode pruss_node)
  -- `*prussdev` with `prussdev == NULL`
  match e.prussdev with
  | none => none
  | some _ =>
    let err := e.shrmem_ret
    let prueth := if err = 0 then
        prueth.set_pruss_shrdram2 (prueth.pruss_shrdram2.set icssg e.shrmem)
      else prueth
    if err ≠ 0 then some (err, pruss_node, prueth) else
    let prueth := prueth.set_miig_rt (prueth.miig_rt.set icssg e.miig_rt)
    if prueth.miig_rt.get icssg = 0 then some (-c.ENODEV, pruss_node, prueth) else
    let prueth := if e.tm_ret = 0 then
        prueth.set_tmaddr (prueth.tmaddr.set icssg e.tm)
      else prueth
    some (e.tm_ret, pruss_node, prueth)

/-- The helper `icssg_ofdata_parse_phy` for port `port`. -/
def icssg_ofdata_parse_phy (c : Consts) (e : PhyEnv) (port : Nat) (priv : State) :
    Int × State :=
  let priv := priv.emit (.parse_phy port)
  let priv := match e.phy_mode with
    | some i => priv.set_phy_interface i
    | none => priv
  if e.phy_mode = some (-1) then (-c.EINVAL, priv) else
  -- a phandle parse failure is reported and then ignored
  let priv := priv.set_phy_node e.phandle_node
  let ret := e.reg_ret
  let priv := if ret = 0 then priv.set_phy_addr (e.reg % U32_MOD) else priv
  (ret, priv)

/-- The helper `prueth_config_rgmiidelay` for port `port`. -/
def prueth_config_rgmiidelay (c : Consts) (e : RgmiiEnv) (port : Nat) (prueth : State) :
    Int × State :=
  let prueth := prueth.emit (.config_rgmiidelay port)
  if e.read_ret ≠ 0 then (e.read_ret, prueth) else
  if !ofnode_valid e.node then (-c.EINVAL, prueth) else
  if e.ctrl_mmr = 0 then (-c.EINVAL, prueth) else
  let val := if e.enable_rgmii_delay then 0 else ICSSG_CTRL_RGMII_ID_MODE
  (0, prueth.emit (.regmap_update_bits e.tmp1 ICSSG_CTRL_RGMII_ID_MODE val))

/-- The helper `icssg_mdio_init`. -/
def icssg_mdio_init (c : Consts) (bus : Nat) (prueth : State) : Int × State :=
  let prueth := prueth.emit .cpsw_mdio_init
  let prueth := prueth.set_bus bus
  if prueth.bus = 0 then (-c.EFAULT, prueth) else (0, prueth)

/-- The helper `icssg_phy_init`. -/
def icssg_phy_init (c : Consts) (phydev : Nat) (config_ret : Int) (priv : State) :
    Int × State :=
  let priv := priv.emit .phy_connect
  if phydev = 0 then (-c.ENODEV, priv) else
  let priv := priv.set_phydev phydev
  let priv := priv.emit .phy_config
  (config_ret, priv)

/-- The helper `icssg_config_set`: build the load-time configuration and copy
it to the shared RAM of the slice. -/
def icssg_config_set (c : Consts) (prueth : State) (icssg : Int) (slice : Int) : State :=
  let addr_lo := prueth.sram_pa.get icssg % 2 ^ 32
  let addr_hi := prueth.sram_pa.get icssg / 2 ^ 32
  let va := (prueth.pruss_shrdram2.get icssg : Int) + slice * c.ICSSG_CONFIG_OFFSET_SLICE1
  prueth.emit (.memcpy_toio va addr_lo addr_hi)

/-- Topology assignment of `prueth_probe` for a valid `ethernet-mii0` node. -/
def topology_mii0 (prueth : State) : State :=
  if !prueth.dual_icssg then
    let prueth := prueth.set_slice (prueth.slice.set ICSSG0 0)
    let prueth := prueth.set_egress_icssg ICSSG0
    let prueth := prueth.set_egress_slice 0
    let prueth := prueth.set_ingress_icssg ICSSG0
    prueth.set_ingress_slice 0
  else
    let prueth := prueth.set_slice (prueth.slice.set ICSSG0 0)
    let prueth := prueth.set_slice (prueth.slice.set ICSSG1 1)
    let prueth := prueth.set_egress_icssg ICSSG1
    let prueth := prueth.set_egress_slice 1
    let prueth := prueth.set_ingress_icssg ICSSG0
    prueth.set_ingress_slice 0

/-- Topology assignment of `prueth_probe` for a valid `ethernet-mii1` node. -/
def topology_mii1 (prueth : State) : State :=
  if !prueth.dual_icssg then
    let prueth := prueth.set_slice (prueth.slice.set ICSSG0 1)
    let prueth := prueth.set_egress_icssg ICSSG0
    let prueth := prueth.set_egress_slice 0
    let prueth := prueth.set_ingress_icssg ICSSG0
    prueth.set_ingress_slice 0
  else
    let prueth := prueth.set_slice (prueth.slice.set ICSSG0 1)
    let prueth := prueth.set_slice (prueth.slice.set ICSSG1 0)
    let prueth := prueth.set_egress_icssg ICSSG0
    let prueth := prueth.set_egress_slice 1
    let prueth := prueth.set_ingress_icssg ICSSG1
    prueth.set_ingress_slice 0

/-- First part of `prueth_probe`: compatible string, `prus` property and PRUSS
lookup.  Returns an error code, or the PRUSS node of ICSSG0 and the state;
`none` when a `get_pruss_info` call does not return. -/
def probe_pruss (c : Consts) (e : ProbeEnv) (prueth : State) :
    Option (Except (Int × State) (ofnode × State)) :=
  let prueth := if e.compatible_dual then prueth.set_dual_icssg true else prueth
  let err := toU32 (if prueth.dual_icssg then e.prus_ret 8 else e.prus_ret 4)
  if err ≠ 0 then some (.error (toS32 err, prueth)) else
  let node := e.node0
  if !ofnode_valid node then some (.error (-c.EINVAL, prueth)) else
  match get_pruss_info c e.pruss0 prueth ICSSG0 with
  | none => none
  | some r =>
    let pruss_node := r.2.1
    let prueth := r.2.2
    if r.1 ≠ 0 then some (.error (r.1, prueth)) else
    if prueth.dual_icssg then
      match get_pruss_info c e.pruss1 prueth ICSSG1 with
      | none => none
      | some r =>
        if r.1 ≠ 0 then some (.error (r.1, r.2.2)) else some (.ok (pruss_node, r.2.2))
    else some (.ok (pruss_node, prueth))

/-- The block of `prueth_probe` guarded by `ofnode_valid(eth0_node)`. -/
def probe_mii0 (c : Consts) (e : ProbeEnv) (prueth : State) : State :=
  let prueth := topology_mii0 prueth
  let prueth := (icssg_ofdata_parse_phy c e.phy0 0 prueth).2
  prueth.set_eth_node (prueth.eth_node.set 0 e.eth0_node)

/-- The block of `prueth_probe` guarded by `ofnode_valid(eth1_node)`. -/
def probe_mii1 (c : Consts) (e : ProbeEnv) (prueth : State) : State :=
  let prueth := topology_mii1 prueth
  let prueth := (icssg_ofdata_parse_phy c e.phy1 1 prueth).2
  prueth.set_eth_node (prueth.eth_node.set 0 e.eth1_node)

/-- The two topology blocks of `prueth_probe`, each guarded by the validity
of its sub-node. -/
def probe_topology (c : Consts) (e : ProbeEnv) (prueth : State) : State :=
  let prueth := if ofnode_valid e.eth0_node then probe_mii0 c e prueth else prueth
  if ofnode_valid e.eth1_node then probe_mii1 c e prueth else prueth

/-- The part of `prueth_probe` that derives `sram_pa[]` from the SRAM node. -/
def probe_sram (e : ProbeEnv) (sram_node : ofnode) (prueth : State) : State :=
  let prueth := prueth.emit (.get_addr_sram sram_node)
  let prueth := prueth.set_sram_pa (prueth.sram_pa.set ICSSG0 (e.sram_addr % U32_MOD))
  if prueth.dual_icssg then
    prueth.set_sram_pa
      (prueth.sram_pa.set ICSSG1 ((prueth.sram_pa.get ICSSG0 + MSMC_RAM_SIZE) % U32_MOD))
  else prueth

/-- The part of `prueth_probe` that configures the RGMII delay of the valid
port nodes. -/
def probe_rgmii (c : Consts) (e : ProbeEnv) (prueth : State) : Int × State :=
  let r0 := if ofnode_valid e.eth0_node then prueth_config_rgmiidelay c e.rgmii0 0 prueth
            else (0, prueth)
  if r0.1 ≠ 0 then r0 else
  if ofnode_valid e.eth1_node then prueth_config_rgmiidelay c e.rgmii1 1 r0.2
  else (0, r0.2)

/-- The part of `prueth_probe` from the MDIO lookup to the end. -/
def probe_mdio (c : Consts) (e : ProbeEnv) (prueth : State) : Int × State :=
  let prueth := prueth.set_mdio_base e.mdio_base
  let prueth := match e.mdio_freq with
    | some f => prueth.set_mdio_freq (f % U32_MOD)
    | none => prueth
  let r := icssg_mdio_init c e.mdio_bus prueth
  if r.1 ≠ 0 then r else
  let r := icssg_phy_init c e.phy_connect e.phy_config r.2
  if r.1 ≠ 0 then
    -- out:
    let prueth := r.2.emit .cpsw_mdio_free
    (r.1, prueth.emit .clk_disable)
  else
  let prueth := r.2
  -- Set Load time configuration
  let prueth := icssg_config_set c prueth ICSSG0 (prueth.slice.get ICSSG0)
  let prueth :=
    if prueth.dual_icssg then icssg_config_set c prueth ICSSG1 (prueth.slice.get ICSSG1)
    else prueth
  (0, prueth)

/-- The part of `prueth_probe` from the RGMII delay set-up to the end. -/
def probe_phy (c : Consts) (e : ProbeEnv) (prueth : State) : Int × State :=
  let r := probe_rgmii c e prueth
  if r.1 ≠ 0 then r else probe_mdio c e r.2

/-- Last part of `prueth_probe`, from `clk_get_by_name` to the end.  `node` is
the device node held in the local variable `node` at that point. -/
def probe_resources (c : Consts) (e : ProbeEnv) (node : ofnode) (prueth : State) :
    Int × State :=
  let prueth := prueth.emit .clk_get_by_name
  if e.clk_get ≠ 0 then (e.clk_get, prueth) else
  let prueth := prueth.emit .clk_enable
  if e.clk_enable ≠ 0 then (e.clk_enable, prueth) else
  let prueth := prueth.emit .read_sram
  if e.sram_ret ≠ 0 then (e.sram_ret, prueth) else
  let sram_node := e.sram_node
  -- the validity test is made on `node`, the device node
  if !ofnode_valid node then (-c.EINVAL, prueth) else
  probe_phy c e (probe_sram e sram_node prueth)

/-- Middle and last part of `prueth_probe`: the sub-node check, the topology
blocks and the resources.  `dev_node` is the device node. -/
def probe_ports (c : Consts) (e : ProbeEnv) (dev_node : ofnode) (prueth : State) :
    Int × State :=
  let node := dev_node
  let eth0_node := e.eth0_node
  let eth1_node := e.eth1_node
  -- one node must be present and available else we fail
  if !ofnode_valid eth0_node && !ofnode_valid eth1_node then (-c.ENODEV, prueth) else
  -- exactly one node must be present
  if ofnode_valid eth0_node && ofnode_valid eth1_node then (-c.EINVAL, prueth) else
  probe_resources c e node (probe_topology c e prueth)

/-- The driver entry point `prueth_probe` on the private data `prueth` of a
device whose node is `dev_node`; `none` when the probe does not return because
an access through the null pointer of `get_pruss_info` is trapped. -/
def prueth_probe (c : Consts) (e : ProbeEnv) (dev_node : ofnode) (prueth : State) :
    Option (Int × State) :=
  match probe_pruss c e prueth with
  | none => none
  | some (.error r) => some r
  | some (.ok (_, prueth)) => some (probe_ports c e dev_node prueth)

/-! ## Call sequences -/

/-- A run of consecutive `prueth_free_pkt` calls; each call is given as the
result of its `dma_prepare_rcv_buf` and its `length` argument. -/
def free_pkt_run (c : Consts) : List (Int × Int) → State → State
  | [], priv => priv
  | a :: rest, priv => free_pkt_run c rest (prueth_free_pkt c a.1 priv a.2).2

/-- One round of the receive path: `prueth_recv`, then `prueth_free_pkt` with
the length that `prueth_recv` returned.  Yields the buffer returned by the
receive and the calls made by the free. -/
def rx_round (c : Consts) (len : Int) (priv : State) :
    (Option RxBuf × List Event) × State :=
  let r := prueth_recv len priv
  let f := prueth_free_pkt c 0 r.2 r.1.1
  ((r.1.2, f.2.log.drop r.2.log.length), f.2)

/-- A sequence of receive rounds, one per reported packet length. -/
def rx_rounds (c : Consts) : List Int → State → List (Option RxBuf × List Event) × State
  | [], priv => ([], priv)
  | len :: rest, priv =>
    let r := rx_round c len priv
    let t := rx_rounds c rest r.2
    (r.1 :: t.1, t.2)

/-- The contents of the receive FIFO after `k` receive rounds on a primed ring:
buffers `k, k+1, ...` modulo the ring size. -/
def ring (c : Consts) (k : Nat) : List RxBuf :=
  (List.range c.UDMA_RX_DESC_NUM).map
    (fun i => ⟨(k + i) % c.UDMA_RX_DESC_NUM, c.UDMA_RX_BUF_SIZE⟩)

/-- A configuration with three receive descriptors. -/
def threeConsts : Consts := { defaultConsts with UDMA_RX_DESC_NUM := 3 }

/-- The reported lengths of `2^32` received packets of 60 bytes. -/
def wrap_rounds : List Int := List.replicate (2 ^ 32) 60

/-- A device tree answer for one PRUSS instance where every lookup succeeds,
on a platform that lets the accesses through the null `prussdev` pass. -/
def PrussEnv.sample : PrussEnv :=
  { parent := some 10, misc_init := 0, prussdev := some 0, shrmem_ret := 0,
    shrmem := 0xb010000, miig_rt := 1, tm_ret := 0, tm := 0xb02a000 }

/-- The same answers on a platform that traps accesses through a null
pointer. -/
def PrussEnv.trapping : PrussEnv := { PrussEnv.sample with prussdev := none }

/-- A port node with an RGMII PHY at address 0. -/
def PhyEnv.sample : PhyEnv :=
  { phy_mode := some 7, phandle_ret := 0, phandle_node := some 20, reg_ret := 0, reg := 0 }

/-- A port node with a valid `syscon-rgmii-delay` property. -/
def RgmiiEnv.sample : RgmiiEnv :=
  { read_ret := 0, tmp0 := 5, tmp1 := 0x4110, node := some 30, ctrl_mmr := 1,
    enable_rgmii_delay := false }

/-- A single-ICSSG device tree with the `ethernet-mii0` sub-node only, on which
every probe step succeeds. -/
def ProbeEnv.mii0 : ProbeEnv :=
  { compatible_dual := false, prus_ret := fun _ => 0, node0 := some 2, node4 := some 3,
    pruss0 := PrussEnv.sample, pruss1 := PrussEnv.sample,
    eth0_node := some 4, eth1_node := none,
    phy0 := PhyEnv.sample, phy1 := PhyEnv.sample,
    clk_get := 0, clk_enable := 0, sram_ret := 0, sram_node := some 6,
    sram_addr := 0x70000000, rgmii0 := RgmiiEnv.sample, rgmii1 := RgmiiEnv.sample,
    mdio_base := 0xb032400, mdio_freq := some 1000000, mdio_bus := 1,
    phy_connect := 1, phy_config := 0 }

/-- The same device tree with the `ethernet-mii1` sub-node only. -/
def ProbeEnv.mii1 : ProbeEnv :=
  { ProbeEnv.mii0 with eth0_node := none, eth1_node := some 5 }

/-- The same device tree with neither port sub-node. -/
def ProbeEnv.no_port : ProbeEnv := { ProbeEnv.mii0 with eth0_node := none }

/-- The same device tree with both port sub-nodes. -/
def ProbeEnv.both_ports : ProbeEnv := { ProbeEnv.mii0 with eth1_node := some 5 }

/-- The dual-ICSSG device tree with the `ethernet-mii0` sub-node only. -/
def ProbeEnv.dual_mii0 : ProbeEnv := { ProbeEnv.mii0 with compatible_dual := true }

/-- The dual-ICSSG device tree with the `ethernet-mii1` sub-node only. -/
def ProbeEnv.dual_mii1 : ProbeEnv := { ProbeEnv.mii1 with compatible_dual := true }

/-! ## Restart and roll-back -/

/-- The `dma_disable` calls of a call log, in program order. -/
def disable_calls (log : List Event) : List Event :=
  log.filter (fun ev => match ev with
    | .dma_disable_tx => true
    | .dma_disable_rx => true
    | _ => false)

/-- A restart of the interface: `prueth_stop` followed by `prueth_start`. -/
def restart (c : Consts) (e : StartEnv) (priv : State) : State :=
  (prueth_start c e (prueth_stop priv)).2

/-- A device tree like `ProbeEnv.mii0` whose `sram` phandle resolves to no
node; `ofnode_get_addr` on the invalid node yields `FDT_ADDR_T_NONE`. -/
def ProbeEnv.bad_sram : ProbeEnv :=
  { ProbeEnv.mii0 with sram_node := none, sram_addr := 2 ^ 64 - 1 }

/-- The device tree of `ProbeEnv.mii0` on a platform that traps accesses
through a null pointer. -/
def ProbeEnv.trapping : ProbeEnv := { ProbeEnv.mii0 with pruss0 := PrussEnv.trapping }

/-- The private data after the PRUSS lookup of `prueth_probe` on a zeroed
single-ICSSG device with the answers of `PrussEnv.sample`. -/
def State.looked_up : State :=
  { State.zero with
    pruss_shrdram2 := State.zero.pruss_shrdram2.set ICSSG0 0xb010000,
    miig_rt := State.zero.miig_rt.set ICSSG0 1,
    tmaddr := State.zero.tmaddr.set ICSSG0 0xb02a000,
    log := [Event.get_pruss_info ICSSG0, Event.device_find_global_by_ofnode (some 10)] }

end Prueth

namespace Sdhci

/-! ## Register layout of the AM654 SD host controller -/

/-- The kernel-style helper `BIT(n)`. -/
def BIT (n : Nat) : Nat := 2 ^ n

/-- The kernel-style helper `GENMASK(h, l)`: bits `l` to `h`, both included. -/
def GENMASK (h l : Nat) : Nat := 2 ^ (h + 1) - 2 ^ l

def CTL_CFG_2 : Nat := 0x14
def SLOTTYPE_MASK : Nat := GENMASK 31 30
def SLOTTYPE_EMBEDDED : Nat := BIT 30

def PHY_CTRL1 : Nat := 0x100
def PHY_CTRL2 : Nat := 0x104
def PHY_CTRL3 : Nat := 0x108
def PHY_CTRL4 : Nat := 0x10C
def PHY_CTRL5 : Nat := 0x110
def PHY_CTRL6 : Nat := 0x114
def PHY_STAT1 : Nat := 0x130
def PHY_STAT2 : Nat := 0x134

def IOMUX_ENABLE_SHIFT : Nat := 31
def IOMUX_ENABLE_MASK : Nat := BIT IOMUX_ENABLE_SHIFT
def OTAPDLYENA_SHIFT : Nat := 20
def OTAPDLYENA_MASK : Nat := BIT OTAPDLYENA_SHIFT
def OTAPDLYSEL_SHIFT : Nat := 12
def OTAPDLYSEL_MASK : Nat := GENMASK 15 12
def STRBSEL_SHIFT : Nat := 24
def STRBSEL_MASK : Nat := GENMASK 27 24
def SEL50_SHIFT : Nat := 8
def SEL50_MASK : Nat := BIT SEL50_SHIFT
def SEL100_SHIFT : Nat := 9
def SEL100_MASK : Nat := BIT SEL100_SHIFT
def DLL_TRIM_ICP_SHIFT : Nat := 4
def DLL_TRIM_ICP_MASK : Nat := GENMASK 7 4
def DR_TY_SHIFT : Nat := 20
def DR_TY_MASK : Nat := GENMASK 22 20
def ENDLL_SHIFT : Nat := 1
def ENDLL_MASK : Nat := BIT ENDLL_SHIFT
def DLLRDY_SHIFT : Nat := 0
def DLLRDY_MASK : Nat := BIT DLLRDY_SHIFT
def PDB_SHIFT : Nat := 0
def PDB_MASK : Nat := BIT PDB_SHIFT
def CALDONE_SHIFT : Nat := 1
def CALDONE_MASK : Nat := BIT CALDONE_SHIFT
def RETRIM_SHIFT : Nat := 17
def RETRIM_MASK : Nat := BIT RETRIM_SHIFT

def DRIVER_STRENGTH_50_OHM : Nat := 0x0
def DRIVER_STRENGTH_33_OHM : Nat := 0x1
def DRIVER_STRENGTH_66_OHM : Nat := 0x2
def DRIVER_STRENGTH_100_OHM : Nat := 0x3
def DRIVER_STRENGTH_40_OHM : Nat := 0x4

def AM654_SDHCI_MIN_FREQ : Nat := 400000

def SDHCI_TUNING_LOOP_COUNT : Nat := 40

/-- Constants of the generic SDHCI and MMC headers, which are not part of the
driver file, and the one property of the C implementation the driver depends
on. -/
structure Consts where
  SDHCI_HOST_CONTROL2 : Nat
  SDHCI_CTRL_EXEC_TUNING : Nat
  SDHCI_CTRL_TUNED_CLK : Nat
  SDHCI_INT_ENABLE : Nat
  SDHCI_SIGNAL_ENABLE : Nat
  SDHCI_INT_DATA_AVAIL : Nat
  SDHCI_INT_DATA_MASK : Nat
  SDHCI_INT_CMD_MASK : Nat
  SDHCI_BLOCK_SIZE : Nat
  SDHCI_BLOCK_COUNT : Nat
  SDHCI_TRANSFER_MODE : Nat
  SDHCI_TRNS_READ : Nat
  SDHCI_DEFAULT_BOUNDARY_ARG : Nat
  SDHCI_CLOCK_CONTROL : Nat
  SDHCI_CLOCK_CARD_EN : Nat
  MMC_CMD_SEND_TUNING_BLOCK : Nat
  MMC_CMD_SEND_TUNING_BLOCK_HS200 : Nat
  EINVAL : Int
  /-- Whether plain `char` is a signed type.  The C standard leaves this to the
  implementation; the ARM procedure call standard, which the cores of the
  AM654 follow, makes it unsigned. -/
  char_signed : Bool
  deriving Repr, DecidableEq

/-- The values of `sdhci.h`, `mmc.h` and `errno.h`, with plain `char` unsigned
as on the ARM cores of the AM654. -/
def defaultConsts : Consts :=
  { SDHCI_HOST_CONTROL2 := 0x3E, SDHCI_CTRL_EXEC_TUNING := 0x0040,
    SDHCI_CTRL_TUNED_CLK := 0x0080, SDHCI_INT_ENABLE := 0x34,
    SDHCI_SIGNAL_ENABLE := 0x38, SDHCI_INT_DATA_AVAIL := 0x20,
    SDHCI_INT_DATA_MASK := 0x00F00000 + 0x3E, SDHCI_INT_CMD_MASK := 0x000F0001,
    SDHCI_BLOCK_SIZE := 0x04, SDHCI_BLOCK_COUNT := 0x06,
    SDHCI_TRANSFER_MODE := 0x0C, SDHCI_TRNS_READ := 0x10,
    SDHCI_DEFAULT_BOUNDARY_ARG := 7, SDHCI_CLOCK_CONTROL := 0x2C,
    SDHCI_CLOCK_CARD_EN := 0x0004, MMC_CMD_SEND_TUNING_BLOCK := 19,
    MMC_CMD_SEND_TUNING_BLOCK_HS200 := 21, EINVAL := 22, char_signed := false }

/-- The same constants on an implementation whose plain `char` is signed. -/
def signedCharConsts : Consts := { defaultConsts with char_signed := true }

/-- Value of an integer after conversion to plain `char`. -/
def toChar (k : Consts) (x : Int) : Int :=
  if k.char_signed then (x + 128) % 256 - 128 else x % 256

/-- The C expression `x & ~m` on a `u32`. -/
def clear_bits (x m : Nat) : Nat := x &&& ((2 ^ 32 - 1 - m % 2 ^ 32) % 2 ^ 32)

/-- The header helper `SDHCI_MAKE_BLKSZ(dma, blksz)`. -/
def SDHCI_MAKE_BLKSZ (dma blksz : Nat) : Nat := ((dma &&& 0x7) <<< 12) ||| (blksz &&& 0xFFF)

/-- Calls made to the controller and to the external collaborators. -/
inductive Event where
  | sdhci_readw (reg : Nat)
  | sdhci_writew (val : Nat) (reg : Nat)
  | sdhci_writel (val : Nat) (reg : Nat)
  | mmc_send_cmd (cmdidx : Nat) (blocksize : Nat)
  | udelay (usec : Nat)
  | regmap_update_bits (reg : Nat) (mask : Nat) (val : Nat)
  | regmap_read (reg : Nat)
  | regmap_read_poll_timeout (reg : Nat) (mask : Nat)
  | sdhci_set_clock (speed : Nat)
  | mmc_of_parse
  deriving Repr, DecidableEq

/-- The C record `struct am654_sdhci_plat` (without the generic MMC parts),
with the call log next to it. -/
structure Plat where
  non_removable : Bool
  otap_del_sel : Nat
  trm_icp : Nat
  drv_strength : Nat
  dll_on : Bool
  /-- Calls made so far (not a field of the C record). -/
  log : List Event
  deriving Repr, DecidableEq

/-- Append one call to the log. -/
def Plat.emit (p : Plat) (e : Event) : Plat := { p with log := p.log ++ [e] }

/-- The assignment `plat->dll_on = v`. -/
def Plat.set_dll_on (p : Plat) (v : Bool) : Plat := { p with dll_on := v }

/-- Platform data as the driver model allocates it: all zero. -/
def Plat.zero : Plat :=
  { non_removable := false, otap_del_sel := 0, trm_icp := 0, drv_strength := 0,
    dll_on := false, log := [] }

/-! ## `am654_sdhci_execute_tuning` -/

/-- The `do ... while (ctrl & SDHCI_CTRL_EXEC_TUNING)` loop.  `n` is the value
of `tuning_loop_counter` on entry to an iteration (40 at the start, so it
fits a `char` of either signedness), `i` the number of tuning
commands sent so far, `ctrl` the current value of the local `ctrl`, and
`rb i` the value read back from `HOST_CONTROL2` after command `i`.  Returns the
final counter, the final `ctrl` and the log. -/
def tuning_loop (k : Consts) (rb : Nat → Nat) (opcode bus_width : Nat) :
    Nat → Nat → Nat → List Event → Int × Nat × List Event
  | 0, _, ctrl, log => (toChar k ((0 : Int) - 1), ctrl, log)
  | n + 1, i, _, log =>
    let blocksize :=
      if opcode = k.MMC_CMD_SEND_TUNING_BLOCK_HS200 ∧ bus_width = 8 then 128 else 64
    let log := log ++ [.sdhci_writew
      (SDHCI_MAKE_BLKSZ k.SDHCI_DEFAULT_BOUNDARY_ARG blocksize) k.SDHCI_BLOCK_SIZE]
    let log := log ++ [.sdhci_writew 1 k.SDHCI_BLOCK_COUNT]
    let log := log ++ [.sdhci_writew k.SDHCI_TRNS_READ k.SDHCI_TRANSFER_MODE]
    let log := log ++ [.mmc_send_cmd opcode blocksize]
    let log := log ++ [.sdhci_readw k.SDHCI_HOST_CONTROL2]
    let ctrl := rb i % 2 ^ 16
    let log := if opcode = k.MMC_CMD_SEND_TUNING_BLOCK then log ++ [.udelay 1] else log
    if ctrl &&& k.SDHCI_CTRL_EXEC_TUNING ≠ 0 then
      tuning_loop k rb opcode bus_width n (i + 1) ctrl log
    else (toChar k (n : Int), ctrl, log)

/-- The part of `am654_sdhci_execute_tuning` after the loop, entered with the
final `tuning_loop_counter` and `ctrl`. -/
def tuning_exit (k : Consts) (tuning_loop_counter : Int) (ctrl : Nat) (log : List Event) :
    Int × List Event :=
  let ctrl := if tuning_loop_counter < 0 then clear_bits ctrl k.SDHCI_CTRL_TUNED_CLK else ctrl
  let log := if tuning_loop_counter < 0 then
      log ++ [.sdhci_writel ctrl k.SDHCI_HOST_CONTROL2]
    else log
  if ctrl &&& k.SDHCI_CTRL_TUNED_CLK = 0 then (-1, log) else
  -- Enable only interrupts served by the SD controller
  let log := log ++ [.sdhci_writel (k.SDHCI_INT_DATA_MASK ||| k.SDHCI_INT_CMD_MASK)
    k.SDHCI_INT_ENABLE]
  -- Mask all sdhci interrupt sources
  let log := log ++ [.sdhci_writel 0 k.SDHCI_SIGNAL_ENABLE]
  (0, log)

/-- The part of `am654_sdhci_execute_tuning` before the loop: the calls made
and the value of `ctrl`. -/
def tuning_entry (k : Consts) (ctrl0 : Nat) : Nat × List Event :=
  let log := [Event.sdhci_readw k.SDHCI_HOST_CONTROL2]
  let ctrl := ctrl0 % 2 ^ 16
  let ctrl := ctrl ||| k.SDHCI_CTRL_EXEC_TUNING
  let log := log ++ [.sdhci_writew (ctrl % 2 ^ 16) k.SDHCI_HOST_CONTROL2]
  let log := log ++ [.sdhci_writel k.SDHCI_INT_DATA_AVAIL k.SDHCI_INT_ENABLE]
  let log := log ++ [.sdhci_writel k.SDHCI_INT_DATA_AVAIL k.SDHCI_SIGNAL_ENABLE]
  (ctrl, log)

/-- The platform hook `am654_sdhci_execute_tuning`.  `ctrl0` is the value of
`HOST_CONTROL2` read on entry and `rb i` the value read back after tuning
command `i`.  Returns the result and the calls made. -/
def am654_sdhci_execute_tuning (k : Consts) (ctrl0 : Nat) (rb : Nat → Nat)
    (opcode bus_width : Nat) : Int × List Event :=
  let entry := tuning_entry k ctrl0
  let r := tuning_loop k rb opcode bus_width SDHCI_TUNING_LOOP_COUNT 0 entry.1 entry.2
  tuning_exit k r.1 r.2.1 r.2.2

/-! ## `am654_sdhci_set_ios_post` -/

/-- The hook `am654_sdhci_set_ios_post`.  `speed` is `host->mmc->clock`,
`clk_ctrl` the value read from `SDHCI_CLOCK_CONTROL` and `poll` the result of
the DLL-ready poll (0, or the error of a timeout). -/
def am654_sdhci_set_ios_post (k : Consts) (clk_ctrl : Nat) (poll : Int)
    (speed : Nat) (plat : Plat) : Int × Plat :=
  -- Reset SD Clock Enable
  let plat := plat.emit (.sdhci_readw k.SDHCI_CLOCK_CONTROL)
  let val := clk_ctrl % 2 ^ 16
  let val := clear_bits val k.SDHCI_CLOCK_CARD_EN
  let plat := plat.emit (.sdhci_writew (val % 2 ^ 16) k.SDHCI_CLOCK_CONTROL)
  -- power off phy
  let plat :=
    if plat.dll_on then
      let plat := plat.emit (.regmap_update_bits PHY_CTRL1 ENDLL_MASK 0)
      plat.set_dll_on false
    else plat
  -- restart clock
  let plat := plat.emit (.sdhci_set_clock speed)
  -- switch phy back on
  if AM654_SDHCI_MIN_FREQ < speed then
    let mask := OTAPDLYENA_MASK ||| OTAPDLYSEL_MASK
    let val := (1 <<< OTAPDLYENA_SHIFT) ||| ((plat.otap_del_sel <<< OTAPDLYSEL_SHIFT) % 2 ^ 32)
    let plat := plat.emit (.regmap_update_bits PHY_CTRL4 mask val)
    let sel : Nat × Nat :=
      if speed = 200000000 then (0, 0)
      else if speed = 100000000 then (0, 1)
      else (1, 0)
    -- Configure PHY DLL frequency
    let mask := SEL50_MASK ||| SEL100_MASK
    let val := (sel.1 <<< SEL50_SHIFT) ||| (sel.2 <<< SEL100_SHIFT)
    let plat := plat.emit (.regmap_update_bits PHY_CTRL5 mask val)
    -- Configure DLL TRIM
    let mask := DLL_TRIM_ICP_MASK
    let val := (plat.trm_icp <<< DLL_TRIM_ICP_SHIFT) % 2 ^ 32
    -- Configure DLL driver strength
    let mask := mask ||| DR_TY_MASK
    let val := val ||| ((plat.drv_strength <<< DR_TY_SHIFT) % 2 ^ 32)
    let plat := plat.emit (.regmap_update_bits PHY_CTRL1 mask val)
    -- Enable DLL
    let plat := plat.emit (.regmap_update_bits PHY_CTRL1 ENDLL_MASK (0x1 <<< ENDLL_SHIFT))
    -- Poll for DLL ready
    let ret := poll
    let plat := plat.emit (.regmap_read_poll_timeout PHY_STAT1 DLLRDY_MASK)
    if ret ≠ 0 then (ret, plat) else
    (0, plat.set_dll_on true)
  else (0, plat)

/-! ## `am654_sdhci_init` -/

/-- The helper `am654_sdhci_init`.  `stat1` is the value read from `PHY_STAT1`
and `poll` the result of the calibration poll. -/
def am654_sdhci_init (stat1 : Nat) (poll : Int) (plat : Plat) : Int × Plat :=
  -- Reset OTAP to default value
  let mask := OTAPDLYENA_MASK ||| OTAPDLYSEL_MASK
  let plat := plat.emit (.regmap_update_bits PHY_CTRL4 mask 0x0)
  let plat := plat.emit (.regmap_read PHY_STAT1)
  let val := stat1 % 2 ^ 32
  let r : Int × Plat :=
    if (2 ^ 32 - 1 - val) &&& CALDONE_MASK ≠ 0 then
      -- Calibrate IO lines
      let plat := plat.emit (.regmap_update_bits PHY_CTRL1 PDB_MASK PDB_MASK)
      let plat := plat.emit (.regmap_read_poll_timeout PHY_STAT1 CALDONE_MASK)
      (poll, plat)
    else (0, plat)
  if r.1 ≠ 0 then r else
  let plat := r.2
  -- Enable pins by setting IO mux to 0
  let plat := plat.emit (.regmap_update_bits PHY_CTRL1 IOMUX_ENABLE_MASK 0)
  -- Set slot type based on SD or eMMC
  let ctl_cfg_2 := if plat.non_removable then SLOTTYPE_EMBEDDED else 0
  let plat := plat.emit (.regmap_update_bits CTL_CFG_2 SLOTTYPE_MASK ctl_cfg_2)
  (0, plat)

/-! ## `am654_sdhci_ofdata_to_platdata` -/

/-- What the device tree answers during `am654_sdhci_ofdata_to_platdata`:
for each `dev_read_u32` the result and the value. -/
structure OfdataEnv where
  non_removable : Bool
  trm_icp_ret : Int
  trm_icp : Nat
  otap_del_sel_ret : Int
  otap_del_sel : Nat
  drv_strength_ret : Int
  /-- Value of `ti,driver-strength-ohm`. -/
  drv_strength : Nat
  mmc_of_parse : Int

/-- The `switch (drv_strength)` of `am654_sdhci_ofdata_to_platdata`: the
field value for an ohm value, `none` in the default case. -/
def drv_strength_decode (ohm : Nat) : Option Nat :=
  if ohm = 50 then some DRIVER_STRENGTH_50_OHM
  else if ohm = 33 then some DRIVER_STRENGTH_33_OHM
  else if ohm = 66 then some DRIVER_STRENGTH_66_OHM
  else if ohm = 100 then some DRIVER_STRENGTH_100_OHM
  else if ohm = 40 then some DRIVER_STRENGTH_40_OHM
  else none

/-- The driver hook `am654_sdhci_ofdata_to_platdata`. -/
def am654_sdhci_ofdata_to_platdata (k : Consts) (e : OfdataEnv) (plat : Plat) :
    Int × Plat :=
  let plat := { plat with non_removable := e.non_removable }
  let ret := e.trm_icp_ret
  let plat := if ret = 0 then { plat with trm_icp := e.trm_icp % 2 ^ 32 } else plat
  if ret ≠ 0 then (ret, plat) else
  let ret := e.otap_del_sel_ret
  let plat := if ret = 0 then { plat with otap_del_sel := e.otap_del_sel % 2 ^ 32 } else plat
  if ret ≠ 0 then (ret, plat) else
  let ret := e.drv_strength_ret
  if ret ≠ 0 then (ret, plat) else
  let drv_strength := e.drv_strength % 2 ^ 32
  match drv_strength_decode drv_strength with
  | none => (-k.EINVAL, plat)
  | some v =>
    let plat := { plat with drv_strength := v }
    let plat := plat.emit .mmc_of_parse
    let ret := e.mmc_of_parse
    if ret ≠ 0 then (ret, plat) else (0, plat)

/-- Number of tuning commands in a call log. -/
def cmd_count (log : List Event) : Nat :=
  (log.filter (fun ev => match ev with
    | .mmc_send_cmd _ _ => true
    | _ => false)).length

/-- Registers written with `sdhci_writel`, in program order. -/
def writel_regs (log : List Event) : List Nat :=
  log.filterMap (fun ev => match ev with
    | .sdhci_writel _ reg => some reg
    | _ => none)

/-- Whether read-back `i` still has `EXEC_TUNING` set. -/
def exec_set (k : Consts) (rb : Nat → Nat) (i : Nat) : Bool :=
  (rb i % 2 ^ 16) &&& k.SDHCI_CTRL_EXEC_TUNING != 0

/-- Whether read-back `i` has `TUNED_CLK` set. -/
def tuned_set (k : Consts) (rb : Nat → Nat) (i : Nat) : Bool :=
  (rb i % 2 ^ 16) &&& k.SDHCI_CTRL_TUNED_CLK != 0

/-- A device tree with `ti,trm-icp = 8`, `ti,otap-del-sel = 2` and
`ti,driver-strength-ohm = 50`. -/
def OfdataEnv.sample : OfdataEnv :=
  { non_removable := true, trm_icp_ret := 0, trm_icp := 8, otap_del_sel_ret := 0,
    otap_del_sel := 2, drv_strength_ret := 0, drv_strength := 50, mmc_of_parse := 0 }

/-- Read-back sequence of a controller that never finishes tuning but reports
the tuned clock as selected: `EXEC_TUNING | TUNED_CLK` after every command. -/
def stuck_readback : Nat → Nat := fun _ => 0x00C0

/-! ## Register view of the PHY -/

/-- Modelled from the spec: `regmap_update_bits` is a read-modify-write of a
32-bit register; the bits under `mask` are replaced by those of `val`. -/
def update_bits (old mask val : Nat) : Nat := clear_bits old mask ||| (val &&& mask)

/-- The `(mask, val)` pairs written to register `reg` with
`regmap_update_bits`, in program order. -/
def reg_writes (reg : Nat) (log : List Event) : List (Nat × Nat) :=
  log.filterMap (fun ev => match ev with
    | .regmap_update_bits r mask val => if r = reg then some (mask, val) else none
    | _ => none)

/-- Contents of `PHY_CTRL1` after the calls of `log`, starting from `r`. -/
def phy_ctrl1_after : Nat → List Event → Nat
  | r, [] => r
  | r, .regmap_update_bits reg mask val :: rest =>
    phy_ctrl1_after (if reg = PHY_CTRL1 then update_bits r mask val else r) rest
  | r, _ :: rest => phy_ctrl1_after r rest

/-- Whether the `ENDLL` bit is set in a value of `PHY_CTRL1`. -/
def endll (r : Nat) : Bool := r.testBit ENDLL_SHIFT

/-- For each `sdhci_set_clock` call of `log`, whether `ENDLL` is set in
`PHY_CTRL1` at the moment of the call; `r` is the register before `log`. -/
def endll_at_set_clock : Nat → List Event → List Bool
  | _, [] => []
  | r, .sdhci_set_clock _ :: rest => endll r :: endll_at_set_clock r rest
  | r, .regmap_update_bits reg mask val :: rest =>
    endll_at_set_clock (if reg = PHY_CTRL1 then update_bits r mask val else r) rest
  | r, _ :: rest => endll_at_set_clock r rest

/-- A sequence of `am654_sdhci_set_ios_post` calls; each call is given as the
clock-control read value, the poll result and the clock speed. -/
def set_ios_post_run (k : Consts) : List (Nat × Int × Nat) → Plat → Plat
  | [], plat => plat
  | a :: rest, plat =>
    set_ios_post_run k rest (am654_sdhci_set_ios_post k a.1 a.2.1 a.2.2 plat).2

/-- The calls made by `am654_sdhci_set_ios_post` before the clock restart. -/
def ios_prologue (k : Consts) (clk_ctrl : Nat) (dll_on : Bool) : List Event :=
  [Event.sdhci_readw k.SDHCI_CLOCK_CONTROL,
   Event.sdhci_writew (clear_bits (clk_ctrl % 2 ^ 16) k.SDHCI_CLOCK_CARD_EN % 2 ^ 16)
     k.SDHCI_CLOCK_CONTROL] ++
  (if dll_on then [Event.regmap_update_bits PHY_CTRL1 ENDLL_MASK 0] else [])

/-- Platform data with typical PHY parameters. -/
def Plat.sample : Plat := { Plat.zero with otap_del_sel := 2, trm_icp := 8, drv_strength := 0 }

end Sdhci

namespace Evm

/-! ## Daughtercard tables of the AM654 EVM -/

/-- Constants of headers that are not part of the board file. -/
structure Consts where
  /-- The FIT property name `FIT_FDT_PROP` of `image.h`. -/
  FIT_FDT_PROP : String
  /-- Size of the `name` array of `struct ti_am6_eeprom` (`board_detect.h`). -/
  EEPROM_NAME_SIZE : Nat
  /-- Value of `ENOMEM` in `errno.h`. -/
  ENOMEM : Int
  deriving Repr, DecidableEq

/-- The usual values: `"fdt"`, a 17-byte name array, Linux errno numbers. -/
def defaultConsts : Consts := { FIT_FDT_PROP := "fdt", EEPROM_NAME_SIZE := 17, ENOMEM := 12 }

def AM65X_EVM_APP_BRD_DET : Nat := 0
def AM65X_EVM_LCD_BRD_DET : Nat := 1
def AM65X_EVM_SERDES_BRD_DET : Nat := 2
def AM65X_EVM_HDMI_GPMC_BRD_DET : Nat := 3
def AM65X_EVM_BRD_DET_COUNT : Nat := 4

def DAUGHTER_CARD_NO_OF_MAC_ADDR : Nat := 8

/-- Size of the local buffer `name_overlays`. -/
def NAME_OVERLAYS_SIZE : Nat := 1024

/-- One entry of the table `ext_cards`. -/
structure ExtCard where
  /-- Slot the card is installed. -/
  slot_index : Nat
  /-- EEPROM-programmed card name. -/
  card_name : String
  /-- Device tree overlay to apply. -/
  dtbo_name : String
  /-- Index offset of the `ethXaddr` MAC addresses. -/
  eth_offset : Nat
  deriving Repr, DecidableEq

/-- The table `ext_cards`: declaration of daughtercards to probe. -/
def ext_cards : List ExtCard :=
  [ ⟨AM65X_EVM_APP_BRD_DET, "AM6-GPAPPEVM", "k3-am654-gp.dtbo", 0⟩,
    ⟨AM65X_EVM_APP_BRD_DET, "AM6-IDKAPPEVM", "k3-am654-idk.dtbo", 3⟩,
    ⟨AM65X_EVM_SERDES_BRD_DET, "SER-PCIE2LEVM", "k3-am654-pcie-usb2.dtbo", 0⟩,
    ⟨AM65X_EVM_SERDES_BRD_DET, "SER-PCIEUSBEVM", "k3-am654-pcie-usb3.dtbo", 0⟩,
    ⟨AM65X_EVM_LCD_BRD_DET, "OLDI-LCD1EVM", "k3-am654-evm-oldi-lcd1evm.dtbo", 0⟩ ]

/-- One entry of the table `slot_map` of `probe_daughtercards`. -/
structure Slot where
  gpio_name : String
  i2c_addr : Nat
  deriving Repr, DecidableEq

/-- The table `slot_map`: presence detection GPIO and EEPROM address of each
slot. -/
def slot_map : List Slot :=
  [ ⟨"gpio@38_0", 0x52⟩, ⟨"gpio@38_1", 0x55⟩, ⟨"gpio@38_2", 0x54⟩, ⟨"gpio@38_3", 0x53⟩ ]

/-- The EEPROM address `slot_map[slot_index].i2c_addr`. -/
def i2c_addr (slot_index : Nat) : Nat := (slot_map.getD slot_index ⟨"", 0⟩).i2c_addr

/-- Element `i` of the array `daughter_card_detect_flags`. -/
def flag (flags : List Bool) (i : Nat) : Bool := flags.getD i false

/-! ## `board_fit_get_additionnal_images` -/

/-- The loop of `board_fit_get_additionnal_images` over the entries from
table index `i` on, with `j` detected cards seen so far. -/
def fit_loop (flags : List Bool) (index : Int) : List ExtCard → Nat → Int → Option String
  | [], _, _ => none
  | card :: rest, i, j =>
    if flag flags i then
      if j = index then some card.dtbo_name
      else fit_loop flags index rest (i + 1) (j + 1)
    else fit_loop flags index rest (i + 1) j

/-- The board hook `board_fit_get_additionnal_images`; `none` is `NULL`. -/
def board_fit_get_additionnal_images (k : Consts) (flags : List Bool) (index : Int)
    (type : String) : Option String :=
  if type ≠ k.FIT_FDT_PROP then none
  else fit_loop flags index ext_cards 0 0

/-- The table entries from index `i` on whose detect flag is true, in table
order. -/
def detected_from (flags : List Bool) : Nat → List ExtCard → List ExtCard
  | _, [] => []
  | i, card :: rest =>
    if flag flags i then card :: detected_from flags (i + 1) rest
    else detected_from flags (i + 1) rest

/-- The detected cards: the entries of `ext_cards` whose detect flag is true,
in table order. -/
def detected (flags : List Bool) : List ExtCard := detected_from flags 0 ext_cards

/-! ## `probe_daughtercards` -/

/-- What `ti_i2c_eeprom_am6_get` hands back: its result, the card name of the
record and the MAC addresses, each with the verdict of `is_valid_ethaddr`. -/
structure EepromRecord where
  ret : Int
  name : String
  mac_addr : List (Bool × Nat)

/-- What the GPIO, EEPROM and environment layers answer during one
`probe_daughtercards`. -/
structure ProbeEnv where
  /-- Result of `dm_gpio_lookup_name` for the GPIO of a slot. -/
  gpio_lookup : Nat → Int
  /-- Result of `dm_gpio_request` for the GPIO of a slot. -/
  gpio_request : Nat → Int
  /-- Result of `dm_gpio_set_dir_flags` for the GPIO of a slot. -/
  gpio_set_dir : Nat → Int
  /-- Result of `dm_gpio_get_value` when card `i` reads the GPIO of `slot`. -/
  gpio_value : Nat → Nat → Int
  /-- Result of `ti_i2c_eeprom_am6_get` when card `i` reads address `addr`. -/
  eeprom : Nat → Nat → EepromRecord
  /-- Result of `env_set("name_overlays", ...)`. -/
  env_set : Int

/-- Calls made to the external collaborators, in program order. -/
inductive Event where
  | dm_gpio_lookup_name (gpio_name : String)
  | dm_gpio_request (gpio_name : String)
  | dm_gpio_set_dir_flags (gpio_name : String)
  | dm_gpio_get_value (slot : Nat)
  | ti_i2c_eeprom_am6_get (i2c_addr : Nat)
  | printf_detected (card_name : String)
  | eth_env_set_enetaddr_by_index (index : Nat) (mac : Nat)
  | env_set (name : String) (value : String)
  deriving Repr, DecidableEq

/-- The global `daughter_card_detect_flags` with the call log next to it. -/
structure Board where
  daughter_card_detect_flags : List Bool
  /-- Calls made so far (not a C object). -/
  log : List Event
  deriving Repr, DecidableEq

/-- Append one call to the log. -/
def Board.emit (b : Board) (e : Event) : Board := { b with log := b.log ++ [e] }

/-- The assignment `daughter_card_detect_flags[i] = v`. -/
def Board.set_flag (b : Board) (i : Nat) (v : Bool) : Board :=
  { b with daughter_card_detect_flags := b.daughter_card_detect_flags.set i v }

/-- The first loop of `probe_daughtercards`: every detect flag is cleared. -/
def Board.clear_flags (b : Board) : Board :=
  { b with daughter_card_detect_flags := List.replicate ext_cards.length false }

/-- The C library call `strncmp(a, b, n) == 0` on strings without embedded
terminator. -/
def strncmp_eq (a b : String) (n : Nat) : Bool := a.toList.take n == b.toList.take n

/-- The helper `init_daughtercard_det_gpio` for the GPIO of `slot`. -/
def init_daughtercard_det_gpio (e : ProbeEnv) (slot : Nat) (gpio_name : String)
    (b : Board) : Int × Board :=
  let b := b.emit (.dm_gpio_lookup_name gpio_name)
  let ret := e.gpio_lookup slot
  if ret < 0 then (ret, b) else
  -- Request GPIO, simply re-using the name as label
  let b := b.emit (.dm_gpio_request gpio_name)
  let ret := e.gpio_request slot
  if ret < 0 then (ret, b) else
  (e.gpio_set_dir slot, b.emit (.dm_gpio_set_dir_flags gpio_name))

/-- The second loop of `probe_daughtercards`: initialise the detection GPIOs
of the slots from `slot` on.  `some ret` is an early `return ret`. -/
def init_loop (e : ProbeEnv) : List Slot → Nat → Board → Option Int × Board
  | [], _, b => (none, b)
  | s :: rest, slot, b =>
    let r := init_daughtercard_det_gpio e slot s.gpio_name b
    if r.1 < 0 then (some r.1, r.2) else init_loop e rest (slot + 1) r.2

/-- The MAC address loop of `probe_daughtercards` (not in an SPL build), from
address `j` on. -/
def mac_loop (eth_offset : Nat) : List (Bool × Nat) → Nat → Board → Board
  | [], _, b => b
  | m :: rest, j, b =>
    if !m.1 then mac_loop eth_offset rest (j + 1) b
    else mac_loop eth_offset rest (j + 1)
      (b.emit (.eth_env_set_enetaddr_by_index (eth_offset + j) m.2))

/-- The body of the detection loop of `probe_daughtercards` for card `i`.
`some ret` is an early `return ret`. -/
def detect_card (k : Consts) (spl_build : Bool) (e : ProbeEnv) (card : ExtCard) (i : Nat)
    (b : Board) : Option Int × Board :=
  -- Obtain card-specific slot index and associated I2C address
  let slot_index := card.slot_index
  let addr := i2c_addr slot_index
  -- The presence detection signal is active-low
  let b := b.emit (.dm_gpio_get_value slot_index)
  let ret := e.gpio_value i slot_index
  if ret < 0 then (some ret, b) else
  if ret ≠ 0 then (none, b) else
  -- Get and parse the daughter card EEPROM record
  let b := b.emit (.ti_i2c_eeprom_am6_get addr)
  let ep := e.eeprom i addr
  if ep.ret ≠ 0 then (none, b) else
  -- Only process the parsed data if we found a match
  if !strncmp_eq ep.name card.card_name k.EEPROM_NAME_SIZE then (none, b) else
  let b := b.emit (.printf_detected card.card_name)
  let b := b.set_flag i true
  if spl_build then (none, b)
  else (none, mac_loop card.eth_offset (ep.mac_addr.take DAUGHTER_CARD_NO_OF_MAC_ADDR) 0 b)

/-- The detection loop of `probe_daughtercards` over the cards from table
index `i` on. -/
def detect_loop (k : Consts) (spl_build : Bool) (e : ProbeEnv) :
    List ExtCard → Nat → Board → Option Int × Board
  | [], _, b => (none, b)
  | card :: rest, i, b =>
    match detect_card k spl_build e card i b with
    | (some ret, b) => (some ret, b)
    | (none, b) => detect_loop k spl_build e rest (i + 1) b

/-- The overlay loop of `probe_daughtercards` over the cards from table index
`i` on; `name_overlays` is the buffer so far.  An error is an early return. -/
def overlay_loop (k : Consts) (flags : List Bool) :
    List ExtCard → Nat → String → Except Int String
  | [], _, name_overlays => .ok name_overlays
  | card :: rest, i, name_overlays =>
    if !flag flags i then overlay_loop k flags rest (i + 1) name_overlays else
    -- Skip if no overlays are to be added
    if card.dtbo_name.length = 0 then overlay_loop k flags rest (i + 1) name_overlays else
    -- room for the overlay, a trailing space and the terminating zero
    if name_overlays.length + card.dtbo_name.length + 2 > NAME_OVERLAYS_SIZE then
      .error (-k.ENOMEM)
    else overlay_loop k flags rest (i + 1) ((name_overlays ++ card.dtbo_name) ++ " ")

/-- The last part of `probe_daughtercards` outside an SPL build: build
`name_overlays` and publish it in the environment. -/
def overlay_phase (k : Consts) (e : ProbeEnv) (b : Board) : Int × Board :=
  match overlay_loop k b.daughter_card_detect_flags ext_cards 0 "" with
  | .error ret => (ret, b)
  | .ok name_overlays =>
    -- Apply device tree overlay(s) to the U-Boot environment, if any
    if name_overlays.length ≠ 0 then
      (e.env_set, b.emit (.env_set "name_overlays" name_overlays))
    else (0, b)

/-- The board function `probe_daughtercards`, in an SPL build or not. -/
def probe_daughtercards (k : Consts) (spl_build : Bool) (e : ProbeEnv) (b : Board) :
    Int × Board :=
  let b := b.clear_flags
  match init_loop e slot_map 0 b with
  | (some ret, b) => (ret, b)
  | (none, b) =>
    match detect_loop k spl_build e ext_cards 0 b with
    | (some ret, b) => (ret, b)
    | (none, b) => if spl_build then (0, b) else overlay_phase k e b

/-- The overlay list in the spec's words: each detected card's `dtbo_name`
followed by one space, concatenated in table order. -/
def overlay_list (flags : List Bool) : String :=
  String.join ((detected flags).map (fun card => card.dtbo_name ++ " "))

/-- A board on which nothing has been detected yet. -/
def Board.init : Board := { daughter_card_detect_flags := List.replicate 5 false, log := [] }

/-- A board with the IDK application card and the two-lane PCIe card: both
slots report presence, the LCD slot is empty. -/
def ProbeEnv.idk_pcie : ProbeEnv :=
  { gpio_lookup := fun _ => 0, gpio_request := fun _ => 0, gpio_set_dir := fun _ => 0,
    gpio_value := fun _ slot => if slot = AM65X_EVM_LCD_BRD_DET then 1 else 0,
    eeprom := fun _ addr =>
      if addr = 0x52 then ⟨0, "AM6-IDKAPPEVM", [(true, 0x70ff76000001)]⟩
      else if addr = 0x54 then ⟨0, "SER-PCIE2LEVM", []⟩
      else ⟨-121, "", []⟩,
    env_set := 0 }

/-- Whether card `i` of the table is found: presence GPIO reads 0, the EEPROM
read succeeds and the name comparison finds a match. -/
def detect_flag (k : Consts) (e : ProbeEnv) (card : ExtCard) (i : Nat) : Bool :=
  decide (e.gpio_value i card.slot_index = 0) &&
  decide ((e.eeprom i (i2c_addr card.slot_index)).ret = 0) &&
  strncmp_eq (e.eeprom i (i2c_addr card.slot_index)).name card.card_name k.EEPROM_NAME_SIZE

/-- The slots whose presence GPIO was read, in program order. -/
def gpio_reads (log : List Event) : List Nat :=
  log.filterMap (fun ev => match ev with
    | .dm_gpio_get_value slot => some slot
    | _ => none)

/-- The detect flags after the detection loop over the cards from table index
`i` on, when no GPIO read fails: the flag of each card found is set. -/
def detect_flags (k : Consts) (e : ProbeEnv) : List ExtCard → Nat → List Bool → List Bool
  | [], _, flags => flags
  | card :: rest, i, flags =>
    detect_flags k e rest (i + 1) (if detect_flag k e card i then flags.set i true else flags)

end Evm

/-! # Properties -/

namespace Prueth

/-! ## What the field assignments leave alone -/

@[simp] theorem emit_topology (s : State) (e : Event) : (s.emit e).topology = s.topology := rfl
@[simp] theorem emit_rx_next (s : State) (e : Event) : (s.emit e).rx_next = s.rx_next := rfl
@[simp] theorem emit_dma_rx (s : State) (e : Event) : (s.emit e).dma_rx = s.dma_rx := rfl
@[simp] theorem emit_dma_tx (s : State) (e : Event) : (s.emit e).dma_tx = s.dma_tx := rfl
@[simp] theorem emit_log (s : State) (e : Event) : (s.emit e).log = s.log ++ [e] := rfl
@[simp] theorem emit_dual (s : State) (e : Event) : (s.emit e).dual_icssg = s.dual_icssg := rfl

@[simp] theorem set_dma_tx_topology (s : State) (d : Dma) :
    (s.set_dma_tx d).topology = s.topology := rfl
@[simp] theorem set_dma_tx_rx_next (s : State) (d : Dma) :
    (s.set_dma_tx d).rx_next = s.rx_next := rfl
@[simp] theorem set_dma_tx_dma_rx (s : State) (d : Dma) :
    (s.set_dma_tx d).dma_rx = s.dma_rx := rfl
@[simp] theorem set_dma_tx_dma_tx (s : State) (d : Dma) : (s.set_dma_tx d).dma_tx = d := rfl
@[simp] theorem set_dma_tx_log (s : State) (d : Dma) : (s.set_dma_tx d).log = s.log := rfl
@[simp] theorem set_dma_tx_dual (s : State) (d : Dma) :
    (s.set_dma_tx d).dual_icssg = s.dual_icssg := rfl

@[simp] theorem set_dma_rx_topology (s : State) (d : Dma) :
    (s.set_dma_rx d).topology = s.topology := rfl
@[simp] theorem set_dma_rx_rx_next (s : State) (d : Dma) :
    (s.set_dma_rx d).rx_next = s.rx_next := rfl
@[simp] theorem set_dma_rx_dma_rx (s : State) (d : Dma) : (s.set_dma_rx d).dma_rx = d := rfl
@[simp] theorem set_dma_rx_dma_tx (s : State) (d : Dma) :
    (s.set_dma_rx d).dma_tx = s.dma_tx := rfl
@[simp] theorem set_dma_rx_log (s : State) (d : Dma) : (s.set_dma_rx d).log = s.log := rfl
@[simp] theorem set_dma_rx_dual (s : State) (d : Dma) :
    (s.set_dma_rx d).dual_icssg = s.dual_icssg := rfl

@[simp] theorem set_rx_next_topology (s : State) (n : Nat) :
    (s.set_rx_next n).topology = s.topology := rfl
@[simp] theorem set_rx_next_rx_next (s : State) (n : Nat) : (s.set_rx_next n).rx_next = n := rfl
@[simp] theorem set_rx_next_dma_rx (s : State) (n : Nat) :
    (s.set_rx_next n).dma_rx = s.dma_rx := rfl
@[simp] theorem set_rx_next_dma_tx (s : State) (n : Nat) :
    (s.set_rx_next n).dma_tx = s.dma_tx := rfl
@[simp] theorem set_rx_next_log (s : State) (n : Nat) : (s.set_rx_next n).log = s.log := rfl

@[simp] theorem set_miig_rt_mapping (s : State) (v : Arr2 Nat) :
    (s.set_miig_rt v).mapping = s.mapping := rfl
@[simp] theorem set_mdio_base_mapping (s : State) (v : Nat) :
    (s.set_mdio_base v).mapping = s.mapping := rfl
@[simp] theorem set_pruss_shrdram2_mapping (s : State) (v : Arr2 Nat) :
    (s.set_pruss_shrdram2 v).mapping = s.mapping := rfl
@[simp] theorem set_tmaddr_mapping (s : State) (v : Arr2 Nat) :
    (s.set_tmaddr v).mapping = s.mapping := rfl
@[simp] theorem set_bus_mapping (s : State) (v : Nat) :
    (s.set_bus v).mapping = s.mapping := rfl
@[simp] theorem set_sram_pa_mapping (s : State) (v : Arr2 Nat) :
    (s.set_sram_pa v).mapping = s.mapping := rfl
@[simp] theorem set_phydev_mapping (s : State) (v : Nat) :
    (s.set_phydev v).mapping = s.mapping := rfl
@[simp] theorem set_phy_node_mapping (s : State) (v : ofnode) :
    (s.set_phy_node v).mapping = s.mapping := rfl
@[simp] theorem set_phy_addr_mapping (s : State) (v : Nat) :
    (s.set_phy_addr v).mapping = s.mapping := rfl
@[simp] theorem set_eth_node_mapping (s : State) (v : Arr2 ofnode) :
    (s.set_eth_node v).mapping = s.mapping := rfl
@[simp] theorem set_mdio_freq_mapping (s : State) (v : Nat) :
    (s.set_mdio_freq v).mapping = s.mapping := rfl
@[simp] theorem set_phy_interface_mapping (s : State) (v : Int) :
    (s.set_phy_interface v).mapping = s.mapping := rfl
@[simp] theorem set_slice_mapping (s : State) (v : Arr2 Int) :
    (s.set_slice v).mapping = { s.mapping with slice := v } := rfl
@[simp] theorem set_ingress_icssg_mapping (s : State) (v : Int) :
    (s.set_ingress_icssg v).mapping = { s.mapping with ingress_icssg := v } := rfl
@[simp] theorem set_ingress_slice_mapping (s : State) (v : Int) :
    (s.set_ingress_slice v).mapping = { s.mapping with ingress_slice := v } := rfl
@[simp] theorem set_egress_icssg_mapping (s : State) (v : Int) :
    (s.set_egress_icssg v).mapping = { s.mapping with egress_icssg := v } := rfl
@[simp] theorem set_egress_slice_mapping (s : State) (v : Int) :
    (s.set_egress_slice v).mapping = { s.mapping with egress_slice := v } := rfl
@[simp] theorem set_dual_icssg_mapping (s : State) (v : Bool) :
    (s.set_dual_icssg v).mapping = { s.mapping with dual_icssg := v } := rfl
@[simp] theorem emit_mapping (s : State) (e : Event) : (s.emit e).mapping = s.mapping := rfl
@[simp] theorem set_slice_slice (s : State) (v : Arr2 Int) : (s.set_slice v).slice = v := rfl
@[simp] theorem set_dual_icssg_dual (s : State) (v : Bool) :
    (s.set_dual_icssg v).dual_icssg = v := rfl
@[simp] theorem mapping_dual (s : State) : s.mapping.dual_icssg = s.dual_icssg := rfl
@[simp] theorem mapping_slice (s : State) : s.mapping.slice = s.slice := rfl

@[simp] theorem dma_enable_queue (ret : Int) (d : Dma) : (dma_enable ret d).queue = d.queue := by
  unfold dma_enable; split <;> rfl

@[simp] theorem dma_disable_queue (d : Dma) : (dma_disable d).queue = d.queue := rfl

@[simp] theorem dma_get_by_name_queue (ret : Int) (name : String) (d : Dma) :
    (dma_get_by_name ret name d).queue = d.queue := by
  unfold dma_get_by_name; split <;> rfl

/-! ## Receive buffer recycling -/

theorem free_pkt_pos (c : Consts) (prep : Int) (priv : State) (length : Int)
    (h : 0 < length) :
    (prueth_free_pkt c prep priv length).1 = prep ∧
    (prueth_free_pkt c prep priv length).2.log = priv.log ++
      [Event.dma_prepare_rcv_buf (priv.rx_next % c.UDMA_RX_DESC_NUM) c.UDMA_RX_BUF_SIZE] ∧
    (prueth_free_pkt c prep priv length).2.dma_rx = dma_prepare_rcv_buf prep priv.dma_rx
      ⟨priv.rx_next % c.UDMA_RX_DESC_NUM, c.UDMA_RX_BUF_SIZE⟩ ∧
    (prueth_free_pkt c prep priv length).2.rx_next = (priv.rx_next + 1) % 2 ^ 32 := by
  simp [prueth_free_pkt, h, U32_MOD]

theorem free_pkt_run_spec (c : Consts) (calls : List (Int × Int)) :
    ∀ priv : State, (∀ a ∈ calls, 0 < a.2) → priv.rx_next + calls.length < 2 ^ 32 →
      (free_pkt_run c calls priv).log = priv.log ++ (List.range calls.length).map
        (fun i => Event.dma_prepare_rcv_buf ((priv.rx_next + i) % c.UDMA_RX_DESC_NUM)
          c.UDMA_RX_BUF_SIZE) ∧
      (free_pkt_run c calls priv).rx_next = priv.rx_next + calls.length := by
  induction calls with
  | nil => intro priv _ _; simp [free_pkt_run]
  | cons a rest ih =>
    intro priv hpos hk
    have ha : 0 < a.2 := hpos a (List.mem_cons_self _ _)
    have hrest : ∀ b ∈ rest, 0 < b.2 := fun b hb => hpos b (List.mem_cons_of_mem _ hb)
    simp only [List.length_cons] at hk
    have hlt : priv.rx_next + 1 < 2 ^ 32 := by omega
    obtain ⟨_, s2, _, s4⟩ := free_pkt_pos c a.1 priv a.2 ha
    rw [Nat.mod_eq_of_lt hlt] at s4
    obtain ⟨h1, h2⟩ := ih (prueth_free_pkt c a.1 priv a.2).2 hrest (by rw [s4]; omega)
    simp only [free_pkt_run]
    refine ⟨?_, ?_⟩
    · rw [h1, s2, s4, List.length_cons, List.range_succ_eq_map, List.map_cons, List.map_map]
      simp [Function.comp_def, Nat.add_assoc, Nat.add_comm 1]
    · rw [h2, s4, List.length_cons]; omega

/-- C1: a `prueth_free_pkt` call with positive length in a state with
`rx_next = n` hands exactly buffer `n mod UDMA_RX_DESC_NUM`, with size
`UDMA_RX_BUF_SIZE`, back to the receive channel and leaves
`rx_next = (n + 1) mod 2^32`, the `u32` increment, which is `n + 1` unless
`n = 2^32 - 1`; `k` consecutive such calls with `n + k < 2^32` re-queue the
buffers `(n + i) mod UDMA_RX_DESC_NUM`, `i = 0..k-1`, in that order, and leave
`rx_next = n + k`. -/
theorem free_pkt_requeues_in_ring_order (c : Consts) (priv : State)
    (calls : List (Int × Int)) (hpos : ∀ a ∈ calls, 0 < a.2)
    (hk : priv.rx_next + calls.length < 2 ^ 32) :
    (∀ prep length, 0 < length →
      (prueth_free_pkt c prep priv length).1 = prep ∧
      (prueth_free_pkt c prep priv length).2.log = priv.log ++
        [Event.dma_prepare_rcv_buf (priv.rx_next % c.UDMA_RX_DESC_NUM) c.UDMA_RX_BUF_SIZE] ∧
      (prueth_free_pkt c prep priv length).2.dma_rx = dma_prepare_rcv_buf prep priv.dma_rx
        ⟨priv.rx_next % c.UDMA_RX_DESC_NUM, c.UDMA_RX_BUF_SIZE⟩ ∧
      (prueth_free_pkt c prep priv length).2.rx_next = (priv.rx_next + 1) % 2 ^ 32 ∧
      (priv.rx_next + 1 < 2 ^ 32 →
        (prueth_free_pkt c prep priv length).2.rx_next = priv.rx_next + 1)) ∧
    (free_pkt_run c calls priv).log = priv.log ++ (List.range calls.length).map
      (fun i => Event.dma_prepare_rcv_buf ((priv.rx_next + i) % c.UDMA_RX_DESC_NUM)
        c.UDMA_RX_BUF_SIZE) ∧
    (free_pkt_run c calls priv).rx_next = priv.rx_next + calls.length := by
  refine ⟨?_, free_pkt_run_spec c calls priv hpos hk⟩
  intro prep length hl
  obtain ⟨s1, s2, s3, s4⟩ := free_pkt_pos c prep priv length hl
  exact ⟨s1, s2, s3, s4, fun h => by rw [s4, Nat.mod_eq_of_lt h]⟩

theorem free_pkt_requeues_in_ring_order_witness :
    (free_pkt_run defaultConsts [(0, 60), (0, 1514), (0, 64), (0, 60), (0, 60)]
        { State.zero with rx_next := 2 }).log =
      [Event.dma_prepare_rcv_buf 2 1536, Event.dma_prepare_rcv_buf 3 1536,
       Event.dma_prepare_rcv_buf 0 1536, Event.dma_prepare_rcv_buf 1 1536,
       Event.dma_prepare_rcv_buf 2 1536] ∧
    (free_pkt_run defaultConsts [(0, 60), (0, 1514), (0, 64), (0, 60), (0, 60)]
        { State.zero with rx_next := 2 }).rx_next = 7 := by
  have h := free_pkt_requeues_in_ring_order defaultConsts { State.zero with rx_next := 2 }
    [(0, 60), (0, 1514), (0, 64), (0, 60), (0, 60)] (by decide) (by decide)
  exact ⟨h.2.1.trans (by decide), h.2.2.trans (by decide)⟩

/-- The one-call sentence of C1 read without a bound fails at the top of the
`u32` range: with `rx_next = 2^32 - 1` a call with positive length re-queues
buffer 3 and leaves `rx_next = 0`, not `2^32`. -/
theorem free_pkt_wrap_counterexample :
    (prueth_free_pkt defaultConsts 0 { State.zero with rx_next := 2 ^ 32 - 1 } 60).2.log =
      [Event.dma_prepare_rcv_buf 3 1536] ∧
    (prueth_free_pkt defaultConsts 0 { State.zero with rx_next := 2 ^ 32 - 1 } 60).2.rx_next =
      0 ∧
    (prueth_free_pkt defaultConsts 0 { State.zero with rx_next := 2 ^ 32 - 1 } 60).2.rx_next ≠
      ({ State.zero with rx_next := 2 ^ 32 - 1 } : State).rx_next + 1 := by
  decide

/-! ## Receive ring ownership -/

theorem prime_loop_frame (c : Consts) (e : StartEnv) :
    ∀ (n i : Nat) (priv : State),
      (prime_loop c e n i priv).topology = priv.topology ∧
      (prime_loop c e n i priv).rx_next = priv.rx_next ∧
      (prime_loop c e n i priv).dma_tx = priv.dma_tx := by
  intro n
  induction n with
  | zero => intro i priv; exact ⟨rfl, rfl, rfl⟩
  | succ n ih =>
    intro i priv
    simp only [prime_loop]
    obtain ⟨h1, h2, h3⟩ := ih (i + 1)
      ((priv.emit (.dma_prepare_rcv_buf i c.UDMA_RX_BUF_SIZE)).set_dma_rx
        (dma_prepare_rcv_buf (e.prepare i)
          (priv.emit (.dma_prepare_rcv_buf i c.UDMA_RX_BUF_SIZE)).dma_rx
          ⟨i, c.UDMA_RX_BUF_SIZE⟩))
    rw [h1, h2, h3]
    simp

theorem prime_loop_spec (c : Consts) (e : StartEnv) :
    ∀ (n i : Nat) (priv : State), (∀ j < n, e.prepare (i + j) = 0) →
      (prime_loop c e n i priv).dma_rx.queue = priv.dma_rx.queue ++
        (List.range n).map (fun j => (⟨i + j, c.UDMA_RX_BUF_SIZE⟩ : RxBuf)) := by
  intro n
  induction n with
  | zero => intro i priv _; simp [prime_loop]
  | succ n ih =>
    intro i priv h
    have h0 : e.prepare i = 0 := by simpa using h 0 (Nat.succ_pos n)
    have hrest : ∀ j < n, e.prepare (i + 1 + j) = 0 := by
      intro j hj
      have := h (j + 1) (Nat.succ_lt_succ hj)
      simpa [Nat.add_assoc, Nat.add_comm 1 j] using this
    simp only [prime_loop]
    rw [ih (i + 1) _ hrest, List.range_succ_eq_map, List.map_cons, List.map_map]
    simp [dma_prepare_rcv_buf, h0, Function.comp_def, Nat.add_assoc, Nat.add_comm 1]

theorem start_channels_frame (c : Consts) (e : StartEnv) (priv : State) :
    (start_channels c e priv).topology = priv.topology ∧
    (start_channels c e priv).rx_next = priv.rx_next := by
  unfold start_channels
  simp only []
  rw [(prime_loop_frame c e c.UDMA_RX_DESC_NUM 0 _).1,
    (prime_loop_frame c e c.UDMA_RX_DESC_NUM 0 _).2.1]
  simp

theorem start_channels_queue (c : Consts) (e : StartEnv) (priv : State)
    (hp : ∀ i < c.UDMA_RX_DESC_NUM, e.prepare i = 0) :
    (start_channels c e priv).dma_rx.queue = priv.dma_rx.queue ++ ring c 0 := by
  unfold start_channels
  simp only []
  rw [prime_loop_spec c e c.UDMA_RX_DESC_NUM 0 _ (by simpa using hp), ring]
  simp only [set_dma_rx_dma_rx, emit_dma_rx, set_dma_tx_dma_rx, dma_get_by_name_queue]
  congr 1
  apply List.map_congr_left
  intro i hi
  simp [Nat.mod_eq_of_lt (List.mem_range.mp hi)]

theorem prueth_start_frame (c : Consts) (e : StartEnv) (priv : State) :
    (prueth_start c e priv).2.topology = priv.topology ∧
    (prueth_start c e priv).2.rx_next = priv.rx_next ∧
    (prueth_start c e priv).2.dma_rx.queue = (start_channels c e priv).dma_rx.queue := by
  obtain ⟨h1, h2⟩ := start_channels_frame c e priv
  unfold prueth_start
  simp only []
  split_ifs <;> simp [h1, h2]

theorem prueth_start_rx (c : Consts) (e : StartEnv) (priv : State) :
    (prueth_start c e priv).2.rx_next = priv.rx_next ∧
    ((∀ i < c.UDMA_RX_DESC_NUM, e.prepare i = 0) →
      (prueth_start c e priv).2.dma_rx.queue = priv.dma_rx.queue ++ ring c 0) := by
  obtain ⟨_, h2, h3⟩ := prueth_start_frame c e priv
  exact ⟨h2, fun hp => h3.trans (start_channels_queue c e priv hp)⟩

theorem ring_step (c : Consts) (k : Nat) (hN : 0 < c.UDMA_RX_DESC_NUM) :
    ∃ rest, ring c k = ⟨k % c.UDMA_RX_DESC_NUM, c.UDMA_RX_BUF_SIZE⟩ :: rest ∧
      rest ++ [⟨k % c.UDMA_RX_DESC_NUM, c.UDMA_RX_BUF_SIZE⟩] = ring c (k + 1) := by
  obtain ⟨m, hm⟩ := Nat.exists_eq_succ_of_ne_zero (Nat.pos_iff_ne_zero.mp hN)
  refine ⟨(List.range m).map
    (fun i => ⟨(k + (i + 1)) % c.UDMA_RX_DESC_NUM, c.UDMA_RX_BUF_SIZE⟩), ?_, ?_⟩
  · rw [ring, hm, List.range_succ_eq_map, List.map_cons, List.map_map]
    simp [Function.comp_def]
  · rw [ring, hm, List.range_succ, List.map_append]
    congr 1
    · apply List.map_congr_left
      intro i _
      simp [Nat.add_assoc, Nat.add_comm 1]
    · simp [Nat.add_assoc, Nat.add_comm 1 m]

theorem ring_nodup (c : Consts) (k : Nat) : (ring c k).Nodup := by
  rw [ring]
  refine List.Nodup.map_on ?_ (List.nodup_range _)
  intro x hx y hy hxy
  have hx := List.mem_range.mp hx
  have hy := List.mem_range.mp hy
  have h : (k + x) % c.UDMA_RX_DESC_NUM = (k + y) % c.UDMA_RX_DESC_NUM := by
    simpa using congrArg RxBuf.pkt hxy
  have h2 : x % c.UDMA_RX_DESC_NUM = y % c.UDMA_RX_DESC_NUM :=
    Nat.ModEq.add_left_cancel' k h
  rwa [Nat.mod_eq_of_lt hx, Nat.mod_eq_of_lt hy] at h2

/-- One receive round on a channel whose FIFO is not empty: the head of the
FIFO is received, buffer `rx_next mod UDMA_RX_DESC_NUM` is queued. -/
theorem rx_round_spec (c : Consts) (len : Int) (priv : State) (b : RxBuf)
    (rest : List RxBuf) (hlen : 0 < len) (hq : priv.dma_rx.queue = b :: rest) :
    (rx_round c len priv).1 = (some b, [Event.dma_prepare_rcv_buf
      (priv.rx_next % c.UDMA_RX_DESC_NUM) c.UDMA_RX_BUF_SIZE]) ∧
    (rx_round c len priv).2.dma_rx.queue =
      rest ++ [⟨priv.rx_next % c.UDMA_RX_DESC_NUM, c.UDMA_RX_BUF_SIZE⟩] ∧
    (rx_round c len priv).2.rx_next = (priv.rx_next + 1) % 2 ^ 32 := by
  have hr : prueth_recv len priv =
      ((len, some b), (priv.emit .dma_receive).set_dma_rx { priv.dma_rx with queue := rest }) := by
    simp [prueth_recv, dma_receive, hlen, hq]
  obtain ⟨_, f2, f3, f4⟩ := free_pkt_pos c 0
    ((priv.emit .dma_receive).set_dma_rx { priv.dma_rx with queue := rest }) len hlen
  simp only [rx_round, hr]
  refine ⟨?_, ?_, ?_⟩
  · rw [f2]; simp
  · rw [f3]; simp [dma_prepare_rcv_buf]
  · rw [f4]; simp

/-- The ring invariant: after `k` rounds the FIFO holds buffers `k, k+1, ...`
modulo the ring size, and `rx_next` is `k` modulo `2^32`. -/
theorem rx_rounds_spec (c : Consts) (hN : 0 < c.UDMA_RX_DESC_NUM) (lens : List Int) :
    ∀ (k : Nat) (priv : State), (∀ l ∈ lens, 0 < l) →
      priv.dma_rx.queue = ring c k → priv.rx_next = k % 2 ^ 32 →
      (k + lens.length ≤ 2 ^ 32 ∨ c.UDMA_RX_DESC_NUM ∣ 2 ^ 32) →
      (∀ r ∈ (rx_rounds c lens priv).1,
        ∃ b, r.1 = some b ∧ r.2 = [Event.dma_prepare_rcv_buf b.pkt b.size]) ∧
      (rx_rounds c lens priv).2.dma_rx.queue = ring c (k + lens.length) ∧
      (rx_rounds c lens priv).2.rx_next = (k + lens.length) % 2 ^ 32 := by
  induction lens with
  | nil => intro k priv _ hq hr _; simp [rx_rounds, hq, hr]
  | cons len rest ih =>
    intro k priv hpos hq hr hk
    have hlen : 0 < len := hpos len (List.mem_cons_self _ _)
    have hrest : ∀ l ∈ rest, 0 < l := fun l hl => hpos l (List.mem_cons_of_mem _ hl)
    obtain ⟨tl, h1, h2⟩ := ring_step c k hN
    have hidx : priv.rx_next % c.UDMA_RX_DESC_NUM = k % c.UDMA_RX_DESC_NUM := by
      rw [hr]
      rcases hk with hk | hk
      · simp only [List.length_cons] at hk
        have hlt : k % 2 ^ 32 = k := Nat.mod_eq_of_lt (by omega)
        rw [hlt]
      · exact Nat.mod_mod_of_dvd k hk
    obtain ⟨r1, r2, r3⟩ := rx_round_spec c len priv _ tl hlen (hq.trans h1)
    rw [hidx] at r1 r2
    have hnext : (rx_round c len priv).2.rx_next = (k + 1) % 2 ^ 32 := by
      rw [r3, hr]; simp
    have hk2 : k + 1 + rest.length ≤ 2 ^ 32 ∨ c.UDMA_RX_DESC_NUM ∣ 2 ^ 32 := by
      rcases hk with hk | hk
      · left; simp only [List.length_cons] at hk; omega
      · right; exact hk
    obtain ⟨i1, i2, i3⟩ := ih (k + 1) (rx_round c len priv).2 hrest (r2.trans h2) hnext hk2
    have e1 : k + (rest.length + 1) = k + 1 + rest.length := by omega
    simp only [rx_rounds, List.length_cons, e1]
    refine ⟨?_, i2, i3⟩
    intro r hr'
    rcases List.mem_cons.mp hr' with h | h
    · exact ⟨_, by rw [h, r1], by rw [h, r1]⟩
    · exact i1 r h

theorem rx_rounds_length (c : Consts) (lens : List Int) :
    ∀ priv : State, (rx_rounds c lens priv).1.length = lens.length := by
  induction lens with
  | nil => intro priv; rfl
  | cons l rest ih => intro priv; simp [rx_rounds, ih]

theorem recv_queue_nodup (len : Int) (priv : State) (h : priv.dma_rx.queue.Nodup) :
    (prueth_recv len priv).2.dma_rx.queue.Nodup := by
  unfold prueth_recv dma_receive
  simp only [emit_dma_rx]
  split_ifs
  · cases hq : priv.dma_rx.queue with
    | nil => exact h
    | cons b rest =>
      rw [hq] at h
      simpa using (List.nodup_cons.mp h).2
  · simpa using h

/-- C2 (as amended): on a device with `rx_next = 0` and an empty receive
FIFO, after `prueth_start` has primed buffers `0..UDMA_RX_DESC_NUM-1`, in every
sequence of successful receive / free rounds that is at most `2^32` rounds
long, or of any length when `UDMA_RX_DESC_NUM` divides `2^32`, each
`prueth_free_pkt` re-queues the buffer its `prueth_recv` returned, and the
FIFO never holds a buffer twice, neither between rounds nor between a receive
and its free. -/
theorem rx_ring_requeues_received (c : Consts) (e : StartEnv) (priv : State)
    (lens : List Int) (hN : 0 < c.UDMA_RX_DESC_NUM) (hfresh : priv.rx_next = 0)
    (hempty : priv.dma_rx.queue = [])
    (hprime : ∀ i < c.UDMA_RX_DESC_NUM, e.prepare i = 0)
    (hlen : ∀ l ∈ lens, 0 < l)
    (hk : lens.length ≤ 2 ^ 32 ∨ c.UDMA_RX_DESC_NUM ∣ 2 ^ 32) :
    (prueth_start c e priv).2.dma_rx.queue =
      (List.range c.UDMA_RX_DESC_NUM).map (fun i => ⟨i, c.UDMA_RX_BUF_SIZE⟩) ∧
    (∀ r ∈ (rx_rounds c lens (prueth_start c e priv).2).1,
      ∃ b, r.1 = some b ∧ r.2 = [Event.dma_prepare_rcv_buf b.pkt b.size]) ∧
    ((rx_rounds c lens (prueth_start c e priv).2).1.length = lens.length) ∧
    (rx_rounds c lens (prueth_start c e priv).2).2.dma_rx.queue.Nodup ∧
    (∀ len : Int,
      (prueth_recv len (rx_rounds c lens (prueth_start c e priv).2).2).2.dma_rx.queue.Nodup) := by
  obtain ⟨s1, s2⟩ := prueth_start_rx c e priv
  have hq : (prueth_start c e priv).2.dma_rx.queue = ring c 0 := by
    rw [s2 hprime, hempty]; rfl
  obtain ⟨i1, i2, _⟩ := rx_rounds_spec c hN lens 0 (prueth_start c e priv).2 hlen hq
    (by rw [s1, hfresh]; rfl) (by simpa using hk)
  refine ⟨?_, i1, ?_, ?_⟩
  · rw [hq, ring]
    apply List.map_congr_left
    intro i hi
    simp [Nat.mod_eq_of_lt (List.mem_range.mp hi)]
  · exact rx_rounds_length c lens _
  · have hn : (rx_rounds c lens (prueth_start c e priv).2).2.dma_rx.queue.Nodup := by
      rw [i2]; exact ring_nodup c _
    exact ⟨hn, fun len => recv_queue_nodup len _ hn⟩

theorem rx_ring_requeues_received_witness :
    (rx_rounds defaultConsts [60, 1514, 60, 60, 64, 60]
      (prueth_start defaultConsts StartEnv.ok State.zero).2).1 =
      [(some ⟨0, 1536⟩, [Event.dma_prepare_rcv_buf 0 1536]),
       (some ⟨1, 1536⟩, [Event.dma_prepare_rcv_buf 1 1536]),
       (some ⟨2, 1536⟩, [Event.dma_prepare_rcv_buf 2 1536]),
       (some ⟨3, 1536⟩, [Event.dma_prepare_rcv_buf 3 1536]),
       (some ⟨0, 1536⟩, [Event.dma_prepare_rcv_buf 0 1536]),
       (some ⟨1, 1536⟩, [Event.dma_prepare_rcv_buf 1 1536])] ∧
    (rx_rounds defaultConsts [60, 1514, 60, 60, 64, 60]
      (prueth_start defaultConsts StartEnv.ok State.zero).2).2.dma_rx.queue.Nodup :=
  ⟨by decide,
   (rx_ring_requeues_received defaultConsts StartEnv.ok State.zero [60, 1514, 60, 60, 64, 60]
    (by decide) rfl rfl (fun _ _ => rfl) (by decide) (Or.inl (by decide))).2.2.2.1⟩

theorem wrap_rounds_length : wrap_rounds.length = 2 ^ 32 := List.length_replicate _ _

theorem wrap_rounds_pos : ∀ l ∈ wrap_rounds, 0 < l := by
  intro l hl
  have : l = 60 := List.eq_of_mem_replicate hl
  omega

theorem ring_three_wrap : ring threeConsts (2 ^ 32) = [⟨1, 1536⟩, ⟨2, 1536⟩, ⟨0, 1536⟩] := by
  decide

/-- C2 (as stated) fails on a ring of three buffers: after `2^32` rounds
`rx_next` has wrapped to 0 while the ring head is at `2^32 mod 3 = 1`, so the
next round receives buffer 1 and re-queues buffer 0, which is still queued. -/
theorem rx_ring_wrap_counterexample :
    (rx_round threeConsts 60 (rx_rounds threeConsts wrap_rounds
      (prueth_start threeConsts StartEnv.ok State.zero).2).2).1 =
        (some ⟨1, 1536⟩, [Event.dma_prepare_rcv_buf 0 1536]) ∧
    (rx_round threeConsts 60 (rx_rounds threeConsts wrap_rounds
      (prueth_start threeConsts StartEnv.ok State.zero).2).2).2.dma_rx.queue =
        [⟨2, 1536⟩, ⟨0, 1536⟩, ⟨0, 1536⟩] := by
  have hN : 0 < threeConsts.UDMA_RX_DESC_NUM := by decide
  obtain ⟨s1, s2⟩ := prueth_start_rx threeConsts StartEnv.ok State.zero
  have hq : (prueth_start threeConsts StartEnv.ok State.zero).2.dma_rx.queue =
      ring threeConsts 0 := s2 (fun _ _ => rfl)
  obtain ⟨_, i2, i3⟩ := rx_rounds_spec threeConsts hN wrap_rounds 0
    (prueth_start threeConsts StartEnv.ok State.zero).2 wrap_rounds_pos hq
    s1 (Or.inl (by rw [wrap_rounds_length]; omega))
  rw [wrap_rounds_length, Nat.zero_add] at i2 i3
  rw [Nat.mod_self] at i3
  obtain ⟨r1, r2, _⟩ := rx_round_spec threeConsts 60 _ _ _ (by decide) (i2.trans ring_three_wrap)
  rw [i3] at r1 r2
  exact ⟨r1, r2⟩

/-! ## Topology resolution at probe -/

theorem get_pruss_info_mapping (c : Consts) (e : PrussEnv) (s : State) (icssg : Int)
    (r : Int × ofnode × State) (h : get_pruss_info c e s icssg = some r) :
    r.2.2.mapping = s.mapping := by
  unfold get_pruss_info at h
  simp only [] at h
  cases hp : e.prussdev <;> simp only [hp] at h <;> split_ifs at h <;>
    simp only [Option.some.injEq, reduceCtorEq] at h <;> subst h <;> simp

/-- With a successful `misc_init_by_ofnode`, on a platform that traps accesses
through a null pointer `get_pruss_info` does not return. -/
theorem get_pruss_info_trap (c : Consts) (e : PrussEnv) (s : State) (icssg : Int)
    (hm : e.misc_init = 0) (hp : e.prussdev = none) :
    get_pruss_info c e s icssg = none := by
  simp [get_pruss_info, hm, hp]

@[simp] theorem parse_phy_mapping (c : Consts) (e : PhyEnv) (port : Nat) (s : State) :
    (icssg_ofdata_parse_phy c e port s).2.mapping = s.mapping := by
  unfold icssg_ofdata_parse_phy
  simp only []
  cases e.phy_mode <;> split_ifs <;> simp

@[simp] theorem config_rgmiidelay_mapping (c : Consts) (e : RgmiiEnv) (port : Nat)
    (s : State) : (prueth_config_rgmiidelay c e port s).2.mapping = s.mapping := by
  unfold prueth_config_rgmiidelay
  simp only []
  split_ifs <;> simp

@[simp] theorem mdio_init_mapping (c : Consts) (bus : Nat) (s : State) :
    (icssg_mdio_init c bus s).2.mapping = s.mapping := by
  unfold icssg_mdio_init
  simp only []
  split_ifs <;> simp

@[simp] theorem phy_init_mapping (c : Consts) (phydev : Nat) (ret : Int) (s : State) :
    (icssg_phy_init c phydev ret s).2.mapping = s.mapping := by
  unfold icssg_phy_init
  simp only []
  split_ifs <;> simp

@[simp] theorem config_set_mapping (c : Consts) (s : State) (icssg slice : Int) :
    (icssg_config_set c s icssg slice).mapping = s.mapping := by
  simp [icssg_config_set]

@[simp] theorem probe_sram_mapping (e : ProbeEnv) (n : ofnode) (s : State) :
    (probe_sram e n s).mapping = s.mapping := by
  unfold probe_sram
  simp only []
  split_ifs <;> simp

@[simp] theorem probe_rgmii_mapping (c : Consts) (e : ProbeEnv) (s : State) :
    (probe_rgmii c e s).2.mapping = s.mapping := by
  unfold probe_rgmii
  simp only []
  split_ifs <;> simp

@[simp] theorem probe_mdio_mapping (c : Consts) (e : ProbeEnv) (s : State) :
    (probe_mdio c e s).2.mapping = s.mapping := by
  unfold probe_mdio
  simp only []
  cases e.mdio_freq <;> split_ifs <;>
    simp only [emit_mapping, config_set_mapping, phy_init_mapping, mdio_init_mapping,
      set_mdio_freq_mapping, set_mdio_base_mapping]

@[simp] theorem probe_phy_mapping (c : Consts) (e : ProbeEnv) (s : State) :
    (probe_phy c e s).2.mapping = s.mapping := by
  unfold probe_phy
  simp only []
  split_ifs <;> simp

@[simp] theorem probe_resources_mapping (c : Consts) (e : ProbeEnv) (n : ofnode) (s : State) :
    (probe_resources c e n s).2.mapping = s.mapping := by
  unfold probe_resources
  simp only []
  split_ifs <;> simp

theorem probe_pruss_mapping (c : Consts) (e : ProbeEnv) (prueth : State)
    (r : ofnode × State) (h : probe_pruss c e prueth = some (.ok r)) :
    r.2.mapping =
      { prueth.mapping with dual_icssg := e.compatible_dual || prueth.dual_icssg } := by
  have hp : (if e.compatible_dual then prueth.set_dual_icssg true else prueth).mapping =
      { prueth.mapping with dual_icssg := e.compatible_dual || prueth.dual_icssg } := by
    cases hc : e.compatible_dual <;> simp [State.mapping, State.set_dual_icssg]
  rw [← hp]
  unfold probe_pruss at h
  simp only [] at h
  generalize (if e.compatible_dual then prueth.set_dual_icssg true else prueth) = p0 at h ⊢
  by_cases he : toU32 (if p0.dual_icssg then e.prus_ret 8 else e.prus_ret 4) ≠ 0
  · rw [if_pos he] at h
    simp at h
  rw [if_neg he] at h
  by_cases hn : (!ofnode_valid e.node0) = true
  · rw [if_pos hn] at h
    simp at h
  rw [if_neg hn] at h
  rcases h0 : get_pruss_info c e.pruss0 p0 ICSSG0 with _ | r0
  · simp [h0] at h
  have m0 := get_pruss_info_mapping c e.pruss0 p0 ICSSG0 r0 h0
  simp only [h0] at h
  by_cases hr : r0.1 ≠ 0
  · rw [if_pos hr] at h
    simp at h
  rw [if_neg hr] at h
  by_cases hd : r0.2.2.dual_icssg = true
  · rw [if_pos hd] at h
    rcases h1 : get_pruss_info c e.pruss1 r0.2.2 ICSSG1 with _ | r1
    · simp [h1] at h
    have m1 := get_pruss_info_mapping c e.pruss1 r0.2.2 ICSSG1 r1 h1
    simp only [h1] at h
    by_cases hr1 : r1.1 ≠ 0
    · rw [if_pos hr1] at h
      simp at h
    rw [if_neg hr1] at h
    simp only [Option.some.injEq, Except.ok.injEq] at h
    subst h
    exact m1.trans m0
  · rw [if_neg hd] at h
    simp only [Option.some.injEq, Except.ok.injEq] at h
    subst h
    exact m0

theorem prueth_probe_of_pruss (c : Consts) (e : ProbeEnv) (dev_node : ofnode)
    (prueth : State) (r : ofnode × State) (h : probe_pruss c e prueth = some (.ok r)) :
    prueth_probe c e dev_node prueth = some (probe_ports c e dev_node r.2) := by
  unfold prueth_probe
  rw [h]

/-- With a readable `prus` property, a valid first PRUSS phandle and a
successful `misc_init_by_ofnode`, on a platform that traps accesses through a
null pointer `prueth_probe` does not return. -/
theorem prueth_probe_trap (c : Consts) (e : ProbeEnv) (dev_node : ofnode) (prueth : State)
    (h4 : e.prus_ret 4 = 0) (h8 : e.prus_ret 8 = 0) (hn : ofnode_valid e.node0 = true)
    (hm : e.pruss0.misc_init = 0) (hp : e.pruss0.prussdev = none) :
    prueth_probe c e dev_node prueth = none := by
  have hg : ∀ s, get_pruss_info c e.pruss0 s ICSSG0 = none :=
    fun s => get_pruss_info_trap c e.pruss0 s ICSSG0 hm hp
  unfold prueth_probe probe_pruss
  simp [h4, h8, hn, hg, toU32]

/-- The probe of the sample device tree: it reaches the port check with
`State.looked_up` where the null accesses pass, and does not return where they
are trapped. -/
theorem probe_pruss_sample :
    probe_pruss defaultConsts ProbeEnv.mii0 State.zero = some (.ok (some 10, State.looked_up)) ∧
    prueth_probe defaultConsts ProbeEnv.mii0 (some 1) State.zero =
      some (probe_ports defaultConsts ProbeEnv.mii0 (some 1) State.looked_up) ∧
    prueth_probe defaultConsts ProbeEnv.trapping (some 1) State.zero = none :=
  ⟨rfl, by decide, by decide⟩

theorem topology_mii0_mapping (s : State) :
    (topology_mii0 s).mapping =
      if s.dual_icssg then
        { dual_icssg := true, slice := ⟨0, 1⟩, ingress_icssg := ICSSG0, ingress_slice := 0,
          egress_icssg := ICSSG1, egress_slice := 1 }
      else
        { dual_icssg := false, slice := ⟨0, s.slice.a1⟩, ingress_icssg := ICSSG0,
          ingress_slice := 0, egress_icssg := ICSSG0, egress_slice := 0 } := by
  unfold topology_mii0
  cases h : s.dual_icssg <;>
    simp [h, State.mapping, Arr2.set, ICSSG0, ICSSG1, State.set_slice, State.set_egress_icssg,
      State.set_egress_slice, State.set_ingress_icssg, State.set_ingress_slice]

theorem topology_mii1_mapping (s : State) :
    (topology_mii1 s).mapping =
      if s.dual_icssg then
        { dual_icssg := true, slice := ⟨1, 0⟩, ingress_icssg := ICSSG1, ingress_slice := 0,
          egress_icssg := ICSSG0, egress_slice := 1 }
      else
        { dual_icssg := false, slice := ⟨1, s.slice.a1⟩, ingress_icssg := ICSSG0,
          ingress_slice := 0, egress_icssg := ICSSG0, egress_slice := 0 } := by
  unfold topology_mii1
  cases h : s.dual_icssg <;>
    simp [h, State.mapping, Arr2.set, ICSSG0, ICSSG1, State.set_slice, State.set_egress_icssg,
      State.set_egress_slice, State.set_ingress_icssg, State.set_ingress_slice]

theorem probe_ports_mii0 (c : Consts) (e : ProbeEnv) (dev_node : ofnode) (s : State)
    (h0 : ofnode_valid e.eth0_node = true) (h1 : ofnode_valid e.eth1_node = false) :
    probe_ports c e dev_node s = probe_resources c e dev_node (probe_mii0 c e s) := by
  simp [probe_ports, probe_topology, h0, h1]

theorem probe_ports_mii1 (c : Consts) (e : ProbeEnv) (dev_node : ofnode) (s : State)
    (h0 : ofnode_valid e.eth0_node = false) (h1 : ofnode_valid e.eth1_node = true) :
    probe_ports c e dev_node s = probe_resources c e dev_node (probe_mii1 c e s) := by
  simp [probe_ports, probe_topology, h0, h1]

/-- C3: for every state the PRUSS lookup can leave, the part of `prueth_probe`
after the lookup, run with exactly one port sub-node valid, keeps `dual_icssg`
and leaves the topology of the table
single+mii0 -> slice[ICSSG0]=0, ingress=(ICSSG0,0), egress=(ICSSG0,0);
single+mii1 -> slice[ICSSG0]=1, ingress=(ICSSG0,0), egress=(ICSSG0,0);
dual+mii0 -> slice=[0,1], ingress=(ICSSG0,0), egress=(ICSSG1,1);
dual+mii1 -> slice=[1,0], ingress=(ICSSG1,0), egress=(ICSSG0,1);
in dual mode ingress and egress are on different ICSSG instances and the two
slices differ.  The topology is the one assigned by the two topology blocks:
no later probe step changes it. -/
theorem probe_topology_table (c : Consts) (e : ProbeEnv) (dev_node : ofnode)
    (prueth : State) (hx : ofnode_valid e.eth0_node ≠ ofnode_valid e.eth1_node) :
    (probe_ports c e dev_node prueth).2.dual_icssg = prueth.dual_icssg ∧
    (prueth.dual_icssg = false → ofnode_valid e.eth0_node = true →
      (probe_ports c e dev_node prueth).2.slice.get ICSSG0 = 0 ∧
      (probe_ports c e dev_node prueth).2.ingress_icssg = ICSSG0 ∧
      (probe_ports c e dev_node prueth).2.ingress_slice = 0 ∧
      (probe_ports c e dev_node prueth).2.egress_icssg = ICSSG0 ∧
      (probe_ports c e dev_node prueth).2.egress_slice = 0) ∧
    (prueth.dual_icssg = false → ofnode_valid e.eth1_node = true →
      (probe_ports c e dev_node prueth).2.slice.get ICSSG0 = 1 ∧
      (probe_ports c e dev_node prueth).2.ingress_icssg = ICSSG0 ∧
      (probe_ports c e dev_node prueth).2.ingress_slice = 0 ∧
      (probe_ports c e dev_node prueth).2.egress_icssg = ICSSG0 ∧
      (probe_ports c e dev_node prueth).2.egress_slice = 0) ∧
    (prueth.dual_icssg = true → ofnode_valid e.eth0_node = true →
      (probe_ports c e dev_node prueth).2.slice.get ICSSG0 = 0 ∧
      (probe_ports c e dev_node prueth).2.slice.get ICSSG1 = 1 ∧
      (probe_ports c e dev_node prueth).2.ingress_icssg = ICSSG0 ∧
      (probe_ports c e dev_node prueth).2.ingress_slice = 0 ∧
      (probe_ports c e dev_node prueth).2.egress_icssg = ICSSG1 ∧
      (probe_ports c e dev_node prueth).2.egress_slice = 1) ∧
    (prueth.dual_icssg = true → ofnode_valid e.eth1_node = true →
      (probe_ports c e dev_node prueth).2.slice.get ICSSG0 = 1 ∧
      (probe_ports c e dev_node prueth).2.slice.get ICSSG1 = 0 ∧
      (probe_ports c e dev_node prueth).2.ingress_icssg = ICSSG1 ∧
      (probe_ports c e dev_node prueth).2.ingress_slice = 0 ∧
      (probe_ports c e dev_node prueth).2.egress_icssg = ICSSG0 ∧
      (probe_ports c e dev_node prueth).2.egress_slice = 1) ∧
    (prueth.dual_icssg = true →
      (probe_ports c e dev_node prueth).2.ingress_icssg ≠
        (probe_ports c e dev_node prueth).2.egress_icssg ∧
      (probe_ports c e dev_node prueth).2.slice.get ICSSG0 ≠
        (probe_ports c e dev_node prueth).2.slice.get ICSSG1) ∧
    (probe_ports c e dev_node prueth).2.mapping = (probe_topology c e prueth).mapping := by
  have key : ∀ s : State, s.dual_icssg = s.mapping.dual_icssg ∧ s.slice = s.mapping.slice ∧
      s.ingress_icssg = s.mapping.ingress_icssg ∧ s.ingress_slice = s.mapping.ingress_slice ∧
      s.egress_icssg = s.mapping.egress_icssg ∧ s.egress_slice = s.mapping.egress_slice :=
    fun _ => ⟨rfl, rfl, rfl, rfl, rfl, rfl⟩
  obtain ⟨k1, k2, k3, k4, k5, k6⟩ := key (probe_ports c e dev_node prueth).2
  rw [k1, k2, k3, k4, k5, k6]
  cases h0 : ofnode_valid e.eth0_node <;> cases h1 : ofnode_valid e.eth1_node
  · exact absurd (h0.trans h1.symm) hx
  · rw [probe_ports_mii1 c e dev_node prueth h0 h1, probe_resources_mapping]
    have ht : probe_topology c e prueth = probe_mii1 c e prueth := by
      simp [probe_topology, h0, h1]
    rw [ht]
    unfold probe_mii1
    simp only [set_eth_node_mapping, parse_phy_mapping, topology_mii1_mapping]
    cases hd2 : prueth.dual_icssg <;> simp [Arr2.get, ICSSG0, ICSSG1]
  · rw [probe_ports_mii0 c e dev_node prueth h0 h1, probe_resources_mapping]
    have ht : probe_topology c e prueth = probe_mii0 c e prueth := by
      simp [probe_topology, h0, h1]
    rw [ht]
    unfold probe_mii0
    simp only [set_eth_node_mapping, parse_phy_mapping, topology_mii0_mapping]
    cases hd2 : prueth.dual_icssg <;> simp [Arr2.get, ICSSG0, ICSSG1]
  · exact absurd (h0.trans h1.symm) hx

theorem probe_topology_table_witness :
    ofnode_valid ProbeEnv.dual_mii1.eth0_node ≠ ofnode_valid ProbeEnv.dual_mii1.eth1_node ∧
    (probe_ports defaultConsts ProbeEnv.dual_mii1 (some 1)
      (State.looked_up.set_dual_icssg true)).2.slice.get ICSSG0 = 1 ∧
    (probe_ports defaultConsts ProbeEnv.dual_mii1 (some 1)
      (State.looked_up.set_dual_icssg true)).2.slice.get ICSSG1 = 0 ∧
    (probe_ports defaultConsts ProbeEnv.dual_mii1 (some 1)
      (State.looked_up.set_dual_icssg true)).2.ingress_icssg = ICSSG1 ∧
    (probe_ports defaultConsts ProbeEnv.dual_mii1 (some 1)
      (State.looked_up.set_dual_icssg true)).2.ingress_slice = 0 ∧
    (probe_ports defaultConsts ProbeEnv.dual_mii1 (some 1)
      (State.looked_up.set_dual_icssg true)).2.egress_icssg = ICSSG0 ∧
    (probe_ports defaultConsts ProbeEnv.dual_mii1 (some 1)
      (State.looked_up.set_dual_icssg true)).2.egress_slice = 1 :=
  ⟨by decide,
   (probe_topology_table defaultConsts ProbeEnv.dual_mii1 (some 1)
      (State.looked_up.set_dual_icssg true) (by decide)).2.2.2.2.1 rfl rfl⟩

/-! ## The two port sub-nodes are mutually exclusive -/

@[simp] theorem set_sram_pa_log (s : State) (v : Arr2 Nat) : (s.set_sram_pa v).log = s.log := rfl
@[simp] theorem set_bus_log (s : State) (v : Nat) : (s.set_bus v).log = s.log := rfl
@[simp] theorem set_phydev_log (s : State) (v : Nat) : (s.set_phydev v).log = s.log := rfl
@[simp] theorem set_mdio_base_log (s : State) (v : Nat) : (s.set_mdio_base v).log = s.log := rfl
@[simp] theorem set_mdio_freq_log (s : State) (v : Nat) : (s.set_mdio_freq v).log = s.log := rfl

theorem config_rgmiidelay_log (c : Consts) (e : RgmiiEnv) (port : Nat) (s : State) :
    s.log <+: (prueth_config_rgmiidelay c e port s).2.log := by
  unfold prueth_config_rgmiidelay
  simp only []
  split_ifs <;> simp [List.append_assoc]

theorem probe_rgmii_log (c : Consts) (e : ProbeEnv) (s : State) :
    s.log <+: (probe_rgmii c e s).2.log := by
  unfold probe_rgmii
  simp only []
  split_ifs <;>
    first
    | exact List.prefix_refl _
    | exact config_rgmiidelay_log c _ _ s
    | exact (config_rgmiidelay_log c e.rgmii0 0 s).trans (config_rgmiidelay_log c _ _ _)

theorem probe_mdio_log (c : Consts) (e : ProbeEnv) (s : State) :
    s.log <+: (probe_mdio c e s).2.log := by
  unfold probe_mdio icssg_mdio_init icssg_phy_init icssg_config_set
  simp only []
  cases e.mdio_freq <;> split_ifs <;> simp [List.append_assoc]

theorem probe_phy_log (c : Consts) (e : ProbeEnv) (s : State) :
    s.log <+: (probe_phy c e s).2.log := by
  unfold probe_phy
  simp only []
  split_ifs
  · exact probe_rgmii_log c e s
  · exact (probe_rgmii_log c e s).trans (probe_mdio_log c e _)

theorem probe_sram_log (e : ProbeEnv) (n : ofnode) (s : State) :
    s.log <+: (probe_sram e n s).log := by
  unfold probe_sram
  simp only []
  split_ifs <;> simp

/-- The resource set-up of `prueth_probe` starts with `clk_get_by_name`. -/
theorem probe_resources_log (c : Consts) (e : ProbeEnv) (n : ofnode) (s : State) :
    s.log ++ [Event.clk_get_by_name] <+: (probe_resources c e n s).2.log := by
  unfold probe_resources
  simp only []
  split_ifs
  · simp
  · simp
  · simp [List.append_assoc]
  · simp [List.append_assoc]
  · refine List.IsPrefix.trans ?_ (probe_phy_log c e _)
    refine List.IsPrefix.trans ?_ (probe_sram_log e _ _)
    simp [List.append_assoc]

/-- C4: for every state the PRUSS lookup can leave, the part of `prueth_probe`
after the lookup returns `-ENODEV` and does nothing more when neither
`ethernet-mii0` nor `ethernet-mii1` is valid, returns `-EINVAL` and does
nothing more when both are valid, and goes on to the topology assignment and
the resource set-up, which starts with `clk_get_by_name`, when exactly one of
them is valid. -/
theorem probe_port_exclusive (c : Consts) (e : ProbeEnv) (dev_node : ofnode)
    (prueth : State) :
    (ofnode_valid e.eth0_node = false → ofnode_valid e.eth1_node = false →
      probe_ports c e dev_node prueth = (-c.ENODEV, prueth)) ∧
    (ofnode_valid e.eth0_node = true → ofnode_valid e.eth1_node = true →
      probe_ports c e dev_node prueth = (-c.EINVAL, prueth)) ∧
    (ofnode_valid e.eth0_node ≠ ofnode_valid e.eth1_node →
      probe_ports c e dev_node prueth =
        probe_resources c e dev_node (probe_topology c e prueth) ∧
      (probe_topology c e prueth).log ++ [Event.clk_get_by_name] <+:
        (probe_ports c e dev_node prueth).2.log) := by
  refine ⟨?_, ?_, ?_⟩
  · intro h0 h1; simp [probe_ports, h0, h1]
  · intro h0 h1; simp [probe_ports, h0, h1]
  · intro hx
    have hp : probe_ports c e dev_node prueth =
        probe_resources c e dev_node (probe_topology c e prueth) := by
      cases h0 : ofnode_valid e.eth0_node <;> cases h1 : ofnode_valid e.eth1_node <;>
        simp_all [probe_ports]
    exact ⟨hp, by rw [hp]; exact probe_resources_log c e dev_node _⟩

theorem probe_port_exclusive_witness :
    probe_ports defaultConsts ProbeEnv.no_port (some 1) State.looked_up =
      (-19, State.looked_up) ∧
    probe_ports defaultConsts ProbeEnv.both_ports (some 1) State.looked_up =
      (-22, State.looked_up) ∧
    (probe_ports defaultConsts ProbeEnv.mii0 (some 1) State.looked_up).1 = 0 :=
  ⟨(probe_port_exclusive defaultConsts ProbeEnv.no_port (some 1) State.looked_up).1 rfl rfl,
   (probe_port_exclusive defaultConsts ProbeEnv.both_ports (some 1) State.looked_up).2.1
     rfl rfl,
   (congrArg Prod.fst ((probe_port_exclusive defaultConsts ProbeEnv.mii0 (some 1)
      State.looked_up).2.2 (by decide)).1).trans (by decide)⟩

/-! ## The operations leave the topology alone -/

/-- C5: for every device state and every argument, `prueth_start`,
`prueth_send`, `prueth_recv`, `prueth_free_pkt` and `prueth_stop` leave
`dual_icssg`, `slice[]`, `ingress_icssg`, `ingress_slice`, `egress_icssg`,
`egress_slice`, `phy_addr` and `phy_interface` as they were. -/
theorem ops_preserve_topology (c : Consts) (priv : State) :
    (∀ e : StartEnv, (prueth_start c e priv).2.topology = priv.topology) ∧
    (∀ ret length : Int, (prueth_send ret priv length).2.topology = priv.topology) ∧
    (∀ len : Int, (prueth_recv len priv).2.topology = priv.topology) ∧
    (∀ prep length : Int, (prueth_free_pkt c prep priv length).2.topology = priv.topology) ∧
    (prueth_stop priv).topology = priv.topology := by
  refine ⟨fun e => (prueth_start_frame c e priv).1, ?_, ?_, ?_, ?_⟩
  · intro ret length; simp [prueth_send]
  · intro len; simp [prueth_recv]
  · intro prep length
    unfold prueth_free_pkt
    split_ifs <;> simp
  · unfold prueth_stop
    simp only []
    split_ifs <;> simp

/-! ## Error propagation in `prueth_start` -/

/-- The result of `prueth_start` depends on `dma_enable` and `phy_startup`
only. -/
theorem prueth_start_result (c : Consts) (e : StartEnv) (priv : State) :
    (prueth_start c e priv).1 =
      if e.dma_enable_tx ≠ 0 then e.dma_enable_tx
      else if e.dma_enable_rx ≠ 0 then e.dma_enable_rx
      else e.phy_startup := by
  unfold prueth_start
  simp only []
  split_ifs <;> simp_all

/-- C6 fails on the code: `prueth_start` returns 0 although `dma_get_by_name`
failed for the TX channel, for the RX channel, or `dma_prepare_rcv_buf` failed
for every buffer. -/
theorem start_swallows_dma_failures :
    (prueth_start defaultConsts { StartEnv.ok with dma_get_tx := -19 } State.zero).1 = 0 ∧
    (prueth_start defaultConsts { StartEnv.ok with dma_get_rx := -19 } State.zero).1 = 0 ∧
    (prueth_start defaultConsts { StartEnv.ok with prepare := fun _ => -12 } State.zero).1 = 0 ∧
    (prueth_start defaultConsts { StartEnv.ok with prepare := fun _ => -12 }
      State.zero).2.dma_rx.queue = [] := by
  refine ⟨prueth_start_result _ _ _, prueth_start_result _ _ _, prueth_start_result _ _ _, ?_⟩
  decide

/-! ## DMA channel names -/

/-- In dual ICSSG mode the two topologies ask for different channels. -/
theorem dual_chn_names_differ (s : State) (h : s.dual_icssg = true) :
    chn_names (topology_mii0 s) = ("tx1-0", "rx0") ∧
    chn_names (topology_mii1 s) = ("tx0-0", "rx1") := by
  have h0 := topology_mii0_mapping s
  have h1 := topology_mii1_mapping s
  rw [if_pos h] at h0 h1
  have e0 : chn_names (topology_mii0 s) =
      (tx_chn_name (topology_mii0 s).mapping.egress_icssg,
       rx_chn_name (topology_mii0 s).mapping.ingress_icssg) := by
    have hd : (topology_mii0 s).dual_icssg = true := congrArg Mapping.dual_icssg h0
    simp [chn_names, hd, State.mapping]
  have e1 : chn_names (topology_mii1 s) =
      (tx_chn_name (topology_mii1 s).mapping.egress_icssg,
       rx_chn_name (topology_mii1 s).mapping.ingress_icssg) := by
    have hd : (topology_mii1 s).dual_icssg = true := congrArg Mapping.dual_icssg h1
    simp [chn_names, hd, State.mapping]
  rw [e0, e1, h0, h1]
  exact ⟨by decide, by decide⟩

/-- In single ICSSG mode both topologies ask for the same channels. -/
theorem single_chn_names_coincide (s : State) (h : s.dual_icssg = false) :
    chn_names (topology_mii0 s) = ("tx0-0", "rx0") ∧
    chn_names (topology_mii1 s) = ("tx0-0", "rx0") := by
  have h0 := topology_mii0_mapping s
  have h1 := topology_mii1_mapping s
  rw [if_neg (by simp [h])] at h0 h1
  have e0 : chn_names (topology_mii0 s) =
      (tx_chn_name (topology_mii0 s).mapping.egress_slice,
       rx_chn_name (topology_mii0 s).mapping.ingress_slice) := by
    have hd : (topology_mii0 s).dual_icssg = false := congrArg Mapping.dual_icssg h0
    simp [chn_names, hd, State.mapping]
  have e1 : chn_names (topology_mii1 s) =
      (tx_chn_name (topology_mii1 s).mapping.egress_slice,
       rx_chn_name (topology_mii1 s).mapping.ingress_slice) := by
    have hd : (topology_mii1 s).dual_icssg = false := congrArg Mapping.dual_icssg h1
    simp [chn_names, hd, State.mapping]
  rw [e0, e1, h0, h1]
  exact ⟨rfl, rfl⟩

/-- C7 fails on the code for single ICSSG: probed with `ethernet-mii0` only or
with `ethernet-mii1` only (on a platform where the probe gets past the PRUSS
lookup), `prueth_probe` returns 0 and `prueth_start` asks for the same channel
pair `tx0-0`, `rx0`, while the slice in use differs. -/
theorem single_icssg_channels_not_differentiated :
    ∃ s0 s1 : State,
      prueth_probe defaultConsts ProbeEnv.mii0 (some 1) State.zero = some (0, s0) ∧
      prueth_probe defaultConsts ProbeEnv.mii1 (some 1) State.zero = some (0, s1) ∧
      s0.slice.get ICSSG0 = 0 ∧
      s1.slice.get ICSSG0 = 1 ∧
      chn_names s0 = ("tx0-0", "rx0") ∧
      chn_names s1 = ("tx0-0", "rx0") ∧
      (prueth_start defaultConsts StartEnv.ok s0).2.dma_tx.chan =
        (prueth_start defaultConsts StartEnv.ok s1).2.dma_tx.chan ∧
      (prueth_start defaultConsts StartEnv.ok s0).2.dma_rx.chan =
        (prueth_start defaultConsts StartEnv.ok s1).2.dma_rx.chan :=
  ⟨(probe_ports defaultConsts ProbeEnv.mii0 (some 1) State.looked_up).2,
   (probe_ports defaultConsts ProbeEnv.mii1 (some 1) State.looked_up).2,
   by decide, by decide, by decide, by decide, by decide, by decide, by decide, by decide⟩

end Prueth

namespace Sdhci

/-! ## Drive strength decoding -/

theorem ofdata_result (k : Consts) (e : OfdataEnv) (plat : Plat)
    (h1 : e.trm_icp_ret = 0) (h2 : e.otap_del_sel_ret = 0) (h3 : e.drv_strength_ret = 0)
    (hu : e.drv_strength < 2 ^ 32) :
    (am654_sdhci_ofdata_to_platdata k e plat).1 =
      (match drv_strength_decode e.drv_strength with
        | none => -k.EINVAL
        | some _ => e.mmc_of_parse) ∧
    (am654_sdhci_ofdata_to_platdata k e plat).2.drv_strength =
      (match drv_strength_decode e.drv_strength with
        | none => plat.drv_strength
        | some v => v) ∧
    (am654_sdhci_ofdata_to_platdata k e plat).2.log =
      (match drv_strength_decode e.drv_strength with
        | none => plat.log
        | some _ => plat.log ++ [Event.mmc_of_parse]) := by
  have hm : e.drv_strength % 2 ^ 32 = e.drv_strength := Nat.mod_eq_of_lt hu
  unfold am654_sdhci_ofdata_to_platdata
  simp only [h1, h2, h3, hm, ne_eq, not_true_eq_false, if_false, if_true]
  cases drv_strength_decode e.drv_strength with
  | none => simp
  | some v =>
    simp only []
    split_ifs with hp
    · simp [Plat.emit, hp]
    · simp [Plat.emit]

/-- C8: when the three property reads succeed, `ti,driver-strength-ohm` is
decoded as 50 -> 0, 33 -> 1, 66 -> 2, 100 -> 3, 40 -> 4 into
`plat->drv_strength`; every other value makes the function return `-EINVAL`
with `plat->drv_strength` untouched; the decoding is injective and its results
fit the three bits of `DR_TY`. -/
theorem drv_strength_decoding (k : Consts) (e : OfdataEnv) (plat : Plat)
    (h1 : e.trm_icp_ret = 0) (h2 : e.otap_del_sel_ret = 0) (h3 : e.drv_strength_ret = 0)
    (hu : e.drv_strength < 2 ^ 32) :
    (e.drv_strength = 50 →
      (am654_sdhci_ofdata_to_platdata k e plat).2.drv_strength = DRIVER_STRENGTH_50_OHM ∧
      (am654_sdhci_ofdata_to_platdata k e plat).1 = e.mmc_of_parse) ∧
    (e.drv_strength = 33 →
      (am654_sdhci_ofdata_to_platdata k e plat).2.drv_strength = DRIVER_STRENGTH_33_OHM ∧
      (am654_sdhci_ofdata_to_platdata k e plat).1 = e.mmc_of_parse) ∧
    (e.drv_strength = 66 →
      (am654_sdhci_ofdata_to_platdata k e plat).2.drv_strength = DRIVER_STRENGTH_66_OHM ∧
      (am654_sdhci_ofdata_to_platdata k e plat).1 = e.mmc_of_parse) ∧
    (e.drv_strength = 100 →
      (am654_sdhci_ofdata_to_platdata k e plat).2.drv_strength = DRIVER_STRENGTH_100_OHM ∧
      (am654_sdhci_ofdata_to_platdata k e plat).1 = e.mmc_of_parse) ∧
    (e.drv_strength = 40 →
      (am654_sdhci_ofdata_to_platdata k e plat).2.drv_strength = DRIVER_STRENGTH_40_OHM ∧
      (am654_sdhci_ofdata_to_platdata k e plat).1 = e.mmc_of_parse) ∧
    (e.drv_strength ≠ 50 → e.drv_strength ≠ 33 → e.drv_strength ≠ 66 →
      e.drv_strength ≠ 100 → e.drv_strength ≠ 40 →
      (am654_sdhci_ofdata_to_platdata k e plat).1 = -k.EINVAL ∧
      (am654_sdhci_ofdata_to_platdata k e plat).2.drv_strength = plat.drv_strength ∧
      (am654_sdhci_ofdata_to_platdata k e plat).2.log = plat.log) ∧
    (∀ a b v, drv_strength_decode a = some v → drv_strength_decode b = some v → a = b) ∧
    (∀ a v, drv_strength_decode a = some v →
      v < 8 ∧ (v <<< DR_TY_SHIFT) &&& DR_TY_MASK = v <<< DR_TY_SHIFT) := by
  obtain ⟨r1, r2, r3⟩ := ofdata_result k e plat h1 h2 h3 hu
  rw [r1, r2, r3]
  refine ⟨?_, ?_, ?_, ?_, ?_, ?_, ?_, ?_⟩
  · intro h; rw [h]; exact ⟨rfl, rfl⟩
  · intro h; rw [h]; exact ⟨rfl, rfl⟩
  · intro h; rw [h]; exact ⟨rfl, rfl⟩
  · intro h; rw [h]; exact ⟨rfl, rfl⟩
  · intro h; rw [h]; exact ⟨rfl, rfl⟩
  · intro n50 n33 n66 n100 n40
    simp [drv_strength_decode, n50, n33, n66, n100, n40]
  · intro a b v ha hb
    unfold drv_strength_decode at ha hb
    split_ifs at ha hb <;> simp_all [DRIVER_STRENGTH_50_OHM, DRIVER_STRENGTH_33_OHM,
      DRIVER_STRENGTH_66_OHM, DRIVER_STRENGTH_100_OHM, DRIVER_STRENGTH_40_OHM] <;> omega
  · intro a v ha
    unfold drv_strength_decode at ha
    split_ifs at ha <;> simp only [Option.some.injEq, reduceCtorEq] at ha <;> subst ha <;> decide

theorem drv_strength_decoding_witness :
    (am654_sdhci_ofdata_to_platdata defaultConsts OfdataEnv.sample Plat.zero).2.drv_strength =
      DRIVER_STRENGTH_50_OHM ∧
    (am654_sdhci_ofdata_to_platdata defaultConsts OfdataEnv.sample Plat.zero).1 = 0 :=
  (drv_strength_decoding defaultConsts OfdataEnv.sample Plat.zero rfl rfl rfl (by decide)).1 rfl

/-! ## DLL state after `am654_sdhci_set_ios_post` -/

@[simp] theorem plat_emit_dll_on (p : Plat) (e : Event) : (p.emit e).dll_on = p.dll_on := rfl
@[simp] theorem plat_emit_log (p : Plat) (e : Event) : (p.emit e).log = p.log ++ [e] := rfl
@[simp] theorem set_dll_on_dll_on (p : Plat) (v : Bool) : (p.set_dll_on v).dll_on = v := rfl
@[simp] theorem set_dll_on_log (p : Plat) (v : Bool) : (p.set_dll_on v).log = p.log := rfl

/-- Below the minimum frequency the hook only resets the clock enable, powers
the DLL off if it was on, and restarts the clock. -/
theorem set_ios_post_slow (k : Consts) (clk_ctrl : Nat) (poll : Int) (speed : Nat)
    (plat : Plat) (h : speed ≤ AM654_SDHCI_MIN_FREQ) :
    (am654_sdhci_set_ios_post k clk_ctrl poll speed plat).1 = 0 ∧
    (am654_sdhci_set_ios_post k clk_ctrl poll speed plat).2.dll_on = false ∧
    (am654_sdhci_set_ios_post k clk_ctrl poll speed plat).2.log =
      plat.log ++
        ([Event.sdhci_readw k.SDHCI_CLOCK_CONTROL,
          Event.sdhci_writew (clear_bits (clk_ctrl % 2 ^ 16) k.SDHCI_CLOCK_CARD_EN % 2 ^ 16)
            k.SDHCI_CLOCK_CONTROL] ++
         (if plat.dll_on then [Event.regmap_update_bits PHY_CTRL1 ENDLL_MASK 0] else []) ++
         [Event.sdhci_set_clock speed]) := by
  have hn : ¬ AM654_SDHCI_MIN_FREQ < speed := Nat.not_lt.mpr h
  unfold am654_sdhci_set_ios_post
  simp only [hn, if_false]
  cases hd : plat.dll_on <;> simp [hd]

/-- Above the minimum frequency the result and the DLL flag follow the poll. -/
theorem set_ios_post_fast (k : Consts) (clk_ctrl : Nat) (poll : Int) (speed : Nat)
    (plat : Plat) (h : AM654_SDHCI_MIN_FREQ < speed) :
    (am654_sdhci_set_ios_post k clk_ctrl poll speed plat).1 = poll ∧
    (am654_sdhci_set_ios_post k clk_ctrl poll speed plat).2.dll_on = decide (poll = 0) := by
  unfold am654_sdhci_set_ios_post
  simp only [h, if_true]
  cases hd : plat.dll_on <;> by_cases hp : poll = 0 <;> simp [hd, hp]

/-- C9: for every prior `dll_on` and every clock speed, a call that returns 0
leaves `dll_on` true exactly when `speed > AM654_SDHCI_MIN_FREQ`; when the
DLL-ready poll fails the call returns the poll's error with `dll_on` false;
and for `speed <= AM654_SDHCI_MIN_FREQ` the call makes no write to `PHY_CTRL4`
or `PHY_CTRL5` and never sets `ENDLL`. -/
theorem set_ios_post_dll (k : Consts) (clk_ctrl : Nat) (poll : Int) (speed : Nat)
    (plat : Plat) :
    ((am654_sdhci_set_ios_post k clk_ctrl poll speed plat).1 = 0 →
      ((am654_sdhci_set_ios_post k clk_ctrl poll speed plat).2.dll_on = true ↔
        AM654_SDHCI_MIN_FREQ < speed)) ∧
    (AM654_SDHCI_MIN_FREQ < speed → poll ≠ 0 →
      (am654_sdhci_set_ios_post k clk_ctrl poll speed plat).1 = poll ∧
      (am654_sdhci_set_ios_post k clk_ctrl poll speed plat).2.dll_on = false) ∧
    (speed ≤ AM654_SDHCI_MIN_FREQ →
      (am654_sdhci_set_ios_post k clk_ctrl poll speed plat).1 = 0 ∧
      (am654_sdhci_set_ios_post k clk_ctrl poll speed plat).2.dll_on = false ∧
      ∃ calls, (am654_sdhci_set_ios_post k clk_ctrl poll speed plat).2.log = plat.log ++ calls ∧
        ∀ reg mask val, Event.regmap_update_bits reg mask val ∈ calls →
          reg ≠ PHY_CTRL4 ∧ reg ≠ PHY_CTRL5 ∧ val &&& ENDLL_MASK = 0) := by
  refine ⟨?_, ?_, ?_⟩
  · intro h0
    by_cases hs : AM654_SDHCI_MIN_FREQ < speed
    · obtain ⟨f1, f2⟩ := set_ios_post_fast k clk_ctrl poll speed plat hs
      rw [f1] at h0
      rw [f2]
      simp [h0, hs]
    · obtain ⟨_, s2, _⟩ := set_ios_post_slow k clk_ctrl poll speed plat (Nat.not_lt.mp hs)
      simp [s2, hs]
  · intro hs hp
    obtain ⟨f1, f2⟩ := set_ios_post_fast k clk_ctrl poll speed plat hs
    exact ⟨f1, by simp [f2, hp]⟩
  · intro hs
    obtain ⟨s1, s2, s3⟩ := set_ios_post_slow k clk_ctrl poll speed plat hs
    refine ⟨s1, s2, _, s3, ?_⟩
    intro reg mask val hmem
    cases hd : plat.dll_on <;> simp [hd] at hmem
    obtain ⟨rfl, rfl, rfl⟩ := hmem
    exact ⟨by decide, by decide, by simp⟩

/-! ## Tuning loop -/

theorem cmd_count_append (l1 l2 : List Event) :
    cmd_count (l1 ++ l2) = cmd_count l1 + cmd_count l2 := by
  simp [cmd_count, List.filter_append]

theorem writel_regs_append (l1 l2 : List Event) :
    writel_regs (l1 ++ l2) = writel_regs l1 ++ writel_regs l2 := by
  simp [writel_regs, List.filterMap_append]

/-- One pass through the loop body sends one tuning command and makes no
32-bit register write. -/
theorem tuning_loop_succ (k : Consts) (rb : Nat → Nat) (opcode bus_width n i ctrl : Nat)
    (log : List Event) :
    ∃ log2, cmd_count log2 = cmd_count log + 1 ∧ writel_regs log2 = writel_regs log ∧
      tuning_loop k rb opcode bus_width (n + 1) i ctrl log =
        if (rb i % 2 ^ 16) &&& k.SDHCI_CTRL_EXEC_TUNING ≠ 0 then
          tuning_loop k rb opcode bus_width n (i + 1) (rb i % 2 ^ 16) log2
        else (toChar k (n : Int), rb i % 2 ^ 16, log2) := by
  refine ⟨_, ?_, ?_, by rw [tuning_loop]⟩
  · split_ifs <;> simp [cmd_count_append] <;> simp [cmd_count]
  · split_ifs <;> simp [writel_regs_append] <;> simp [writel_regs]

/-- The loop never sends more commands than its counter allows. -/
theorem tuning_loop_bounded (k : Consts) (rb : Nat → Nat) (opcode bus_width : Nat) :
    ∀ (n i ctrl : Nat) (log : List Event),
      cmd_count (tuning_loop k rb opcode bus_width n i ctrl log).2.2 ≤ cmd_count log + n := by
  intro n
  induction n with
  | zero => intro i ctrl log; simp [tuning_loop]
  | succ n ih =>
    intro i ctrl log
    obtain ⟨log2, hc, _, hstep⟩ := tuning_loop_succ k rb opcode bus_width n i ctrl log
    rw [hstep]
    split_ifs
    · have := ih (i + 1) (rb i % 2 ^ 16) log2
      omega
    · simp only; omega

/-- When `EXEC_TUNING` stays set for `n` read-backs, the loop sends `n`
commands and leaves through the counter test. -/
theorem tuning_loop_exhausted (k : Consts) (rb : Nat → Nat) (opcode bus_width : Nat) :
    ∀ (n i ctrl : Nat) (log : List Event), (∀ j < n, exec_set k rb (i + j) = true) →
      (tuning_loop k rb opcode bus_width n i ctrl log).1 = toChar k (-1) ∧
      (tuning_loop k rb opcode bus_width n i ctrl log).2.1 =
        (if n = 0 then ctrl else rb (i + n - 1) % 2 ^ 16) ∧
      cmd_count (tuning_loop k rb opcode bus_width n i ctrl log).2.2 = cmd_count log + n ∧
      writel_regs (tuning_loop k rb opcode bus_width n i ctrl log).2.2 = writel_regs log := by
  intro n
  induction n with
  | zero => intro i ctrl log _; simp [tuning_loop]
  | succ n ih =>
    intro i ctrl log h
    have h0 : (rb i % 2 ^ 16) &&& k.SDHCI_CTRL_EXEC_TUNING ≠ 0 := by
      simpa [exec_set] using h 0 (Nat.succ_pos n)
    have hrest : ∀ j < n, exec_set k rb (i + 1 + j) = true := by
      intro j hj
      have := h (j + 1) (Nat.succ_lt_succ hj)
      simpa [Nat.add_assoc, Nat.add_comm 1 j] using this
    obtain ⟨log2, hc, hw, hstep⟩ := tuning_loop_succ k rb opcode bus_width n i ctrl log
    rw [hstep, if_pos h0]
    obtain ⟨i1, i2, i3, i4⟩ := ih (i + 1) (rb i % 2 ^ 16) log2 hrest
    rw [i1, i2, i3, i4, hc, hw]
    refine ⟨rfl, ?_, by omega, rfl⟩
    cases n with
    | zero => simp
    | succ m => simp [Nat.add_assoc, Nat.add_comm 1]

/-- When read-back `j` is the first with `EXEC_TUNING` clear, the loop sends
`j + 1` commands and leaves with that read-back in `ctrl`. -/
theorem tuning_loop_done (k : Consts) (rb : Nat → Nat) (opcode bus_width : Nat) :
    ∀ (n i ctrl : Nat) (log : List Event) (j : Nat), j < n →
      (∀ j' < j, exec_set k rb (i + j') = true) → exec_set k rb (i + j) = false →
      (tuning_loop k rb opcode bus_width n i ctrl log).1 = toChar k ((n - 1 - j : Nat) : Int) ∧
      (tuning_loop k rb opcode bus_width n i ctrl log).2.1 = rb (i + j) % 2 ^ 16 ∧
      cmd_count (tuning_loop k rb opcode bus_width n i ctrl log).2.2 = cmd_count log + (j + 1) ∧
      writel_regs (tuning_loop k rb opcode bus_width n i ctrl log).2.2 = writel_regs log := by
  intro n
  induction n with
  | zero => intro i ctrl log j hj; omega
  | succ n ih =>
    intro i ctrl log j hj hset hclr
    obtain ⟨log2, hc, hw, hstep⟩ := tuning_loop_succ k rb opcode bus_width n i ctrl log
    rw [hstep]
    cases j with
    | zero =>
      have h0 : ¬ (rb i % 2 ^ 16) &&& k.SDHCI_CTRL_EXEC_TUNING ≠ 0 := by
        simpa [exec_set] using hclr
      rw [if_neg h0]
      exact ⟨by simp, by simp, by simpa using hc, hw⟩
    | succ j =>
      have h0 : (rb i % 2 ^ 16) &&& k.SDHCI_CTRL_EXEC_TUNING ≠ 0 := by
        simpa [exec_set] using hset 0 (Nat.succ_pos j)
      have hset2 : ∀ j' < j, exec_set k rb (i + 1 + j') = true := by
        intro j' hj'
        have := hset (j' + 1) (Nat.succ_lt_succ hj')
        simpa [Nat.add_assoc, Nat.add_comm 1 j'] using this
      have hclr2 : exec_set k rb (i + 1 + j) = false := by
        simpa [Nat.add_assoc, Nat.add_comm 1 j] using hclr
      rw [if_pos h0]
      obtain ⟨i1, i2, i3, i4⟩ := ih (i + 1) (rb i % 2 ^ 16) log2 j (Nat.lt_of_succ_lt_succ hj)
        hset2 hclr2
      rw [i1, i2, i3, i4, hc, hw]
      refine ⟨?_, ?_, by omega, rfl⟩
      · congr 2; omega
      · simp [Nat.add_assoc, Nat.add_comm 1]

theorem clear_bits_and (x m : Nat) : clear_bits x m &&& m = 0 := by
  apply Nat.eq_of_testBit_eq
  intro i
  have hlt : m % 2 ^ 32 < 2 ^ 32 := Nat.mod_lt _ (by decide)
  have hM : 2 ^ 32 - 1 - m % 2 ^ 32 = 2 ^ 32 - (m % 2 ^ 32 + 1) := by omega
  simp only [clear_bits, Nat.testBit_and, Nat.zero_testBit, hM, Nat.testBit_mod_two_pow,
    Nat.testBit_two_pow_sub_succ hlt]
  by_cases hi : i < 32 <;> simp [hi]

theorem toChar_small (k : Consts) (n : Nat) (h : n < 128) : toChar k (n : Int) = n := by
  unfold toChar
  split_ifs <;> omega

theorem toChar_minus_one (k : Consts) :
    toChar k (-1) = if k.char_signed then -1 else 255 := by
  unfold toChar
  split_ifs <;> rfl

theorem tuning_entry_counts (k : Consts) (ctrl0 : Nat) :
    cmd_count (tuning_entry k ctrl0).2 = 0 ∧
    writel_regs (tuning_entry k ctrl0).2 = [k.SDHCI_INT_ENABLE, k.SDHCI_SIGNAL_ENABLE] := by
  simp [tuning_entry, cmd_count, writel_regs]

/-- Leaving with a non-negative counter: the result is decided by `TUNED_CLK`
in `ctrl`, and `HOST_CONTROL2` is not written. -/
theorem tuning_exit_nonneg (k : Consts) (counter : Int) (ctrl : Nat) (log : List Event)
    (h : 0 ≤ counter) :
    (tuning_exit k counter ctrl log).1 = (if ctrl &&& k.SDHCI_CTRL_TUNED_CLK = 0 then -1 else 0) ∧
    cmd_count (tuning_exit k counter ctrl log).2 = cmd_count log ∧
    writel_regs (tuning_exit k counter ctrl log).2 = writel_regs log ++
      (if ctrl &&& k.SDHCI_CTRL_TUNED_CLK = 0 then []
       else [k.SDHCI_INT_ENABLE, k.SDHCI_SIGNAL_ENABLE]) := by
  have hn : ¬ counter < 0 := not_lt.mpr h
  unfold tuning_exit
  simp only [hn, if_false]
  split_ifs <;> simp [cmd_count_append, writel_regs_append, cmd_count, writel_regs]

/-- Leaving with a negative counter: `TUNED_CLK` is cleared in `HOST_CONTROL2`
and the result is -1. -/
theorem tuning_exit_neg (k : Consts) (counter : Int) (ctrl : Nat) (log : List Event)
    (h : counter < 0) :
    tuning_exit k counter ctrl log =
      (-1, log ++ [Event.sdhci_writel (clear_bits ctrl k.SDHCI_CTRL_TUNED_CLK)
        k.SDHCI_HOST_CONTROL2]) := by
  unfold tuning_exit
  simp only [h, if_true, clear_bits_and]

/-- The tuning procedure terminates having sent at most
`SDHCI_TUNING_LOOP_COUNT` tuning commands, whatever the controller reads back. -/
theorem execute_tuning_bounded (k : Consts) (ctrl0 : Nat) (rb : Nat → Nat)
    (opcode bus_width : Nat) :
    cmd_count (am654_sdhci_execute_tuning k ctrl0 rb opcode bus_width).2 ≤
      SDHCI_TUNING_LOOP_COUNT := by
  unfold am654_sdhci_execute_tuning
  simp only []
  have hb := tuning_loop_bounded k rb opcode bus_width SDHCI_TUNING_LOOP_COUNT 0
    (tuning_entry k ctrl0).1 (tuning_entry k ctrl0).2
  rw [(tuning_entry_counts k ctrl0).1, Nat.zero_add] at hb
  refine le_trans (le_of_eq ?_) hb
  unfold tuning_exit
  simp only []
  split_ifs <;> simp [cmd_count_append] <;> simp [cmd_count]

/-- When read-back `j < 40` is the first with `EXEC_TUNING` clear, the result
is 0 if that read-back has `TUNED_CLK` set and -1 otherwise. -/
theorem execute_tuning_done (k : Consts) (ctrl0 : Nat) (rb : Nat → Nat)
    (opcode bus_width j : Nat) (hj : j < SDHCI_TUNING_LOOP_COUNT)
    (hset : ∀ i < j, exec_set k rb i = true) (hclr : exec_set k rb j = false) :
    (am654_sdhci_execute_tuning k ctrl0 rb opcode bus_width).1 =
      (if tuned_set k rb j then 0 else -1) ∧
    cmd_count (am654_sdhci_execute_tuning k ctrl0 rb opcode bus_width).2 = j + 1 ∧
    writel_regs (am654_sdhci_execute_tuning k ctrl0 rb opcode bus_width).2 =
      [k.SDHCI_INT_ENABLE, k.SDHCI_SIGNAL_ENABLE] ++
        (if tuned_set k rb j then [k.SDHCI_INT_ENABLE, k.SDHCI_SIGNAL_ENABLE] else []) := by
  obtain ⟨l1, l2, l3, l4⟩ := tuning_loop_done k rb opcode bus_width SDHCI_TUNING_LOOP_COUNT 0
    (tuning_entry k ctrl0).1 (tuning_entry k ctrl0).2 j hj
    (by simpa using hset) (by simpa using hclr)
  have hc : (0 : Int) ≤ toChar k ((SDHCI_TUNING_LOOP_COUNT - 1 - j : Nat) : Int) := by
    rw [toChar_small k _ (by simp only [SDHCI_TUNING_LOOP_COUNT]; omega)]
    exact Int.natCast_nonneg _
  unfold am654_sdhci_execute_tuning
  simp only []
  rw [l1, l2]
  obtain ⟨e1, e2, e3⟩ := tuning_exit_nonneg k _ (rb (0 + j) % 2 ^ 16) 
    (tuning_loop k rb opcode bus_width SDHCI_TUNING_LOOP_COUNT 0
      (tuning_entry k ctrl0).1 (tuning_entry k ctrl0).2).2.2 hc
  rw [e1, e2, e3, l3, l4, (tuning_entry_counts k ctrl0).1, (tuning_entry_counts k ctrl0).2]
  refine ⟨?_, by omega, ?_⟩ <;> simp only [tuned_set, Nat.zero_add] <;> split_ifs <;> simp_all

/-- When all 40 read-backs have `EXEC_TUNING` set: with a signed `char` the
counter ends at -1, `TUNED_CLK` is cleared in `HOST_CONTROL2` and the result is
-1; with an unsigned `char` the counter ends at 255, nothing is cleared and the
result follows `TUNED_CLK` of the last read-back. -/
theorem execute_tuning_exhausted (k : Consts) (ctrl0 : Nat) (rb : Nat → Nat)
    (opcode bus_width : Nat) (hset : ∀ i < SDHCI_TUNING_LOOP_COUNT, exec_set k rb i = true) :
    cmd_count (am654_sdhci_execute_tuning k ctrl0 rb opcode bus_width).2 =
      SDHCI_TUNING_LOOP_COUNT ∧
    (k.char_signed = true →
      (am654_sdhci_execute_tuning k ctrl0 rb opcode bus_width).1 = -1 ∧
      writel_regs (am654_sdhci_execute_tuning k ctrl0 rb opcode bus_width).2 =
        [k.SDHCI_INT_ENABLE, k.SDHCI_SIGNAL_ENABLE, k.SDHCI_HOST_CONTROL2]) ∧
    (k.char_signed = false →
      (am654_sdhci_execute_tuning k ctrl0 rb opcode bus_width).1 =
        (if tuned_set k rb (SDHCI_TUNING_LOOP_COUNT - 1) then 0 else -1) ∧
      writel_regs (am654_sdhci_execute_tuning k ctrl0 rb opcode bus_width).2 =
        [k.SDHCI_INT_ENABLE, k.SDHCI_SIGNAL_ENABLE] ++
          (if tuned_set k rb (SDHCI_TUNING_LOOP_COUNT - 1)
            then [k.SDHCI_INT_ENABLE, k.SDHCI_SIGNAL_ENABLE] else [])) := by
  obtain ⟨l1, l2, l3, l4⟩ := tuning_loop_exhausted k rb opcode bus_width
    SDHCI_TUNING_LOOP_COUNT 0 (tuning_entry k ctrl0).1 (tuning_entry k ctrl0).2
    (by simpa using hset)
  rw [toChar_minus_one] at l1
  rw [(tuning_entry_counts k ctrl0).1] at l3
  rw [(tuning_entry_counts k ctrl0).2] at l4
  have hne : SDHCI_TUNING_LOOP_COUNT ≠ 0 := by decide
  rw [if_neg hne] at l2
  unfold am654_sdhci_execute_tuning
  simp only []
  rw [l1, l2]
  cases hs : k.char_signed
  · simp only [Bool.false_eq_true, if_false, false_implies, true_implies, true_and]
    obtain ⟨e1, e2, e3⟩ := tuning_exit_nonneg k 255
      (rb (0 + SDHCI_TUNING_LOOP_COUNT - 1) % 2 ^ 16)
      (tuning_loop k rb opcode bus_width SDHCI_TUNING_LOOP_COUNT 0
        (tuning_entry k ctrl0).1 (tuning_entry k ctrl0).2).2.2 (by decide)
    rw [e1, e2, e3, l3, l4]
    refine ⟨Nat.zero_add _, ?_, ?_⟩ <;> simp only [tuned_set, Nat.zero_add] <;> split_ifs <;>
      simp_all
  · simp only [if_true, false_implies, true_implies, and_true]
    rw [tuning_exit_neg k (-1) _ _ (by decide)]
    simp only [cmd_count_append, writel_regs_append, l3, l4]
    simp [cmd_count, writel_regs]

set_option maxRecDepth 100000

/-- C10 fails on the code where plain `char` is unsigned: when the controller
keeps `EXEC_TUNING` set (and reports `TUNED_CLK`) for all 40 commands, the
counter wraps from 0 to 255, the test `tuning_loop_counter < 0` is false,
`HOST_CONTROL2` is not rewritten and the function returns 0.  With a signed
`char` the same run clears `TUNED_CLK` and returns -1. -/
theorem tuning_exhausted_reports_success :
    (∀ i < 40, exec_set defaultConsts stuck_readback i = true) ∧
    (am654_sdhci_execute_tuning defaultConsts 0 stuck_readback 19 4).1 = 0 ∧
    cmd_count (am654_sdhci_execute_tuning defaultConsts 0 stuck_readback 19 4).2 = 40 ∧
    writel_regs (am654_sdhci_execute_tuning defaultConsts 0 stuck_readback 19 4).2 =
      [defaultConsts.SDHCI_INT_ENABLE, defaultConsts.SDHCI_SIGNAL_ENABLE,
       defaultConsts.SDHCI_INT_ENABLE, defaultConsts.SDHCI_SIGNAL_ENABLE] ∧
    (am654_sdhci_execute_tuning signedCharConsts 0 stuck_readback 19 4).1 = -1 ∧
    writel_regs (am654_sdhci_execute_tuning signedCharConsts 0 stuck_readback 19 4).2 =
      [defaultConsts.SDHCI_INT_ENABLE, defaultConsts.SDHCI_SIGNAL_ENABLE,
       defaultConsts.SDHCI_HOST_CONTROL2] :=
  ⟨fun _ _ => by unfold exec_set stuck_readback; decide, rfl, rfl, rfl, rfl, rfl⟩

end Sdhci

namespace Prueth

@[simp] theorem set_sram_pa_sram_pa (s : State) (v : Arr2 Nat) : (s.set_sram_pa v).sram_pa = v :=
  rfl

/-! ## Restart of the receive ring -/

theorem prueth_stop_rx (priv : State) :
    (prueth_stop priv).dma_rx.queue = [] ∧ (prueth_stop priv).rx_next = priv.rx_next := by
  unfold prueth_stop
  simp only []
  split_ifs <;> simp [dma_free]

/-- The first receive round after a restart: the receive returns buffer 0,
the free re-queues buffer `rx_next mod UDMA_RX_DESC_NUM`. -/
theorem restart_round (c : Consts) (e : StartEnv) (priv : State) (len : Int)
    (hN : 0 < c.UDMA_RX_DESC_NUM) (hprime : ∀ i < c.UDMA_RX_DESC_NUM, e.prepare i = 0)
    (hlen : 0 < len) :
    (rx_round c len (restart c e priv)).1 =
      (some ⟨0, c.UDMA_RX_BUF_SIZE⟩,
       [Event.dma_prepare_rcv_buf (priv.rx_next % c.UDMA_RX_DESC_NUM) c.UDMA_RX_BUF_SIZE]) := by
  obtain ⟨q0, r0⟩ := prueth_stop_rx priv
  obtain ⟨s1, s2⟩ := prueth_start_rx c e (prueth_stop priv)
  obtain ⟨tl, h1, _⟩ := ring_step c 0 hN
  have hq : (restart c e priv).dma_rx.queue = ⟨0, c.UDMA_RX_BUF_SIZE⟩ :: tl := by
    unfold restart
    rw [s2 hprime, q0, List.nil_append, h1, Nat.zero_mod]
  have hr : (restart c e priv).rx_next = priv.rx_next := by
    unfold restart
    rw [s1, r0]
  obtain ⟨r1, _, _⟩ := rx_round_spec c len (restart c e priv) _ tl hlen hq
  rw [r1, hr]

/-- C12 fails on the code: after one received packet, a stop and a start, the
first receive returns buffer 0 but the first free re-queues buffer 1, which the
restart has already queued. -/
theorem restart_requeues_wrong_buffer :
    (rx_round defaultConsts 60 (restart defaultConsts StartEnv.ok
      (rx_round defaultConsts 60
        (prueth_start defaultConsts StartEnv.ok State.zero).2).2)).1 =
      (some ⟨0, 1536⟩, [Event.dma_prepare_rcv_buf 1 1536]) ∧
    (restart defaultConsts StartEnv.ok
      (rx_round defaultConsts 60
        (prueth_start defaultConsts StartEnv.ok State.zero).2).2).rx_next = 1 ∧
    (rx_round defaultConsts 60 (restart defaultConsts StartEnv.ok
      (rx_round defaultConsts 60
        (prueth_start defaultConsts StartEnv.ok State.zero).2).2)).2.dma_rx.queue =
      [⟨1, 1536⟩, ⟨2, 1536⟩, ⟨3, 1536⟩, ⟨1, 1536⟩] := by
  decide

/-! ## Roll-back in `prueth_start` -/

theorem disable_calls_append (l1 l2 : List Event) :
    disable_calls (l1 ++ l2) = disable_calls l1 ++ disable_calls l2 := by
  simp [disable_calls, List.filter_append]

@[simp] theorem disable_calls_enable_tx : disable_calls [Event.dma_enable_tx] = [] := rfl
@[simp] theorem disable_calls_enable_rx : disable_calls [Event.dma_enable_rx] = [] := rfl
@[simp] theorem disable_calls_phy_startup : disable_calls [Event.phy_startup] = [] := rfl
@[simp] theorem disable_calls_disable_tx :
    disable_calls [Event.dma_disable_tx] = [Event.dma_disable_tx] := rfl
@[simp] theorem disable_calls_disable_rx :
    disable_calls [Event.dma_disable_rx] = [Event.dma_disable_rx] := rfl

theorem prime_loop_disable_calls (c : Consts) (e : StartEnv) :
    ∀ (n i : Nat) (priv : State),
      disable_calls (prime_loop c e n i priv).log = disable_calls priv.log := by
  intro n
  induction n with
  | zero => intro i priv; rfl
  | succ n ih =>
    intro i priv
    simp only [prime_loop]
    rw [ih]
    simp [disable_calls_append, disable_calls]

/-- The first half of `prueth_start` makes no `dma_disable` call. -/
theorem start_channels_disable_calls (c : Consts) (e : StartEnv) (priv : State) :
    disable_calls (start_channels c e priv).log = disable_calls priv.log := by
  unfold start_channels
  simp only []
  rw [prime_loop_disable_calls]
  simp [disable_calls_append, disable_calls]

@[simp] theorem dma_enable_enabled (d : Dma) : (dma_enable 0 d).enabled = true := by
  simp [dma_enable]

/-- C13: `prueth_start` rolls back exactly what it enabled.  A failing
`dma_enable` of TX returns that error with no `dma_disable` call; a failing
`dma_enable` of RX is followed by `dma_disable` of TX only; a failing
`phy_startup` is followed by `dma_disable` of RX and then of TX; and a call
that returns 0 leaves both channels enabled and has made no `dma_disable`
call. -/
theorem start_rolls_back (c : Consts) (e : StartEnv) (priv : State) :
    (e.dma_enable_tx ≠ 0 →
      (prueth_start c e priv).1 = e.dma_enable_tx ∧
      (prueth_start c e priv).2.log =
        (start_channels c e priv).log ++ [Event.dma_enable_tx] ∧
      disable_calls (prueth_start c e priv).2.log = disable_calls priv.log) ∧
    (e.dma_enable_tx = 0 → e.dma_enable_rx ≠ 0 →
      (prueth_start c e priv).1 = e.dma_enable_rx ∧
      (prueth_start c e priv).2.log = (start_channels c e priv).log ++
        [Event.dma_enable_tx, Event.dma_enable_rx, Event.dma_disable_tx] ∧
      disable_calls (prueth_start c e priv).2.log =
        disable_calls priv.log ++ [Event.dma_disable_tx]) ∧
    (e.dma_enable_tx = 0 → e.dma_enable_rx = 0 → e.phy_startup ≠ 0 →
      (prueth_start c e priv).1 = e.phy_startup ∧
      (prueth_start c e priv).2.log = (start_channels c e priv).log ++
        [Event.dma_enable_tx, Event.dma_enable_rx, Event.phy_startup,
         Event.dma_disable_rx, Event.dma_disable_tx] ∧
      disable_calls (prueth_start c e priv).2.log =
        disable_calls priv.log ++ [Event.dma_disable_rx, Event.dma_disable_tx]) ∧
    ((prueth_start c e priv).1 = 0 →
      (prueth_start c e priv).2.log = (start_channels c e priv).log ++
        [Event.dma_enable_tx, Event.dma_enable_rx, Event.phy_startup] ∧
      disable_calls (prueth_start c e priv).2.log = disable_calls priv.log ∧
      (prueth_start c e priv).2.dma_tx.enabled = true ∧
      (prueth_start c e priv).2.dma_rx.enabled = true) := by
  have hd := start_channels_disable_calls c e priv
  refine ⟨?_, ?_, ?_, ?_⟩
  · intro h1
    unfold prueth_start
    simp [h1, disable_calls_append, hd]
  · intro h1 h2
    unfold prueth_start
    simp [h1, h2, disable_calls_append, hd]
    rfl
  · intro h1 h2 h3
    unfold prueth_start
    simp [h1, h2, h3, disable_calls_append, hd]
    rfl
  · intro h0
    rw [prueth_start_result] at h0
    have h1 : e.dma_enable_tx = 0 := by
      by_contra h; simp [h] at h0
    have h2 : e.dma_enable_rx = 0 := by
      by_contra h; simp [h1, h] at h0
    have h3 : e.phy_startup = 0 := by simpa [h1, h2] using h0
    unfold prueth_start
    simp [h1, h2, h3, disable_calls_append, hd]
    rfl

/-! ## `prueth_free_pkt` without a packet -/

/-- C14: with `length <= 0` `prueth_free_pkt` returns 0 and leaves the whole
device state, call log included, as it was; with `length > 0` it returns
exactly what `dma_prepare_rcv_buf` returned and increments `rx_next`, whether
or not that status is an error. -/
theorem free_pkt_noop (c : Consts) (prep : Int) (priv : State) (length : Int) :
    (length ≤ 0 → prueth_free_pkt c prep priv length = (0, priv)) ∧
    (0 < length →
      (prueth_free_pkt c prep priv length).1 = prep ∧
      (prueth_free_pkt c prep priv length).2.rx_next = (priv.rx_next + 1) % 2 ^ 32 ∧
      (priv.rx_next + 1 < 2 ^ 32 →
        (prueth_free_pkt c prep priv length).2.rx_next = priv.rx_next + 1)) := by
  refine ⟨?_, ?_⟩
  · intro h
    have hn : ¬ 0 < length := not_lt.mpr h
    simp [prueth_free_pkt, hn]
  · intro h
    obtain ⟨s1, _, _, s4⟩ := free_pkt_pos c prep priv length h
    exact ⟨s1, s4, fun hlt => by rw [s4, Nat.mod_eq_of_lt hlt]⟩

/-! ## The SRAM reference -/

/-- C20 fails on the code: with a readable `sram` property whose phandle
resolves to no node (on a platform where the probe gets past the PRUSS
lookup), `prueth_probe` tests the device node instead, goes on to take the
address of the invalid node into `sram_pa[]` and returns 0. -/
theorem probe_accepts_unresolved_sram :
    ofnode_valid ProbeEnv.bad_sram.sram_node = false ∧
    ∃ s : State,
      prueth_probe defaultConsts ProbeEnv.bad_sram (some 1) State.zero = some (0, s) ∧
      Event.get_addr_sram none ∈ s.log ∧
      s.sram_pa = ⟨0xFFFFFFFF, 0⟩ :=
  ⟨by decide, (probe_ports defaultConsts ProbeEnv.bad_sram (some 1) State.looked_up).2,
   by decide, by decide, by decide⟩

/-- Whatever the validity of the SRAM node, once the `sram` property has been
read and the device node is valid, `probe_resources` derives `sram_pa[]` from
the SRAM node and goes on. -/
theorem probe_resources_sram (c : Consts) (e : ProbeEnv) (node : ofnode) (prueth : State)
    (h1 : e.clk_get = 0) (h2 : e.clk_enable = 0) (h3 : e.sram_ret = 0)
    (hn : ofnode_valid node = true) :
    probe_resources c e node prueth =
      probe_phy c e (probe_sram e e.sram_node
        (((prueth.emit .clk_get_by_name).emit .clk_enable).emit .read_sram)) ∧
    (probe_sram e e.sram_node
        (((prueth.emit .clk_get_by_name).emit .clk_enable).emit .read_sram)).sram_pa.get
      ICSSG0 = e.sram_addr % 2 ^ 32 := by
  refine ⟨?_, ?_⟩
  · unfold probe_resources
    simp [h1, h2, h3, hn]
  · unfold probe_sram
    simp only []
    split_ifs <;> simp [Arr2.get, Arr2.set, ICSSG0, ICSSG1, U32_MOD]

end Prueth

namespace Sdhci

@[simp] theorem plat_emit_otap (p : Plat) (e : Event) :
    (p.emit e).otap_del_sel = p.otap_del_sel := rfl
@[simp] theorem plat_emit_trm (p : Plat) (e : Event) : (p.emit e).trm_icp = p.trm_icp := rfl
@[simp] theorem plat_emit_drv (p : Plat) (e : Event) :
    (p.emit e).drv_strength = p.drv_strength := rfl
@[simp] theorem set_dll_on_otap (p : Plat) (v : Bool) :
    (p.set_dll_on v).otap_del_sel = p.otap_del_sel := rfl
@[simp] theorem set_dll_on_trm (p : Plat) (v : Bool) : (p.set_dll_on v).trm_icp = p.trm_icp := rfl
@[simp] theorem set_dll_on_drv (p : Plat) (v : Bool) :
    (p.set_dll_on v).drv_strength = p.drv_strength := rfl

/-- The calls made by `am654_sdhci_set_ios_post` above the minimum frequency. -/
theorem set_ios_post_fast_log (k : Consts) (clk_ctrl : Nat) (poll : Int) (speed : Nat)
    (plat : Plat) (h : AM654_SDHCI_MIN_FREQ < speed) :
    (am654_sdhci_set_ios_post k clk_ctrl poll speed plat).2.log =
      plat.log ++ (ios_prologue k clk_ctrl plat.dll_on ++
        [Event.sdhci_set_clock speed,
         Event.regmap_update_bits PHY_CTRL4 (OTAPDLYENA_MASK ||| OTAPDLYSEL_MASK)
           ((1 <<< OTAPDLYENA_SHIFT) ||| ((plat.otap_del_sel <<< OTAPDLYSEL_SHIFT) % 2 ^ 32)),
         Event.regmap_update_bits PHY_CTRL5 (SEL50_MASK ||| SEL100_MASK)
           (if speed = 200000000 then (0 <<< SEL50_SHIFT) ||| (0 <<< SEL100_SHIFT)
            else if speed = 100000000 then (0 <<< SEL50_SHIFT) ||| (1 <<< SEL100_SHIFT)
            else (1 <<< SEL50_SHIFT) ||| (0 <<< SEL100_SHIFT)),
         Event.regmap_update_bits PHY_CTRL1 (DLL_TRIM_ICP_MASK ||| DR_TY_MASK)
           (((plat.trm_icp <<< DLL_TRIM_ICP_SHIFT) % 2 ^ 32) |||
            ((plat.drv_strength <<< DR_TY_SHIFT) % 2 ^ 32)),
         Event.regmap_update_bits PHY_CTRL1 ENDLL_MASK (0x1 <<< ENDLL_SHIFT),
         Event.regmap_read_poll_timeout PHY_STAT1 DLLRDY_MASK]) := by
  unfold am654_sdhci_set_ios_post ios_prologue
  simp only [h, if_true]
  cases hd : plat.dll_on <;> by_cases hp : poll = 0 <;>
    by_cases h2 : speed = 200000000 <;> by_cases h1 : speed = 100000000 <;>
    simp [hd, hp, h1, h2]

/-- The calls made by `am654_sdhci_set_ios_post` at or below the minimum
frequency. -/
theorem set_ios_post_slow_log (k : Consts) (clk_ctrl : Nat) (poll : Int) (speed : Nat)
    (plat : Plat) (h : speed ≤ AM654_SDHCI_MIN_FREQ) :
    (am654_sdhci_set_ios_post k clk_ctrl poll speed plat).2.log =
      plat.log ++ (ios_prologue k clk_ctrl plat.dll_on ++ [Event.sdhci_set_clock speed]) := by
  rw [(set_ios_post_slow k clk_ctrl poll speed plat h).2.2]
  rfl

/-! ## DLL frequency selection and PHY field packing -/

theorem reg_writes_append (reg : Nat) (l1 l2 : List Event) :
    reg_writes reg (l1 ++ l2) = reg_writes reg l1 ++ reg_writes reg l2 := by
  simp [reg_writes, List.filterMap_append]

theorem reg_writes_prologue (k : Consts) (clk_ctrl : Nat) (dll_on : Bool) (reg : Nat)
    (h : reg ≠ PHY_CTRL1) : reg_writes reg (ios_prologue k clk_ctrl dll_on) = [] := by
  have h' : ¬ PHY_CTRL1 = reg := fun e => h e.symm
  cases dll_on <;> simp [ios_prologue, reg_writes, h']

/-- C16: for every speed above `AM654_SDHCI_MIN_FREQ` the hook makes exactly
one write to `PHY_CTRL5`, under the mask `SEL50 | SEL100`, of
`(sel50 << 8) | (sel100 << 9)` with `(sel50, sel100) = (0, 0)` at 200 MHz,
`(0, 1)` at 100 MHz and `(1, 0)` at every other speed; the value never has both
`SEL50` and `SEL100` set. -/
theorem dll_frequency_selection (k : Consts) (clk_ctrl : Nat) (poll : Int) (speed : Nat)
    (plat : Plat) (h : AM654_SDHCI_MIN_FREQ < speed) :
    (∃ sel50 sel100 : Nat,
      reg_writes PHY_CTRL5 (am654_sdhci_set_ios_post k clk_ctrl poll speed plat).2.log =
        reg_writes PHY_CTRL5 plat.log ++
          [(SEL50_MASK ||| SEL100_MASK, (sel50 <<< 8) ||| (sel100 <<< 9))] ∧
      (speed = 200000000 → (sel50, sel100) = (0, 0)) ∧
      (speed = 100000000 → (sel50, sel100) = (0, 1)) ∧
      (speed ≠ 200000000 → speed ≠ 100000000 → (sel50, sel100) = (1, 0)) ∧
      ¬ ((((sel50 <<< 8) ||| (sel100 <<< 9)) &&& SEL50_MASK ≠ 0) ∧
         (((sel50 <<< 8) ||| (sel100 <<< 9)) &&& SEL100_MASK ≠ 0))) := by
  have hl := set_ios_post_fast_log k clk_ctrl poll speed plat h
  have hp := reg_writes_prologue k clk_ctrl plat.dll_on PHY_CTRL5 (by decide)
  rw [hl, reg_writes_append, reg_writes_append, hp]
  by_cases h2 : speed = 200000000
  · refine ⟨0, 0, ?_, ?_, ?_, ?_, by decide⟩
    · simp [reg_writes, h2, PHY_CTRL1, PHY_CTRL4, PHY_CTRL5, SEL50_SHIFT, SEL100_SHIFT]
    · intro _; rfl
    · intro h1; omega
    · intro hn; exact absurd h2 hn
  · by_cases h1 : speed = 100000000
    · refine ⟨0, 1, ?_, ?_, ?_, ?_, by decide⟩
      · simp [reg_writes, h1, PHY_CTRL1, PHY_CTRL4, PHY_CTRL5, SEL50_SHIFT, SEL100_SHIFT]
      · intro hn; exact absurd hn h2
      · intro _; rfl
      · intro _ hn; exact absurd h1 hn
    · refine ⟨1, 0, ?_, ?_, ?_, ?_, by decide⟩
      · simp [reg_writes, h1, h2, PHY_CTRL1, PHY_CTRL4, PHY_CTRL5, SEL50_SHIFT, SEL100_SHIFT]
      · intro hn; exact absurd hn h2
      · intro hn; exact absurd hn h1
      · intro _ _; rfl

theorem dll_frequency_selection_witness :
    reg_writes PHY_CTRL5
      (am654_sdhci_set_ios_post defaultConsts 0 0 100000000 Plat.sample).2.log =
      [(0x300, 0x200)] := by
  obtain ⟨sel50, sel100, h1, _, h3, _, _⟩ :=
    dll_frequency_selection defaultConsts 0 0 100000000 Plat.sample (by decide)
  have h := h3 rfl
  simp only [Prod.mk.injEq] at h
  rw [h1, h.1, h.2]
  decide

theorem otap_packing : ∀ otap < 16,
    ((1 <<< OTAPDLYENA_SHIFT) ||| ((otap <<< OTAPDLYSEL_SHIFT) % 2 ^ 32)) =
      ((1 <<< 20) ||| (otap <<< 12)) ∧
    ((1 <<< 20) ||| (otap <<< 12)) &&& (OTAPDLYENA_MASK ||| OTAPDLYSEL_MASK) =
      ((1 <<< 20) ||| (otap <<< 12)) ∧
    (((1 <<< 20) ||| (otap <<< 12)) &&& OTAPDLYSEL_MASK) >>> OTAPDLYSEL_SHIFT = otap ∧
    (((1 <<< 20) ||| (otap <<< 12)) &&& OTAPDLYENA_MASK) >>> OTAPDLYENA_SHIFT = 1 := by
  decide

theorem trim_packing : ∀ trm < 16, ∀ drv < 5,
    (((trm <<< DLL_TRIM_ICP_SHIFT) % 2 ^ 32) ||| ((drv <<< DR_TY_SHIFT) % 2 ^ 32)) =
      ((trm <<< 4) ||| (drv <<< 20)) ∧
    ((trm <<< 4) ||| (drv <<< 20)) &&& (DLL_TRIM_ICP_MASK ||| DR_TY_MASK) =
      ((trm <<< 4) ||| (drv <<< 20)) ∧
    (((trm <<< 4) ||| (drv <<< 20)) &&& DLL_TRIM_ICP_MASK) >>> DLL_TRIM_ICP_SHIFT = trm ∧
    (((trm <<< 4) ||| (drv <<< 20)) &&& DR_TY_MASK) >>> DR_TY_SHIFT = drv := by
  decide

/-- C17: for `otap_del_sel < 16`, `trm_icp < 16` and `drv_strength <= 4` the
values the hook writes above the minimum frequency are
`(1 << 20) | (otap_del_sel << 12)` to `PHY_CTRL4` and
`(trm_icp << 4) | (drv_strength << 20)` to `PHY_CTRL1`; neither has a bit
outside its mask, each field is read back unchanged through its mask and
shift, and the two `PHY_CTRL1` masks do not overlap `ENDLL`, `PDB` or
`IOMUX_ENABLE`. -/
theorem phy_field_packing (k : Consts) (clk_ctrl : Nat) (poll : Int) (speed : Nat)
    (plat : Plat) (h : AM654_SDHCI_MIN_FREQ < speed) (ho : plat.otap_del_sel < 16)
    (ht : plat.trm_icp < 16) (hd : plat.drv_strength ≤ 4) :
    (reg_writes PHY_CTRL4 (am654_sdhci_set_ios_post k clk_ctrl poll speed plat).2.log =
      reg_writes PHY_CTRL4 plat.log ++
        [(OTAPDLYENA_MASK ||| OTAPDLYSEL_MASK, (1 <<< 20) ||| (plat.otap_del_sel <<< 12))]) ∧
    ((1 <<< 20) ||| (plat.otap_del_sel <<< 12)) &&& (OTAPDLYENA_MASK ||| OTAPDLYSEL_MASK) =
      ((1 <<< 20) ||| (plat.otap_del_sel <<< 12)) ∧
    (((1 <<< 20) ||| (plat.otap_del_sel <<< 12)) &&& OTAPDLYSEL_MASK) >>> OTAPDLYSEL_SHIFT =
      plat.otap_del_sel ∧
    (((1 <<< 20) ||| (plat.otap_del_sel <<< 12)) &&& OTAPDLYENA_MASK) >>> OTAPDLYENA_SHIFT = 1 ∧
    (reg_writes PHY_CTRL1 (am654_sdhci_set_ios_post k clk_ctrl poll speed plat).2.log =
      reg_writes PHY_CTRL1 plat.log ++
        ((if plat.dll_on then [(ENDLL_MASK, 0)] else []) ++
         [(DLL_TRIM_ICP_MASK ||| DR_TY_MASK,
            (plat.trm_icp <<< 4) ||| (plat.drv_strength <<< 20)),
          (ENDLL_MASK, 1 <<< ENDLL_SHIFT)])) ∧
    ((plat.trm_icp <<< 4) ||| (plat.drv_strength <<< 20)) &&&
        (DLL_TRIM_ICP_MASK ||| DR_TY_MASK) =
      ((plat.trm_icp <<< 4) ||| (plat.drv_strength <<< 20)) ∧
    (((plat.trm_icp <<< 4) ||| (plat.drv_strength <<< 20)) &&& DLL_TRIM_ICP_MASK) >>>
        DLL_TRIM_ICP_SHIFT = plat.trm_icp ∧
    (((plat.trm_icp <<< 4) ||| (plat.drv_strength <<< 20)) &&& DR_TY_MASK) >>> DR_TY_SHIFT =
      plat.drv_strength ∧
    (DLL_TRIM_ICP_MASK &&& ENDLL_MASK = 0 ∧ DLL_TRIM_ICP_MASK &&& PDB_MASK = 0 ∧
     DLL_TRIM_ICP_MASK &&& IOMUX_ENABLE_MASK = 0 ∧ DR_TY_MASK &&& ENDLL_MASK = 0 ∧
     DR_TY_MASK &&& PDB_MASK = 0 ∧ DR_TY_MASK &&& IOMUX_ENABLE_MASK = 0) := by
  obtain ⟨o1, o2, o3, o4⟩ := otap_packing plat.otap_del_sel ho
  obtain ⟨t1, t2, t3, t4⟩ := trim_packing plat.trm_icp ht plat.drv_strength (by omega)
  have hl := set_ios_post_fast_log k clk_ctrl poll speed plat h
  rw [o1, t1] at hl
  refine ⟨?_, o2, o3, o4, ?_, t2, t3, t4, by decide⟩
  · rw [hl, reg_writes_append, reg_writes_append,
      reg_writes_prologue k clk_ctrl plat.dll_on PHY_CTRL4 (by decide)]
    simp [reg_writes, PHY_CTRL1, PHY_CTRL4, PHY_CTRL5]
  · rw [hl, reg_writes_append, reg_writes_append]
    congr 1
    cases plat.dll_on <;> simp [reg_writes, ios_prologue, PHY_CTRL1, PHY_CTRL4, PHY_CTRL5]

theorem phy_field_packing_witness :
    reg_writes PHY_CTRL4
      (am654_sdhci_set_ios_post defaultConsts 0 0 50000000 Plat.sample).2.log =
      [(0x10F000, 0x102000)] ∧
    reg_writes PHY_CTRL1
      (am654_sdhci_set_ios_post defaultConsts 0 0 50000000 Plat.sample).2.log =
      [(0x7000F0, 0x80), (0x2, 0x2)] := by
  have h := phy_field_packing defaultConsts 0 0 50000000 Plat.sample (by decide) (by decide)
    (by decide) (by decide)
  exact ⟨h.1.trans (by decide), h.2.2.2.2.1.trans (by decide)⟩

/-! ## `ENDLL` and `dll_on` -/

theorem testBit_clear_bits (x m i : Nat) (hi : i < 32) :
    (clear_bits x m).testBit i = (x.testBit i && !m.testBit i) := by
  have hlt : m % 2 ^ 32 < 2 ^ 32 := Nat.mod_lt _ (by decide)
  have hM : 2 ^ 32 - 1 - m % 2 ^ 32 = 2 ^ 32 - (m % 2 ^ 32 + 1) := by omega
  simp only [clear_bits, Nat.testBit_and, hM, Nat.testBit_mod_two_pow,
    Nat.testBit_two_pow_sub_succ hlt]
  simp [hi]

theorem testBit_update_bits (r m v i : Nat) (hi : i < 32) :
    (update_bits r m v).testBit i = if m.testBit i then v.testBit i else r.testBit i := by
  simp only [update_bits, Nat.testBit_or, Nat.testBit_and, testBit_clear_bits r m i hi]
  cases m.testBit i <;> simp

theorem endll_clear (r : Nat) : endll (update_bits r ENDLL_MASK 0) = false := by
  unfold endll
  rw [testBit_update_bits _ _ _ _ (by decide)]
  have : ENDLL_MASK.testBit ENDLL_SHIFT = true := by decide
  simp [this]

theorem endll_set (r : Nat) : endll (update_bits r ENDLL_MASK (0x1 <<< ENDLL_SHIFT)) = true := by
  unfold endll
  rw [testBit_update_bits _ _ _ _ (by decide)]
  have h1 : ENDLL_MASK.testBit ENDLL_SHIFT = true := by decide
  have h2 : (0x1 <<< ENDLL_SHIFT).testBit ENDLL_SHIFT = true := by decide
  simp [h1, h2]

theorem endll_trim (r v : Nat) :
    endll (update_bits r (DLL_TRIM_ICP_MASK ||| DR_TY_MASK) v) = endll r := by
  unfold endll
  rw [testBit_update_bits _ _ _ _ (by decide)]
  have : (DLL_TRIM_ICP_MASK ||| DR_TY_MASK).testBit ENDLL_SHIFT = false := by decide
  simp [this]

theorem phy_ctrl1_after_append (l1 l2 : List Event) :
    ∀ r, phy_ctrl1_after r (l1 ++ l2) = phy_ctrl1_after (phy_ctrl1_after r l1) l2 := by
  induction l1 with
  | nil => intro r; rfl
  | cons ev rest ih => intro r; cases ev <;> simp [phy_ctrl1_after, ih]

theorem endll_at_set_clock_append (l1 l2 : List Event) :
    ∀ r, endll_at_set_clock r (l1 ++ l2) =
      endll_at_set_clock r l1 ++ endll_at_set_clock (phy_ctrl1_after r l1) l2 := by
  induction l1 with
  | nil => intro r; rfl
  | cons ev rest ih =>
    intro r; cases ev <;> simp [endll_at_set_clock, phy_ctrl1_after, ih]

/-- The prologue of the hook leaves `ENDLL` clear when `dll_on` mirrors
`ENDLL` on entry, and makes no `sdhci_set_clock` call. -/
theorem prologue_endll (k : Consts) (clk_ctrl r : Nat) (dll_on : Bool) (h : dll_on = endll r) :
    endll (phy_ctrl1_after r (ios_prologue k clk_ctrl dll_on)) = false ∧
    endll_at_set_clock r (ios_prologue k clk_ctrl dll_on) = [] := by
  cases dll_on
  · simp [ios_prologue, phy_ctrl1_after, endll_at_set_clock, ← h]
  · simp [ios_prologue, phy_ctrl1_after, endll_at_set_clock, endll_clear]

/-- One call of the hook, entered with `dll_on` mirroring `ENDLL`: the clock is
restarted with `ENDLL` clear; a call that returns 0 leaves `dll_on` mirroring
`ENDLL`; a call whose DLL-ready poll fails leaves `ENDLL` set and `dll_on`
false. -/
theorem set_ios_post_endll (k : Consts) (clk_ctrl : Nat) (poll : Int) (speed : Nat)
    (plat : Plat) (r : Nat) (hrel : plat.dll_on = endll (phy_ctrl1_after r plat.log)) :
    endll_at_set_clock r (am654_sdhci_set_ios_post k clk_ctrl poll speed plat).2.log =
      endll_at_set_clock r plat.log ++ [false] ∧
    ((am654_sdhci_set_ios_post k clk_ctrl poll speed plat).1 = 0 →
      (am654_sdhci_set_ios_post k clk_ctrl poll speed plat).2.dll_on =
        endll (phy_ctrl1_after r (am654_sdhci_set_ios_post k clk_ctrl poll speed plat).2.log)) ∧
    (AM654_SDHCI_MIN_FREQ < speed → poll ≠ 0 →
      (am654_sdhci_set_ios_post k clk_ctrl poll speed plat).2.dll_on = false ∧
      endll (phy_ctrl1_after r
        (am654_sdhci_set_ios_post k clk_ctrl poll speed plat).2.log) = true) := by
  obtain ⟨p1, p2⟩ := prologue_endll k clk_ctrl (phy_ctrl1_after r plat.log) plat.dll_on hrel
  by_cases hs : AM654_SDHCI_MIN_FREQ < speed
  · have hl := set_ios_post_fast_log k clk_ctrl poll speed plat hs
    obtain ⟨f1, f2⟩ := set_ios_post_fast k clk_ctrl poll speed plat hs
    have hreg : endll (phy_ctrl1_after r
        (am654_sdhci_set_ios_post k clk_ctrl poll speed plat).2.log) = true := by
      rw [hl, phy_ctrl1_after_append, phy_ctrl1_after_append]
      simp [phy_ctrl1_after, PHY_CTRL1, PHY_CTRL4, PHY_CTRL5, endll_set]
    refine ⟨?_, ?_, ?_⟩
    · rw [hl, endll_at_set_clock_append, endll_at_set_clock_append, p2]
      simp [endll_at_set_clock, p1]
    · intro h0
      rw [f1] at h0
      rw [hreg, f2]
      simp [h0]
    · intro _ hp
      exact ⟨by rw [f2]; simp [hp], hreg⟩
  · have hle : speed ≤ AM654_SDHCI_MIN_FREQ := Nat.not_lt.mp hs
    have hl := set_ios_post_slow_log k clk_ctrl poll speed plat hle
    obtain ⟨_, s2, _⟩ := set_ios_post_slow k clk_ctrl poll speed plat hle
    refine ⟨?_, ?_, fun h => absurd h hs⟩
    · rw [hl, endll_at_set_clock_append, endll_at_set_clock_append, p2]
      simp [endll_at_set_clock, p1]
    · intro _
      rw [s2, hl, phy_ctrl1_after_append, phy_ctrl1_after_append]
      simp only [phy_ctrl1_after]
      exact p1.symm

/-- In a sequence of calls that all return 0, entered with `dll_on` mirroring
`ENDLL`, every clock restart happens with `ENDLL` clear. -/
theorem set_ios_post_run_endll (k : Consts) (r : Nat) (calls : List (Nat × Int × Nat)) :
    ∀ plat : Plat, plat.dll_on = endll (phy_ctrl1_after r plat.log) →
      (∀ a ∈ calls, a.2.2 ≤ AM654_SDHCI_MIN_FREQ ∨ a.2.1 = 0) →
      endll_at_set_clock r (set_ios_post_run k calls plat).log =
        endll_at_set_clock r plat.log ++ List.replicate calls.length false ∧
      (set_ios_post_run k calls plat).dll_on =
        endll (phy_ctrl1_after r (set_ios_post_run k calls plat).log) := by
  induction calls with
  | nil => intro plat h _; simp [set_ios_post_run, h]
  | cons a rest ih =>
    intro plat hrel hok
    obtain ⟨c1, c2, _⟩ := set_ios_post_endll k a.1 a.2.1 a.2.2 plat r hrel
    have hret : (am654_sdhci_set_ios_post k a.1 a.2.1 a.2.2 plat).1 = 0 := by
      rcases hok a (List.mem_cons_self _ _) with h | h
      · exact (set_ios_post_slow k a.1 a.2.1 a.2.2 plat h).1
      · by_cases hs : AM654_SDHCI_MIN_FREQ < a.2.2
        · rw [(set_ios_post_fast k a.1 a.2.1 a.2.2 plat hs).1, h]
        · exact (set_ios_post_slow k a.1 a.2.1 a.2.2 plat (Nat.not_lt.mp hs)).1
    obtain ⟨i1, i2⟩ := ih (am654_sdhci_set_ios_post k a.1 a.2.1 a.2.2 plat).2 (c2 hret)
      (fun b hb => hok b (List.mem_cons_of_mem _ hb))
    simp only [set_ios_post_run]
    refine ⟨?_, i2⟩
    rw [i1, c1, List.length_cons, List.replicate_succ, List.append_assoc, List.singleton_append]

/-- C15 fails on the code: when the DLL-ready poll of one call times out, the
hook returns with `ENDLL` set in `PHY_CTRL1` but `dll_on` false, and the next
call restarts the clock without clearing `ENDLL`. -/
theorem endll_set_at_clock_restart :
    (am654_sdhci_set_ios_post defaultConsts 0 (-110) 50000000 Plat.sample).1 = -110 ∧
    (am654_sdhci_set_ios_post defaultConsts 0 (-110) 50000000 Plat.sample).2.dll_on = false ∧
    endll (phy_ctrl1_after 0
      (am654_sdhci_set_ios_post defaultConsts 0 (-110) 50000000 Plat.sample).2.log) = true ∧
    endll_at_set_clock 0
      (set_ios_post_run defaultConsts [(0, -110, 50000000), (0, 0, 25000000)]
        Plat.sample).log = [false, true] := by
  decide

end Sdhci

namespace Evm

/-! ## Additional FIT images -/

theorem fit_loop_spec (flags : List Bool) (index : Int) :
    ∀ (cards : List ExtCard) (i : Nat) (j : Int),
      fit_loop flags index cards i j =
        if index < j then none
        else ((detected_from flags i cards).map ExtCard.dtbo_name)[(index - j).toNat]? := by
  intro cards
  induction cards with
  | nil => intro i j; simp [fit_loop, detected_from]
  | cons card rest ih =>
    intro i j
    simp only [fit_loop, detected_from]
    by_cases hf : flag flags i = true
    · simp only [hf, if_true]
      by_cases hj : j = index
      · subst hj; simp
      · rw [if_neg hj, ih]
        by_cases hlt : index < j
        · have h2 : index < j + 1 := by omega
          simp [hlt, h2]
        · have h2 : ¬ index < j + 1 := by omega
          have h3 : (index - j).toNat = (index - (j + 1)).toNat + 1 := by omega
          simp [hlt, h2, h3]
    · simp only [hf, Bool.false_eq_true, if_false]
      exact ih (i + 1) j

/-- C11: `board_fit_get_additionnal_images` returns `NULL` for a type other
than `FIT_FDT_PROP`; otherwise it returns the `dtbo_name` of the `index`-th
(0-based) detected card in table order, and `NULL` when `index` is negative or
not below the number of detected cards.  Indices 0, 1, 2, ... therefore list
the overlays of all detected cards once each, in table order, before the first
`NULL`. -/
theorem fit_images_enumerate_detected (k : Consts) (flags : List Bool) (index : Int)
    (type : String) :
    (type ≠ k.FIT_FDT_PROP → board_fit_get_additionnal_images k flags index type = none) ∧
    (index < 0 → board_fit_get_additionnal_images k flags index type = none) ∧
    (((detected flags).length : Int) ≤ index →
      board_fit_get_additionnal_images k flags index type = none) ∧
    (type = k.FIT_FDT_PROP → 0 ≤ index →
      board_fit_get_additionnal_images k flags index type =
        ((detected flags).map ExtCard.dtbo_name)[index.toNat]?) ∧
    (type = k.FIT_FDT_PROP →
      (List.range (detected flags).length).map
          (fun n : Nat => board_fit_get_additionnal_images k flags (Int.ofNat n) type) =
        (detected flags).map (fun card => some card.dtbo_name) ∧
      board_fit_get_additionnal_images k flags ((detected flags).length : Int) type = none) := by
  have key : ∀ idx : Int, type = k.FIT_FDT_PROP →
      board_fit_get_additionnal_images k flags idx type =
        if idx < 0 then none else ((detected flags).map ExtCard.dtbo_name)[idx.toNat]? := by
    intro idx ht
    simp only [board_fit_get_additionnal_images, ht, ne_eq, not_true_eq_false, if_false]
    rw [fit_loop_spec]
    simp [detected]
  have hnone : type ≠ k.FIT_FDT_PROP →
      ∀ idx, board_fit_get_additionnal_images k flags idx type = none := by
    intro ht idx
    simp [board_fit_get_additionnal_images, ht]
  refine ⟨fun ht => hnone ht index, ?_, ?_, ?_, ?_⟩
  · intro hneg
    by_cases ht : type = k.FIT_FDT_PROP
    · rw [key index ht, if_pos hneg]
    · exact hnone ht index
  · intro hge
    by_cases ht : type = k.FIT_FDT_PROP
    · rw [key index ht]
      have h0 : ¬ index < 0 := by omega
      rw [if_neg h0, List.getElem?_eq_none]
      simp only [List.length_map]
      omega
    · exact hnone ht index
  · intro ht h0
    rw [key index ht, if_neg (by omega)]
  · intro ht
    refine ⟨?_, ?_⟩
    · apply List.ext_getElem
      · simp
      · intro n h1 h2
        simp only [List.length_map, List.length_range] at h1
        simp only [List.getElem_map, List.getElem_range]
        rw [key _ ht]
        simp [h1]
    · rw [key _ ht]
      simp

/-! ## Overlay list -/

/-- The five flags that the loops over `ext_cards` read. -/
theorem overlay_loop_flags (k : Consts) (flags : List Bool) :
    overlay_loop k flags ext_cards 0 "" =
      overlay_loop k [flag flags 0, flag flags 1, flag flags 2, flag flags 3, flag flags 4]
        ext_cards 0 "" := by
  simp [overlay_loop, ext_cards, flag]

theorem detected_flags (flags : List Bool) :
    detected flags =
      detected [flag flags 0, flag flags 1, flag flags 2, flag flags 3, flag flags 4] := by
  simp [detected, detected_from, ext_cards, flag]

theorem overlay_loop_five (k : Consts) (f0 f1 f2 f3 f4 : Bool) :
    overlay_loop k [f0, f1, f2, f3, f4] ext_cards 0 "" =
      .ok (overlay_list [f0, f1, f2, f3, f4]) ∧
    (overlay_list [f0, f1, f2, f3, f4]).length + 1 ≤ NAME_OVERLAYS_SIZE ∧
    ((overlay_list [f0, f1, f2, f3, f4]).length ≠ 0 ↔ detected [f0, f1, f2, f3, f4] ≠ []) := by
  cases f0 <;> cases f1 <;> cases f2 <;> cases f3 <;> cases f4 <;>
    exact ⟨rfl, by decide, by decide⟩

theorem detected_ne_nil_iff (flags : List Bool) :
    detected flags ≠ [] ↔ ∃ i < ext_cards.length, flag flags i = true := by
  rw [detected_flags]
  have h5 : ext_cards.length = 5 := rfl
  rw [h5]
  constructor
  · intro h
    by_contra hn
    have h0 : flag flags 0 = false := by
      by_contra hx; exact hn ⟨0, by decide, by simpa using hx⟩
    have h1 : flag flags 1 = false := by
      by_contra hx; exact hn ⟨1, by decide, by simpa using hx⟩
    have h2 : flag flags 2 = false := by
      by_contra hx; exact hn ⟨2, by decide, by simpa using hx⟩
    have h3 : flag flags 3 = false := by
      by_contra hx; exact hn ⟨3, by decide, by simpa using hx⟩
    have h4 : flag flags 4 = false := by
      by_contra hx; exact hn ⟨4, by decide, by simpa using hx⟩
    rw [h0, h1, h2, h3, h4] at h
    exact h rfl
  · rintro ⟨i, hi, hf⟩
    have hcases : i = 0 ∨ i = 1 ∨ i = 2 ∨ i = 3 ∨ i = 4 := by omega
    rcases hcases with rfl | rfl | rfl | rfl | rfl <;> rw [hf] <;>
      cases flag flags 0 <;> cases flag flags 1 <;> cases flag flags 2 <;>
      cases flag flags 3 <;> cases flag flags 4 <;> decide

/-- C19: outside an SPL build, for every combination of detect flags the
overlay loop of `probe_daughtercards` ends with `name_overlays` equal to the
detected cards' `dtbo_name`s, each followed by one space, in table order; the
string and its terminator fit the 1024-byte buffer, so the `-ENOMEM` return is
never taken; and `env_set("name_overlays", ...)` is called exactly when at
least one card is detected. -/
theorem overlay_list_fits (k : Consts) (e : ProbeEnv) (b : Board) :
    overlay_loop k b.daughter_card_detect_flags ext_cards 0 "" =
      .ok (overlay_list b.daughter_card_detect_flags) ∧
    (overlay_list b.daughter_card_detect_flags).length + 1 ≤ NAME_OVERLAYS_SIZE ∧
    ((∃ i < ext_cards.length, flag b.daughter_card_detect_flags i = true) →
      overlay_phase k e b = (e.env_set, b.emit
        (.env_set "name_overlays" (overlay_list b.daughter_card_detect_flags)))) ∧
    ((¬ ∃ i < ext_cards.length, flag b.daughter_card_detect_flags i = true) →
      overlay_phase k e b = (0, b)) ∧
    (∀ b0 b1, init_loop e slot_map 0 b0.clear_flags = (none, b1) →
      detect_loop k false e ext_cards 0 b1 = (none, b) →
      probe_daughtercards k false e b0 = overlay_phase k e b) := by
  obtain ⟨h1, h2, h3⟩ := overlay_loop_five k (flag b.daughter_card_detect_flags 0)
    (flag b.daughter_card_detect_flags 1) (flag b.daughter_card_detect_flags 2)
    (flag b.daughter_card_detect_flags 3) (flag b.daughter_card_detect_flags 4)
  have hl : overlay_list b.daughter_card_detect_flags =
      overlay_list [flag b.daughter_card_detect_flags 0, flag b.daughter_card_detect_flags 1,
        flag b.daughter_card_detect_flags 2, flag b.daughter_card_detect_flags 3,
        flag b.daughter_card_detect_flags 4] := by
    unfold overlay_list
    rw [detected_flags]
  rw [← overlay_loop_flags, ← hl] at h1
  rw [← hl] at h2 h3
  rw [← detected_flags, detected_ne_nil_iff] at h3
  refine ⟨h1, h2, ?_, ?_, ?_⟩
  · intro hex
    unfold overlay_phase
    rw [h1]
    simp [h3.mpr hex]
  · intro hex
    unfold overlay_phase
    rw [h1]
    have : (overlay_list b.daughter_card_detect_flags).length = 0 := by
      by_contra hne
      exact hex (h3.mp hne)
    simp [this]
  · intro b0 b1 hi hd
    unfold probe_daughtercards
    simp [hi, hd]

/-! ## Daughtercard detection -/

@[simp] theorem board_emit_flags (b : Board) (e : Event) :
    (b.emit e).daughter_card_detect_flags = b.daughter_card_detect_flags := rfl
@[simp] theorem board_emit_log (b : Board) (e : Event) : (b.emit e).log = b.log ++ [e] := rfl
@[simp] theorem board_set_flag_flags (b : Board) (i : Nat) (v : Bool) :
    (b.set_flag i v).daughter_card_detect_flags = b.daughter_card_detect_flags.set i v := rfl
@[simp] theorem board_set_flag_log (b : Board) (i : Nat) (v : Bool) :
    (b.set_flag i v).log = b.log := rfl

theorem gpio_reads_append (l1 l2 : List Event) :
    gpio_reads (l1 ++ l2) = gpio_reads l1 ++ gpio_reads l2 := by
  simp [gpio_reads, List.filterMap_append]

@[simp] theorem gpio_reads_nil : gpio_reads [] = [] := rfl
@[simp] theorem gpio_reads_get (slot : Nat) (l : List Event) :
    gpio_reads (Event.dm_gpio_get_value slot :: l) = slot :: gpio_reads l := rfl
@[simp] theorem gpio_reads_lookup (n : String) (l : List Event) :
    gpio_reads (Event.dm_gpio_lookup_name n :: l) = gpio_reads l := rfl
@[simp] theorem gpio_reads_request (n : String) (l : List Event) :
    gpio_reads (Event.dm_gpio_request n :: l) = gpio_reads l := rfl
@[simp] theorem gpio_reads_set_dir (n : String) (l : List Event) :
    gpio_reads (Event.dm_gpio_set_dir_flags n :: l) = gpio_reads l := rfl
@[simp] theorem gpio_reads_eeprom (a : Nat) (l : List Event) :
    gpio_reads (Event.ti_i2c_eeprom_am6_get a :: l) = gpio_reads l := rfl
@[simp] theorem gpio_reads_printf (n : String) (l : List Event) :
    gpio_reads (Event.printf_detected n :: l) = gpio_reads l := rfl
@[simp] theorem gpio_reads_eth (i m : Nat) (l : List Event) :
    gpio_reads (Event.eth_env_set_enetaddr_by_index i m :: l) = gpio_reads l := rfl
@[simp] theorem gpio_reads_env_set (n v : String) (l : List Event) :
    gpio_reads (Event.env_set n v :: l) = gpio_reads l := rfl

theorem strncmp_eq_iff (a b : String) (n : Nat) (h : b.length < n) :
    strncmp_eq a b n = true ↔ a = b := by
  unfold strncmp_eq
  rw [beq_iff_eq]
  have hb : b.toList.length < n := h
  constructor
  · intro heq
    rw [List.take_of_length_le (Nat.le_of_lt hb)] at heq
    have hlen : (a.toList.take n).length = b.toList.length := by rw [heq]
    rw [List.length_take] at hlen
    have ha : a.toList.length ≤ n := by omega
    rw [List.take_of_length_le ha] at heq
    exact String.ext heq
  · intro heq
    rw [heq]

theorem mac_loop_frame (eth_offset : Nat) (macs : List (Bool × Nat)) :
    ∀ (j : Nat) (b : Board),
      (mac_loop eth_offset macs j b).daughter_card_detect_flags =
        b.daughter_card_detect_flags ∧
      gpio_reads (mac_loop eth_offset macs j b).log = gpio_reads b.log := by
  induction macs with
  | nil => intro j b; exact ⟨rfl, rfl⟩
  | cons m rest ih =>
    intro j b
    simp only [mac_loop]
    split_ifs
    · exact ih (j + 1) b
    · obtain ⟨h1, h2⟩ := ih (j + 1) (b.emit (.eth_env_set_enetaddr_by_index (eth_offset + j) m.2))
      rw [h1, h2]
      simp [gpio_reads_append]

/-- One pass of the detection loop with a successful GPIO read: no early
return, the flag of the card is set exactly when the card is found, and no
other flag changes. -/
theorem detect_card_spec (k : Consts) (spl_build : Bool) (e : ProbeEnv) (card : ExtCard)
    (i : Nat) (b : Board) (h : 0 ≤ e.gpio_value i card.slot_index) :
    (detect_card k spl_build e card i b).1 = none ∧
    (detect_card k spl_build e card i b).2.daughter_card_detect_flags =
      (if detect_flag k e card i then b.daughter_card_detect_flags.set i true
       else b.daughter_card_detect_flags) ∧
    gpio_reads (detect_card k spl_build e card i b).2.log =
      gpio_reads b.log ++ [card.slot_index] := by
  have hn : ¬ e.gpio_value i card.slot_index < 0 := not_lt.mpr h
  unfold detect_card detect_flag
  simp only [hn, if_false]
  by_cases hg : e.gpio_value i card.slot_index = 0
  · by_cases hr : (e.eeprom i (i2c_addr card.slot_index)).ret = 0
    · cases hs : strncmp_eq (e.eeprom i (i2c_addr card.slot_index)).name card.card_name
          k.EEPROM_NAME_SIZE
      · simp [hg, hr, hs, gpio_reads_append]
      · cases spl_build
        · simp [hg, hr, hs, mac_loop_frame, gpio_reads_append]
        · simp [hg, hr, hs, gpio_reads_append]
    · simp [hg, hr, gpio_reads_append]
  · simp [hg, gpio_reads_append]

theorem init_gpio_spec (e : ProbeEnv) (slot : Nat) (name : String) (b : Board)
    (h : 0 ≤ e.gpio_lookup slot ∧ 0 ≤ e.gpio_request slot ∧ 0 ≤ e.gpio_set_dir slot) :
    ¬ (init_daughtercard_det_gpio e slot name b).1 < 0 ∧
    (init_daughtercard_det_gpio e slot name b).2.daughter_card_detect_flags =
      b.daughter_card_detect_flags ∧
    gpio_reads (init_daughtercard_det_gpio e slot name b).2.log = gpio_reads b.log := by
  obtain ⟨h1, h2, h3⟩ := h
  unfold init_daughtercard_det_gpio
  simp [not_lt.mpr h1, not_lt.mpr h2, h3, gpio_reads_append]

theorem init_loop_spec (e : ProbeEnv)
    (h : ∀ slot, 0 ≤ e.gpio_lookup slot ∧ 0 ≤ e.gpio_request slot ∧ 0 ≤ e.gpio_set_dir slot)
    (slots : List Slot) :
    ∀ (slot : Nat) (b : Board),
      (init_loop e slots slot b).1 = none ∧
      (init_loop e slots slot b).2.daughter_card_detect_flags = b.daughter_card_detect_flags ∧
      gpio_reads (init_loop e slots slot b).2.log = gpio_reads b.log := by
  induction slots with
  | nil => intro slot b; exact ⟨rfl, rfl, rfl⟩
  | cons s rest ih =>
    intro slot b
    obtain ⟨h1, h2, h3⟩ := init_gpio_spec e slot s.gpio_name b (h slot)
    obtain ⟨i1, i2, i3⟩ := ih (slot + 1) (init_daughtercard_det_gpio e slot s.gpio_name b).2
    simp only [init_loop, h1, if_false]
    exact ⟨i1, i2.trans h2, i3.trans h3⟩

theorem detect_loop_spec (k : Consts) (spl_build : Bool) (e : ProbeEnv)
    (h : ∀ i slot, 0 ≤ e.gpio_value i slot) (cards : List ExtCard) :
    ∀ (i : Nat) (b : Board),
      (detect_loop k spl_build e cards i b).1 = none ∧
      (detect_loop k spl_build e cards i b).2.daughter_card_detect_flags =
        detect_flags k e cards i b.daughter_card_detect_flags ∧
      gpio_reads (detect_loop k spl_build e cards i b).2.log =
        gpio_reads b.log ++ cards.map (fun card => card.slot_index) := by
  induction cards with
  | nil => intro i b; simp [detect_loop, detect_flags]
  | cons card rest ih =>
    intro i b
    obtain ⟨h1, h2, h3⟩ := detect_card_spec k spl_build e card i b (h i card.slot_index)
    rcases hdc : detect_card k spl_build e card i b with ⟨o, b1⟩
    rw [hdc] at h1 h2 h3
    simp only at h1 h2 h3
    subst h1
    obtain ⟨i1, i2, i3⟩ := ih (i + 1) b1
    simp only [detect_loop, hdc, detect_flags]
    rw [h2] at i2
    rw [h3] at i3
    refine ⟨i1, i2, ?_⟩
    rw [i3]
    simp

theorem overlay_phase_frame (k : Consts) (e : ProbeEnv) (b : Board) :
    (overlay_phase k e b).2.daughter_card_detect_flags = b.daughter_card_detect_flags ∧
    gpio_reads (overlay_phase k e b).2.log = gpio_reads b.log := by
  unfold overlay_phase
  split
  · exact ⟨rfl, rfl⟩
  · split_ifs <;> simp [gpio_reads_append]

/-- With every GPIO call succeeding, `probe_daughtercards` leaves the flags
computed from cleared flags and has read the presence GPIO of every card. -/
theorem probe_daughtercards_spec (k : Consts) (spl_build : Bool) (e : ProbeEnv) (b : Board)
    (hinit : ∀ slot,
      0 ≤ e.gpio_lookup slot ∧ 0 ≤ e.gpio_request slot ∧ 0 ≤ e.gpio_set_dir slot)
    (hread : ∀ i slot, 0 ≤ e.gpio_value i slot) :
    (probe_daughtercards k spl_build e b).2.daughter_card_detect_flags =
      detect_flags k e ext_cards 0 (List.replicate ext_cards.length false) ∧
    gpio_reads (probe_daughtercards k spl_build e b).2.log =
      gpio_reads b.log ++ ext_cards.map (fun card => card.slot_index) := by
  obtain ⟨i1, i2, i3⟩ := init_loop_spec e hinit slot_map 0 b.clear_flags
  rcases hi : init_loop e slot_map 0 b.clear_flags with ⟨o, b1⟩
  rw [hi] at i1 i2 i3
  simp only at i1 i2 i3
  subst i1
  obtain ⟨d1, d2, d3⟩ := detect_loop_spec k spl_build e hread ext_cards 0 b1
  rcases hd : detect_loop k spl_build e ext_cards 0 b1 with ⟨o, b2⟩
  rw [hd] at d1 d2 d3
  simp only at d1 d2 d3
  subst d1
  have hc : b.clear_flags.daughter_card_detect_flags = List.replicate ext_cards.length false :=
    rfl
  have hl : b.clear_flags.log = b.log := rfl
  rw [i2, hc] at d2
  rw [i3, hl] at d3
  obtain ⟨o1, o2⟩ := overlay_phase_frame k e b2
  unfold probe_daughtercards
  simp only [hi, hd]
  cases spl_build
  · simp only [Bool.false_eq_true, if_false]
    exact ⟨o1.trans d2, o2.trans d3⟩
  · simp only [if_true]
    exact ⟨d2, d3⟩

/-- On the table `ext_cards` the flags computed from cleared flags are the
five verdicts, in table order. -/
theorem detect_flags_ext_cards (k : Consts) (e : ProbeEnv) :
    detect_flags k e ext_cards 0 (List.replicate ext_cards.length false) =
      [ detect_flag k e ⟨AM65X_EVM_APP_BRD_DET, "AM6-GPAPPEVM", "k3-am654-gp.dtbo", 0⟩ 0,
        detect_flag k e ⟨AM65X_EVM_APP_BRD_DET, "AM6-IDKAPPEVM", "k3-am654-idk.dtbo", 3⟩ 1,
        detect_flag k e
          ⟨AM65X_EVM_SERDES_BRD_DET, "SER-PCIE2LEVM", "k3-am654-pcie-usb2.dtbo", 0⟩ 2,
        detect_flag k e
          ⟨AM65X_EVM_SERDES_BRD_DET, "SER-PCIEUSBEVM", "k3-am654-pcie-usb3.dtbo", 0⟩ 3,
        detect_flag k e
          ⟨AM65X_EVM_LCD_BRD_DET, "OLDI-LCD1EVM", "k3-am654-evm-oldi-lcd1evm.dtbo", 0⟩ 4 ] := by
  simp only [ext_cards, detect_flags, List.length, List.replicate]
  generalize detect_flag k e ⟨AM65X_EVM_APP_BRD_DET, "AM6-GPAPPEVM", "k3-am654-gp.dtbo", 0⟩ 0
    = d0
  generalize detect_flag k e ⟨AM65X_EVM_APP_BRD_DET, "AM6-IDKAPPEVM", "k3-am654-idk.dtbo", 3⟩
    (0 + 1) = d1
  generalize detect_flag k e
    ⟨AM65X_EVM_SERDES_BRD_DET, "SER-PCIE2LEVM", "k3-am654-pcie-usb2.dtbo", 0⟩ (0 + 1 + 1) = d2
  generalize detect_flag k e
    ⟨AM65X_EVM_SERDES_BRD_DET, "SER-PCIEUSBEVM", "k3-am654-pcie-usb3.dtbo", 0⟩ (0 + 1 + 1 + 1)
    = d3
  generalize detect_flag k e
    ⟨AM65X_EVM_LCD_BRD_DET, "OLDI-LCD1EVM", "k3-am654-evm-oldi-lcd1evm.dtbo", 0⟩
    (0 + 1 + 1 + 1 + 1) = d4
  cases d0 <;> cases d1 <;> cases d2 <;> cases d3 <;> cases d4 <;> rfl

theorem detect_flag_iff (k : Consts) (e : ProbeEnv) (card : ExtCard) (i : Nat)
    (h : card.card_name.length < k.EEPROM_NAME_SIZE) :
    detect_flag k e card i = true ↔
      e.gpio_value i card.slot_index = 0 ∧
      (e.eeprom i (i2c_addr card.slot_index)).ret = 0 ∧
      (e.eeprom i (i2c_addr card.slot_index)).name = card.card_name := by
  unfold detect_flag
  simp only [Bool.and_eq_true, decide_eq_true_eq, strncmp_eq_iff _ _ _ h, and_assoc]

theorem card_name_length (i : Nat) (card : ExtCard) (h : ext_cards[i]? = some card) :
    card.card_name.length ≤ 14 := by
  rcases i with _ | _ | _ | _ | _ | i <;> simp [ext_cards] at h <;> subst h <;> decide

theorem flag_detect_flags (k : Consts) (e : ProbeEnv) (i : Nat) (card : ExtCard)
    (h : ext_cards[i]? = some card) :
    flag (detect_flags k e ext_cards 0 (List.replicate ext_cards.length false)) i =
      detect_flag k e card i := by
  rw [detect_flags_ext_cards]
  rcases i with _ | _ | _ | _ | _ | i <;> simp [ext_cards] at h <;> subst h <;> rfl

theorem card_name_inj (i j : Nat) (ci cj : ExtCard) (hi : ext_cards[i]? = some ci)
    (hj : ext_cards[j]? = some cj) (h : ci.card_name = cj.card_name) : i = j := by
  rcases i with _ | _ | _ | _ | _ | i <;> simp [ext_cards] at hi <;> subst hi <;>
    rcases j with _ | _ | _ | _ | _ | j <;> simp [ext_cards] at hj <;> subst hj <;>
    first | rfl | exact absurd h (by decide)

/-- Claim C18: when all detection GPIOs initialise and every GPIO read
succeeds, after `probe_daughtercards` (SPL build or not) the detect flag of
card `i` is true exactly when the presence GPIO of its slot reads 0, the
EEPROM read at the slot's I2C address succeeds and the EEPROM name equals the
card name (the name array being longer than the names of the table); the
flags do not depend on the board state before the call; the presence GPIO of
every card of the table is read, whatever the EEPROM reads return; and with a
fixed EEPROM name per address at most one card per slot is flagged. -/
theorem daughtercard_detection (k : Consts) (spl_build : Bool) (e : ProbeEnv) (b : Board)
    (hk : 14 < k.EEPROM_NAME_SIZE)
    (hinit : ∀ slot,
      0 ≤ e.gpio_lookup slot ∧ 0 ≤ e.gpio_request slot ∧ 0 ≤ e.gpio_set_dir slot)
    (hread : ∀ i slot, 0 ≤ e.gpio_value i slot) :
    (∀ i card, ext_cards[i]? = some card →
      (flag (probe_daughtercards k spl_build e b).2.daughter_card_detect_flags i = true ↔
        e.gpio_value i card.slot_index = 0 ∧
        (e.eeprom i (i2c_addr card.slot_index)).ret = 0 ∧
        (e.eeprom i (i2c_addr card.slot_index)).name = card.card_name)) ∧
    (∀ b2 : Board,
      (probe_daughtercards k spl_build e b2).2.daughter_card_detect_flags =
        (probe_daughtercards k spl_build e b).2.daughter_card_detect_flags) ∧
    gpio_reads (probe_daughtercards k spl_build e b).2.log =
      gpio_reads b.log ++ [AM65X_EVM_APP_BRD_DET, AM65X_EVM_APP_BRD_DET,
        AM65X_EVM_SERDES_BRD_DET, AM65X_EVM_SERDES_BRD_DET, AM65X_EVM_LCD_BRD_DET] ∧
    ((∀ i j addr, (e.eeprom i addr).name = (e.eeprom j addr).name) →
      ∀ i j ci cj, ext_cards[i]? = some ci → ext_cards[j]? = some cj →
        ci.slot_index = cj.slot_index →
        flag (probe_daughtercards k spl_build e b).2.daughter_card_detect_flags i = true →
        flag (probe_daughtercards k spl_build e b).2.daughter_card_detect_flags j = true →
        i = j) := by
  have hflag : ∀ i card, ext_cards[i]? = some card →
      (flag (probe_daughtercards k spl_build e b).2.daughter_card_detect_flags i = true ↔
        e.gpio_value i card.slot_index = 0 ∧
        (e.eeprom i (i2c_addr card.slot_index)).ret = 0 ∧
        (e.eeprom i (i2c_addr card.slot_index)).name = card.card_name) := by
    intro i card hc
    rw [(probe_daughtercards_spec k spl_build e b hinit hread).1, flag_detect_flags k e i card hc]
    exact detect_flag_iff k e card i (lt_of_le_of_lt (card_name_length i card hc) hk)
  refine ⟨hflag, ?_, (probe_daughtercards_spec k spl_build e b hinit hread).2, ?_⟩
  · intro b2
    rw [(probe_daughtercards_spec k spl_build e b hinit hread).1,
      (probe_daughtercards_spec k spl_build e b2 hinit hread).1]
  · intro hfix i j ci cj hi hj hslot fi fj
    obtain ⟨-, -, ni⟩ := (hflag i ci hi).mp fi
    obtain ⟨-, -, nj⟩ := (hflag j cj hj).mp fj
    apply card_name_inj i j ci cj hi hj
    rw [← ni, ← nj, hslot]
    exact hfix i j _

/-- Claim C18 on a board with the IDK application card and the two-lane PCIe
card: exactly the flags of table entries 1 and 2 are set. -/
theorem daughtercard_detection_witness :
    14 < defaultConsts.EEPROM_NAME_SIZE ∧
    (probe_daughtercards defaultConsts false ProbeEnv.idk_pcie
      Board.init).2.daughter_card_detect_flags = [false, true, true, false, false] ∧
    (flag (probe_daughtercards defaultConsts false ProbeEnv.idk_pcie
        Board.init).2.daughter_card_detect_flags 1 = true ↔
      ProbeEnv.idk_pcie.gpio_value 1 AM65X_EVM_APP_BRD_DET = 0 ∧
      (ProbeEnv.idk_pcie.eeprom 1 (i2c_addr AM65X_EVM_APP_BRD_DET)).ret = 0 ∧
      (ProbeEnv.idk_pcie.eeprom 1 (i2c_addr AM65X_EVM_APP_BRD_DET)).name =
        "AM6-IDKAPPEVM") :=
  ⟨by decide, by decide,
    (daughtercard_detection defaultConsts false ProbeEnv.idk_pcie Board.init (by decide)
      (fun _ => ⟨le_refl _, le_refl _, le_refl _⟩)
      (fun _ slot => by
        show (0 : Int) ≤ if slot = AM65X_EVM_LCD_BRD_DET then 1 else 0
        split_ifs <;> decide)).1 1
      ⟨AM65X_EVM_APP_BRD_DET, "AM6-IDKAPPEVM", "k3-am654-idk.dtbo", 3⟩ rfl⟩

end Evm

namespace Sdhci

/-! ## `am654_sdhci_init` -/

/-- The test `~val & CALDONE_MASK` on a 32-bit value holds exactly when
`CALDONE` is clear in the value. -/
theorem not_caldone_iff (v : Nat) (h : v < 2 ^ 32) :
    (2 ^ 32 - 1 - v) &&& CALDONE_MASK ≠ 0 ↔ v &&& CALDONE_MASK = 0 := by
  have e1 : 2 ^ 32 - 1 - v = 2 ^ 32 - (v + 1) := by omega
  have hm : CALDONE_MASK = 2 ^ 1 := rfl
  have ht : (2 ^ 32 - (v + 1)).testBit 1 = !v.testBit 1 := by
    rw [Nat.testBit_two_pow_sub_succ h]
    simp
  rw [e1, hm, Nat.and_two_pow, Nat.and_two_pow, ht]
  cases v.testBit 1 <;> simp

@[simp] theorem plat_emit_non_removable (p : Plat) (e : Event) :
    (p.emit e).non_removable = p.non_removable := rfl

/-- C21: `am654_sdhci_init` first clears OTAP enable and select in
`PHY_CTRL4` and reads `PHY_STAT1`.  With `CALDONE` set in the value read it
sets no `PDB`, makes no poll, clears `IOMUX_ENABLE`, writes the slot type and
returns 0.  With `CALDONE` clear it sets `PDB` and polls; a failing poll is
returned at once, with no `IOMUX_ENABLE` and no slot type write after it; a
poll returning 0 is followed by the `IOMUX_ENABLE` clear and the slot type
write, and the function returns 0.  The slot type written under
`SLOTTYPE_MASK` is `SLOTTYPE_EMBEDDED` when `non_removable` is true and 0
otherwise; the platform data itself is not changed. -/
theorem init_calibration_sequence (stat1 : Nat) (poll : Int) (plat : Plat) :
    ((stat1 % 2 ^ 32) &&& CALDONE_MASK ≠ 0 →
      (am654_sdhci_init stat1 poll plat).1 = 0 ∧
      (am654_sdhci_init stat1 poll plat).2.log = plat.log ++
        [Event.regmap_update_bits PHY_CTRL4 (OTAPDLYENA_MASK ||| OTAPDLYSEL_MASK) 0,
         Event.regmap_read PHY_STAT1,
         Event.regmap_update_bits PHY_CTRL1 IOMUX_ENABLE_MASK 0,
         Event.regmap_update_bits CTL_CFG_2 SLOTTYPE_MASK
           (if plat.non_removable then SLOTTYPE_EMBEDDED else 0)]) ∧
    ((stat1 % 2 ^ 32) &&& CALDONE_MASK = 0 → poll ≠ 0 →
      (am654_sdhci_init stat1 poll plat).1 = poll ∧
      (am654_sdhci_init stat1 poll plat).2.log = plat.log ++
        [Event.regmap_update_bits PHY_CTRL4 (OTAPDLYENA_MASK ||| OTAPDLYSEL_MASK) 0,
         Event.regmap_read PHY_STAT1,
         Event.regmap_update_bits PHY_CTRL1 PDB_MASK PDB_MASK,
         Event.regmap_read_poll_timeout PHY_STAT1 CALDONE_MASK]) ∧
    ((stat1 % 2 ^ 32) &&& CALDONE_MASK = 0 → poll = 0 →
      (am654_sdhci_init stat1 poll plat).1 = 0 ∧
      (am654_sdhci_init stat1 poll plat).2.log = plat.log ++
        [Event.regmap_update_bits PHY_CTRL4 (OTAPDLYENA_MASK ||| OTAPDLYSEL_MASK) 0,
         Event.regmap_read PHY_STAT1,
         Event.regmap_update_bits PHY_CTRL1 PDB_MASK PDB_MASK,
         Event.regmap_read_poll_timeout PHY_STAT1 CALDONE_MASK,
         Event.regmap_update_bits PHY_CTRL1 IOMUX_ENABLE_MASK 0,
         Event.regmap_update_bits CTL_CFG_2 SLOTTYPE_MASK
           (if plat.non_removable then SLOTTYPE_EMBEDDED else 0)]) ∧
    ((am654_sdhci_init stat1 poll plat).1 ≠ 0 ↔
      ((stat1 % 2 ^ 32) &&& CALDONE_MASK = 0 ∧ poll ≠ 0)) ∧
    (SLOTTYPE_EMBEDDED &&& SLOTTYPE_MASK = SLOTTYPE_EMBEDDED ∧
      SLOTTYPE_EMBEDDED ≠ 0) ∧
    (am654_sdhci_init stat1 poll plat).2 =
      { plat with log := (am654_sdhci_init stat1 poll plat).2.log } := by
  have hc := not_caldone_iff (stat1 % 2 ^ 32) (Nat.mod_lt _ (by norm_num))
  have hset : (stat1 % 2 ^ 32) &&& CALDONE_MASK ≠ 0 →
      am654_sdhci_init stat1 poll plat =
        (0, (((plat.emit
          (.regmap_update_bits PHY_CTRL4 (OTAPDLYENA_MASK ||| OTAPDLYSEL_MASK) 0)).emit
          (.regmap_read PHY_STAT1)).emit (.regmap_update_bits PHY_CTRL1 IOMUX_ENABLE_MASK 0)).emit
          (.regmap_update_bits CTL_CFG_2 SLOTTYPE_MASK
            (if plat.non_removable then SLOTTYPE_EMBEDDED else 0))) := by
    intro h
    have hn : ¬ (2 ^ 32 - 1 - stat1 % 2 ^ 32) &&& CALDONE_MASK ≠ 0 := fun hx => h (hc.mp hx)
    unfold am654_sdhci_init
    simp only []
    rw [if_neg hn]
    simp
  have hfail : (stat1 % 2 ^ 32) &&& CALDONE_MASK = 0 → poll ≠ 0 →
      am654_sdhci_init stat1 poll plat =
        (poll, (((plat.emit
          (.regmap_update_bits PHY_CTRL4 (OTAPDLYENA_MASK ||| OTAPDLYSEL_MASK) 0)).emit
          (.regmap_read PHY_STAT1)).emit (.regmap_update_bits PHY_CTRL1 PDB_MASK PDB_MASK)).emit
          (.regmap_read_poll_timeout PHY_STAT1 CALDONE_MASK)) := by
    intro h hp
    unfold am654_sdhci_init
    simp only []
    rw [if_pos (hc.mpr h)]
    simp [hp]
  have hdone : (stat1 % 2 ^ 32) &&& CALDONE_MASK = 0 → poll = 0 →
      am654_sdhci_init stat1 poll plat =
        (0, (((((plat.emit
          (.regmap_update_bits PHY_CTRL4 (OTAPDLYENA_MASK ||| OTAPDLYSEL_MASK) 0)).emit
          (.regmap_read PHY_STAT1)).emit (.regmap_update_bits PHY_CTRL1 PDB_MASK PDB_MASK)).emit
          (.regmap_read_poll_timeout PHY_STAT1 CALDONE_MASK)).emit
          (.regmap_update_bits PHY_CTRL1 IOMUX_ENABLE_MASK 0)).emit
          (.regmap_update_bits CTL_CFG_2 SLOTTYPE_MASK
            (if plat.non_removable then SLOTTYPE_EMBEDDED else 0))) := by
    intro h hp
    unfold am654_sdhci_init
    simp only []
    rw [if_pos (hc.mpr h)]
    simp [hp]
  refine ⟨?_, ?_, ?_, ?_, by decide, ?_⟩
  · intro h
    rw [hset h]
    simp
  · intro h hp
    rw [hfail h hp]
    simp
  · intro h hp
    rw [hdone h hp]
    simp
  · by_cases h : (stat1 % 2 ^ 32) &&& CALDONE_MASK = 0
    · by_cases hp : poll = 0
      · rw [hdone h hp]
        exact ⟨fun hx => absurd rfl hx, fun hx => absurd hp hx.2⟩
      · rw [hfail h hp]
        exact ⟨fun _ => ⟨h, hp⟩, fun _ => hp⟩
    · rw [hset h]
      exact ⟨fun hx => absurd rfl hx, fun hx => absurd hx.1 h⟩
  · by_cases h : (stat1 % 2 ^ 32) &&& CALDONE_MASK = 0
    · by_cases hp : poll = 0
      · rw [hdone h hp]
        rfl
      · rw [hfail h hp]
        rfl
    · rw [hset h]
      rfl

/-- An eMMC slot whose calibration poll times out: the error of the poll is
returned after the `PDB` write, and nothing is written after the poll. -/
theorem init_calibration_timeout_example :
    am654_sdhci_init 0 (-110) { Plat.sample with non_removable := true } =
      (-110, { Plat.sample with
        non_removable := true,
        log := [Event.regmap_update_bits 0x10C 0x10F000 0, Event.regmap_read 0x130,
          Event.regmap_update_bits 0x100 1 1, Event.regmap_read_poll_timeout 0x130 2] }) ∧
    (am654_sdhci_init 2 (-110) { Plat.sample with non_removable := true }).1 = 0 ∧
    (am654_sdhci_init 2 (-110) { Plat.sample with non_removable := true }).2.log =
      [Event.regmap_update_bits 0x10C 0x10F000 0, Event.regmap_read 0x130,
       Event.regmap_update_bits 0x100 0x80000000 0,
       Event.regmap_update_bits 0x14 0xC0000000 0x40000000] := by
  decide

end Sdhci
